import Mathlib

/-!
# Rasqal expression evaluation (`rasqal_expr_evaluate.c`)

A shallow embedding of the expression evaluator of the Rasqal RDF query
library, and theorems about it.

Conventions of the embedding

* A C pointer that may be `NULL` is an `Option`; `none` is `NULL`.
* A C string is the list of its characters before the terminating NUL;
  reading `*p` at the end of the list reads the terminator, written `none`.
* A C `int` is an `Int`; a truth test `if(x)` is `x ≠ 0`.
* An `int *error_p` out-parameter of a collaborator is returned as a `Bool`
  next to the function value: `true` when the collaborator stores 1 through
  the pointer, `false` when it leaves the pointed-to `int` untouched.
* Memory management (`rasqal_free_literal`, `RASQAL_MALLOC`, reference
  counts) has no counterpart: allocation always succeeds and a copy of a
  value is the value.
-/

/-! ## Language-range matching -/

/-- C library `tolower` in the "C" locale: `A`..`Z` go to `a`..`z`, every
other character is unchanged. -/
def tolower (c : Char) : Char :=
  if 65 ≤ c.toNat ∧ c.toNat ≤ 90 then Char.ofNat (c.toNat + 32) else c

/-- C library `toupper` in the "C" locale: `a`..`z` go to `A`..`Z`, every
other character is unchanged. -/
def toupper (c : Char) : Char :=
  if 97 ≤ c.toNat ∧ c.toNat ≤ 122 then Char.ofNat (c.toNat - 32) else c

/-- The `while(1)` loop of `rasqal_language_matches` (lines 91-113).

```
char tag_c   = tolower(*lang_tag++);
char range_c = tolower(*lang_range++);
if ((!tag_c && !range_c) || (!range_c && tag_c == '-')) { b = 1; break; }
if (range_c != tag_c) break;            (b is still 0)
```

`tag_c` and `range_c` are `none` for the terminating NUL (`tolower(0)` is 0).
The loop goes round again only when `range_c == tag_c` and both are
characters, so `lang_tag` is not at its terminator there. -/
def rasqal_language_matches_loop (lang_tag lang_range : List Char) : Bool :=
  let tag_c := lang_tag.head?.map tolower
  let range_c := lang_range.head?.map tolower
  if (tag_c = none ∧ range_c = none) ∨ (range_c = none ∧ tag_c = some '-') then
    true
  else if range_c ≠ tag_c then
    false
  else
    match lang_tag with
    | [] => false
    | _ :: tag_next => rasqal_language_matches_loop tag_next lang_range.tail

/-- Embedding of `rasqal_language_matches` (lines 69-116): the result is
`true` for the C result 1 and `false` for 0. -/
def rasqal_language_matches (lang_tag lang_range : Option (List Char)) : Bool :=
  match lang_tag, lang_range with
  | some tag, some range =>
    -- if(!(lang_tag && lang_range && *lang_tag && *lang_range)) return 0;
    if tag.head? = none ∨ range.head? = none then
      false
    -- if(lang_range[0] == '*') { if(!lang_range[1]) b = 1; return b; }
    else if range.head? = some '*' then
      (if range.tail.head? = none then true else false)
    else
      rasqal_language_matches_loop tag range
  | _, _ => false

/-- The relation "`s'` is `s` with some ASCII letters replaced by their upper-
or lower-case counterparts": position by position, the character is kept,
lower-cased or upper-cased. -/
def recased (s s' : List Char) : Prop :=
  List.Forall₂ (fun c c' => c' = c ∨ c' = tolower c ∨ c' = toupper c) s s'

/-! ## Data model -/

/-- Modelled from the spec: the enumeration `rasqal_literal_type` is declared
in `rasqal.h`; §3 lists the kinds of Term Value (Boolean, Integer, Decimal,
Float, Double, String, URI, BlankNode, DateTime, VariableRef). The tags are
those the evaluator names, completed with the kinds of §3. -/
inductive rasqal_literal_type where
  | RASQAL_LITERAL_UNKNOWN
  | RASQAL_LITERAL_BLANK
  | RASQAL_LITERAL_URI
  | RASQAL_LITERAL_STRING
  | RASQAL_LITERAL_XSD_STRING
  | RASQAL_LITERAL_BOOLEAN
  | RASQAL_LITERAL_INTEGER
  | RASQAL_LITERAL_FLOAT
  | RASQAL_LITERAL_DOUBLE
  | RASQAL_LITERAL_DECIMAL
  | RASQAL_LITERAL_DATETIME
  | RASQAL_LITERAL_VARIABLE
  deriving DecidableEq, Repr

/-- A `raptor_uri` is represented by its string. -/
abbrev raptor_uri := String

/-- Modelled from the spec: `struct rasqal_variable_s` is declared in
`rasqal.h`; §3 gives `VariableRef(name, optional currently-bound Term
Value)`. The evaluator reads the field `value` only. -/
structure rasqal_variable_s (literal : Type) where
  name : String
  value : Option literal

/-- Modelled from the spec: `struct rasqal_literal_s` is declared in
`rasqal.h`. The fields are those the evaluator reads (`type`, `string`,
`language`, `datatype`) and the members of the union `value` that hold what
§3 gives a Boolean or Integer (`value.integer`), a URI (`value.uri`) and a
VariableRef (`value.variable`). -/
inductive rasqal_literal where
  | mk (type : rasqal_literal_type) (string : Option String) (language : Option String)
      (datatype : Option raptor_uri) (value_integer : Int) (value_uri : Option raptor_uri)
      (value_variable : Option (rasqal_variable_s rasqal_literal))

/-- A variable as the literal structure holds it. -/
abbrev rasqal_variable := rasqal_variable_s rasqal_literal

/-- Field `type` of a literal. -/
def rasqal_literal.type : rasqal_literal → rasqal_literal_type
  | .mk t _ _ _ _ _ _ => t

/-- Field `string` of a literal. -/
def rasqal_literal.string : rasqal_literal → Option String
  | .mk _ s _ _ _ _ _ => s

/-- Field `language` of a literal. -/
def rasqal_literal.language : rasqal_literal → Option String
  | .mk _ _ l _ _ _ _ => l

/-- Field `datatype` of a literal. -/
def rasqal_literal.datatype : rasqal_literal → Option raptor_uri
  | .mk _ _ _ d _ _ _ => d

/-- Union member `value.integer` of a literal. -/
def rasqal_literal.value_integer : rasqal_literal → Int
  | .mk _ _ _ _ i _ _ => i

/-- Union member `value.uri` of a literal. -/
def rasqal_literal.value_uri : rasqal_literal → Option raptor_uri
  | .mk _ _ _ _ _ u _ => u

/-- Union member `value.variable` of a literal. -/
def rasqal_literal.value_variable : rasqal_literal → Option rasqal_variable
  | .mk _ _ _ _ _ _ v => v

/-- Modelled from the spec: the enumeration `rasqal_op` is declared in
`rasqal.h`. The tags are the case labels of the dispatcher (lines 885-1467);
`unrecognised` stands for every other value the `op` field can hold; the
dispatcher sends them all to `default:`. -/
inductive rasqal_op where
  | RASQAL_EXPR_UNKNOWN
  | RASQAL_EXPR_AND
  | RASQAL_EXPR_OR
  | RASQAL_EXPR_EQ
  | RASQAL_EXPR_NEQ
  | RASQAL_EXPR_LT
  | RASQAL_EXPR_GT
  | RASQAL_EXPR_LE
  | RASQAL_EXPR_GE
  | RASQAL_EXPR_UMINUS
  | RASQAL_EXPR_PLUS
  | RASQAL_EXPR_MINUS
  | RASQAL_EXPR_STAR
  | RASQAL_EXPR_SLASH
  | RASQAL_EXPR_REM
  | RASQAL_EXPR_STR_EQ
  | RASQAL_EXPR_STR_NEQ
  | RASQAL_EXPR_STR_MATCH
  | RASQAL_EXPR_STR_NMATCH
  | RASQAL_EXPR_TILDE
  | RASQAL_EXPR_BANG
  | RASQAL_EXPR_LITERAL
  | RASQAL_EXPR_FUNCTION
  | RASQAL_EXPR_BOUND
  | RASQAL_EXPR_STR
  | RASQAL_EXPR_LANG
  | RASQAL_EXPR_DATATYPE
  | RASQAL_EXPR_ISURI
  | RASQAL_EXPR_ISBLANK
  | RASQAL_EXPR_ISLITERAL
  | RASQAL_EXPR_CAST
  | RASQAL_EXPR_ORDER_COND_ASC
  | RASQAL_EXPR_ORDER_COND_DESC
  | RASQAL_EXPR_LANGMATCHES
  | RASQAL_EXPR_REGEX
  | RASQAL_EXPR_GROUP_COND_ASC
  | RASQAL_EXPR_GROUP_COND_DESC
  | RASQAL_EXPR_COUNT
  | RASQAL_EXPR_VARSTAR
  | RASQAL_EXPR_SAMETERM
  | RASQAL_EXPR_SUM
  | RASQAL_EXPR_AVG
  | RASQAL_EXPR_MIN
  | RASQAL_EXPR_MAX
  | RASQAL_EXPR_COALESCE
  | RASQAL_EXPR_IF
  | RASQAL_EXPR_URI
  | RASQAL_EXPR_IRI
  | RASQAL_EXPR_STRLANG
  | RASQAL_EXPR_STRDT
  | RASQAL_EXPR_BNODE
  | RASQAL_EXPR_GROUP_CONCAT
  | RASQAL_EXPR_SAMPLE
  | RASQAL_EXPR_IN
  | RASQAL_EXPR_NOT_IN
  | RASQAL_EXPR_ISNUMERIC
  | RASQAL_EXPR_YEAR
  | RASQAL_EXPR_MONTH
  | RASQAL_EXPR_DAY
  | RASQAL_EXPR_HOURS
  | RASQAL_EXPR_MINUTES
  | RASQAL_EXPR_SECONDS
  | RASQAL_EXPR_TIMEZONE
  | RASQAL_EXPR_CURRENT_DATETIME
  | RASQAL_EXPR_NOW
  | RASQAL_EXPR_FROM_UNIXTIME
  | RASQAL_EXPR_TO_UNIXTIME
  | RASQAL_EXPR_CONCAT
  | RASQAL_EXPR_STRLEN
  | RASQAL_EXPR_SUBSTR
  | RASQAL_EXPR_UCASE
  | RASQAL_EXPR_LCASE
  | RASQAL_EXPR_STRSTARTS
  | RASQAL_EXPR_STRENDS
  | RASQAL_EXPR_CONTAINS
  | RASQAL_EXPR_ENCODE_FOR_URI
  | RASQAL_EXPR_TZ
  | unrecognised
  deriving DecidableEq, Repr

/-- Modelled from the spec: `struct rasqal_expression_s` is declared in
`rasqal.h`; §3 gives the operator tag, the operand slots `arg1`, `arg2`,
`arg3`, the embedded `literal` of a leaf, the `name` of a cast and the
ordered operand sequence `args`. A sequence entry can be `NULL` (line 534
tests it); an absent sequence has no entry to visit, like an empty one. -/
inductive rasqal_expression where
  | mk (op : rasqal_op) (arg1 arg2 arg3 : Option rasqal_expression)
      (literal : Option rasqal_literal) (name : Option raptor_uri)
      (args : List (Option rasqal_expression))

/-- Field `op` of an expression. -/
def rasqal_expression.op : rasqal_expression → rasqal_op
  | .mk op _ _ _ _ _ _ => op

/-- Field `arg1` of an expression. -/
def rasqal_expression.arg1 : rasqal_expression → Option rasqal_expression
  | .mk _ a _ _ _ _ _ => a

/-- Field `literal` of an expression. -/
def rasqal_expression.literal : rasqal_expression → Option rasqal_literal
  | .mk _ _ _ _ l _ _ => l

/-- Modelled from the spec: `rasqal_evaluation_context` is declared in
`rasqal.h`; §2 and §6 give the comparison/evaluation flags, the base URI and
the locator handed to the diagnostic sink. `flags` is the bit pattern of the
C `int`. -/
structure rasqal_evaluation_context where
  flags : Nat
  base_uri : Option raptor_uri
  locator : Option String
  deriving DecidableEq, Repr

/-- Modelled from the spec: the comparison flag `RASQAL_COMPARE_NOCASE` (the
case-insensitivity bit of §6). -/
def RASQAL_COMPARE_NOCASE : Nat := 1

/-- Modelled from the spec: the comparison flag `RASQAL_COMPARE_XQUERY` (the
XQuery-compatibility bit of §6). -/
def RASQAL_COMPARE_XQUERY : Nat := 2

/-- Severity of a diagnostic handed to `rasqal_log_error_simple`. -/
inductive raptor_log_level where
  | RAPTOR_LOG_LEVEL_WARN
  | RAPTOR_LOG_LEVEL_ERROR
  deriving DecidableEq, Repr

/-- One call of `rasqal_log_error_simple`: severity, location, message. -/
structure diagnostic where
  level : raptor_log_level
  locator : Option String
  message : String
  deriving DecidableEq, Repr

/-- Ways a call can end without returning to its caller. -/
inductive stop_reason where
  /-- The `RASQAL_FATAL3` of line 1465: message, then `abort()`. -/
  | fatal_unknown_operation
  /-- The macro `RASQAL_ASSERT_OBJECT_POINTER_RETURN_VALUE` when it is built to die. -/
  | assertion_died
  /-- The C program has no defined behaviour from here on. -/
  | undefined_behaviour
  /-- No outcome of the C program: a run with a bound on the depth of calls
  (`rasqal_expression_evaluate2_bounded`) has used the bound up. -/
  | out_of_fuel
  deriving DecidableEq, Repr

/-- Outcome of a piece of evaluator code: it stops the process, or it returns
a value after handing `log` to the diagnostic sink (oldest first). -/
inductive computation (α : Type) where
  | stopped (why : stop_reason)
  | ret (value : α) (log : List diagnostic)

/-- Run `c`, then `k` on its value; the diagnostics of both, in order. -/
def computation.bind {α β : Type} (c : computation α) (k : α → computation β) :
    computation β :=
  match c with
  | .stopped why => .stopped why
  | .ret a log =>
    match k a with
    | .stopped why => .stopped why
    | .ret b log' => .ret b (log ++ log')

/-- What `rasqal_expression_evaluate2` gives: a literal pointer, `none` being
the `NULL` of failure, unless the process stopped. -/
abbrev eval_result := computation (Option rasqal_literal)

/-- The label `failed:` of the evaluator functions: return `NULL`. -/
def failed : eval_result := .ret none []

/-- After a collaborator was given `&error`: 1 when it reported an error,
otherwise what the `int` held `before`. -/
def set_error (reported : Bool) (before : Int) : Int :=
  if reported then 1 else before

/-- The functions, macros and values the evaluator uses and
`rasqal_expr_evaluate.c` does not define. Each is a parameter of the
embedding; §6 lists them as the capability contract of the collaborators.
A pair `(value, reported)` is a C result together with whether the function
stored 1 through its `int *error_p` argument. -/
structure collaborators where
  /-- Whether `RASQAL_ASSERT_OBJECT_POINTER_RETURN_VALUE` aborts on a `NULL`
  pointer (`true`) or just returns its value argument (`false`). -/
  assert_die : Bool
  /-- The `int` found in the union member `errs.errs.e2` when the dispatcher
  is entered: line 877 initialises `errs.e`, which overlays `errs.errs.e1`
  only. -/
  uninitialised_e2 : Int
  rasqal_literal_as_boolean : rasqal_literal → Int × Bool
  rasqal_literal_as_integer : rasqal_literal → Int × Bool
  rasqal_literal_as_counted_string : rasqal_literal → Nat → Option String × Bool
  rasqal_literal_as_string_flags : rasqal_literal → Nat → Option String × Bool
  rasqal_literal_as_uri : rasqal_literal → Option raptor_uri
  rasqal_literal_equals_flags : rasqal_literal → rasqal_literal → Nat → Int × Bool
  rasqal_literal_not_equals_flags : rasqal_literal → rasqal_literal → Nat → Int × Bool
  rasqal_literal_compare : rasqal_literal → rasqal_literal → Nat → Int × Bool
  rasqal_literal_same_term : rasqal_literal → rasqal_literal → Int
  rasqal_literal_negate : rasqal_literal → Option rasqal_literal × Bool
  rasqal_literal_add : rasqal_literal → rasqal_literal → Option rasqal_literal × Bool
  rasqal_literal_subtract : rasqal_literal → rasqal_literal → Option rasqal_literal × Bool
  rasqal_literal_multiply : rasqal_literal → rasqal_literal → Option rasqal_literal × Bool
  rasqal_literal_divide : rasqal_literal → rasqal_literal → Option rasqal_literal × Bool
  rasqal_literal_cast :
    rasqal_literal → Option raptor_uri → Nat → Option rasqal_literal × Bool
  rasqal_literal_get_rdf_term_type : rasqal_literal → rasqal_literal_type
  rasqal_literal_is_numeric : rasqal_literal → Int
  rasqal_xsd_datatype_check : rasqal_literal_type → Option String → Nat → Int
  rasqal_xsd_datatype_type_to_uri : rasqal_literal_type → Option raptor_uri
  raptor_new_uri : Option String → Option raptor_uri
  raptor_new_uri_relative_to_base : Option raptor_uri → Option String → Option raptor_uri
  /-- The label `rasqal_world_generate_bnodeid` hands out at this call. -/
  rasqal_world_generate_bnodeid : Option String
  rasqal_expression_evaluate_langmatches :
    rasqal_expression → rasqal_evaluation_context → eval_result
  rasqal_expression_evaluate_strmatch :
    rasqal_expression → rasqal_evaluation_context → eval_result
  rasqal_expression_evaluate_concat :
    rasqal_expression → rasqal_evaluation_context → eval_result
  rasqal_expression_evaluate_datetime_part :
    rasqal_expression → rasqal_evaluation_context → eval_result
  rasqal_expression_evaluate_now :
    rasqal_expression → rasqal_evaluation_context → eval_result
  rasqal_expression_evaluate_to_unixtime :
    rasqal_expression → rasqal_evaluation_context → eval_result
  rasqal_expression_evaluate_from_unixtime :
    rasqal_expression → rasqal_evaluation_context → eval_result
  rasqal_expression_evaluate_strlen :
    rasqal_expression → rasqal_evaluation_context → eval_result
  rasqal_expression_evaluate_set_case :
    rasqal_expression → rasqal_evaluation_context → eval_result
  rasqal_expression_evaluate_str_prefix_suffix :
    rasqal_expression → rasqal_evaluation_context → eval_result
  rasqal_expression_evaluate_datetime_timezone :
    rasqal_expression → rasqal_evaluation_context → eval_result
  rasqal_expression_evaluate_datetime_tz :
    rasqal_expression → rasqal_evaluation_context → eval_result
  rasqal_expression_evaluate_encode_for_uri :
    rasqal_expression → rasqal_evaluation_context → eval_result
  rasqal_expression_evaluate_substr :
    rasqal_expression → rasqal_evaluation_context → eval_result

/-! ## Literal constructors and accessors defined in `rasqal_literal.c` -/

/-- Modelled from the spec: `rasqal_new_boolean_literal` is defined in
`rasqal_literal.c`; §6 gives the constructor `newBoolean`. The term has kind
Boolean, holds the given C truth value and spells it `true` or `false`. -/
def rasqal_new_boolean_literal (value : Int) : Option rasqal_literal :=
  some (.mk .RASQAL_LITERAL_BOOLEAN (some (if value ≠ 0 then "true" else "false"))
    none none value none none)

/-- Modelled from the spec: `rasqal_new_integer_literal` is defined in
`rasqal_literal.c`; §6 gives the constructor `newInteger`. The term has the
given kind, holds the given integer and spells it in decimal. -/
def rasqal_new_integer_literal (type : rasqal_literal_type) (integer : Int) :
    Option rasqal_literal :=
  some (.mk type (some (toString integer)) none none integer none none)

/-- Modelled from the spec: `rasqal_new_string_literal` is defined in
`rasqal_literal.c`; §6 gives the constructor `newString(value, language?,
datatype?)`. The term has kind String and carries what it is given. -/
def rasqal_new_string_literal (string : Option String) (language : Option String)
    (datatype : Option raptor_uri) : Option rasqal_literal :=
  some (.mk .RASQAL_LITERAL_STRING string language datatype 0 none none)

/-- Modelled from the spec: `rasqal_new_uri_literal` is defined in
`rasqal_literal.c`; §6 gives the constructor `newURI`. -/
def rasqal_new_uri_literal (uri : Option raptor_uri) : Option rasqal_literal :=
  some (.mk .RASQAL_LITERAL_URI none none none 0 uri none)

/-- Modelled from the spec: `rasqal_new_simple_literal` is defined in
`rasqal_literal.c`; §6 gives the constructor `newBlank(label)`, the only use
the evaluator makes of it. -/
def rasqal_new_simple_literal (type : rasqal_literal_type) (string : Option String) :
    Option rasqal_literal :=
  some (.mk type string none none 0 none none)

/-- Modelled from the spec: `rasqal_new_literal_from_literal` is defined in
`rasqal_literal.c`; §4.1 calls its result a fresh copy of the term: an equal
term, and `NULL` for `NULL`. -/
def rasqal_new_literal_from_literal (l : Option rasqal_literal) : Option rasqal_literal :=
  l

/-- Modelled from the spec: `rasqal_literal_as_variable` is defined in
`rasqal_literal.c`; §6 `resolveVariable` gives, with `isVariable`, the
variable of a VariableRef term, and `NULL` for every other term. -/
def rasqal_literal_as_variable (l : rasqal_literal) : Option rasqal_variable :=
  if l.type = .RASQAL_LITERAL_VARIABLE then l.value_variable else none

/-- Modelled from the spec: `rasqal_literal_value` is defined in
`rasqal_literal.c`; §4.1 (leaf literal) and the glossary (flattening) give
it: a VariableRef is replaced by its currently bound value, `NULL` when it is
unbound, and any other term is itself. -/
def rasqal_literal_value (l : Option rasqal_literal) : Option rasqal_literal :=
  match l with
  | none => none
  | some l =>
    if l.type = .RASQAL_LITERAL_VARIABLE then
      match l.value_variable with
      | some v => v.value
      | none => none
    else some l

/-! ## Special-form evaluators

The evaluators of lines 128-827 call `rasqal_expression_evaluate2` on operand
slots of their node. In the embedding the evaluation of an operand slot is an
argument of the evaluator: `arg1` is the outcome of
`rasqal_expression_evaluate2(e->arg1, ...)`, and an operand that the C code
evaluates later, or not at all, is a function from `Unit` that is applied
where the C code makes the call. The dispatcher supplies them. -/

/-- Embedding of `rasqal_expression_evaluate_strdt` (lines 128-197). -/
def rasqal_expression_evaluate_strdt (w : collaborators)
    (expr_context : rasqal_evaluation_context)
    (arg1 : eval_result) (arg2 : Unit → eval_result) : eval_result :=
  arg1.bind fun l1 =>
  match l1 with
  | none => failed
  | some l1 =>
    if l1.language ≠ none ∨ l1.datatype ≠ none then
      -- not a simple literal so return NULL success
      .ret none []
    else
      let s := w.rasqal_literal_as_counted_string l1 expr_context.flags
      let error := set_error s.2 0
      if error ≠ 0 then failed
      else
        (arg2 ()).bind fun l2 =>
        match l2 with
        | none => failed
        | some l2 =>
          let from_string : computation (Option raptor_uri) :=
            let uri_string := w.rasqal_literal_as_string_flags l2 expr_context.flags
            let error := set_error uri_string.2 error
            if error ≠ 0 then .ret none []
            else .ret (w.raptor_new_uri uri_string.1) []
          let dt_uri : computation (Option raptor_uri) :=
            match w.rasqal_literal_as_uri l2 with
            | some u => .ret (some u) []
            | none => from_string
          dt_uri.bind fun dt_uri =>
          match dt_uri with
          | none => failed
          | some dt_uri =>
            match s.1 with
            -- memcpy(new_s, s, len + 1) from a NULL s
            | none => .stopped .undefined_behaviour
            | some new_s =>
              .ret (rasqal_new_string_literal (some new_s) none (some dt_uri)) []

/-- Embedding of `rasqal_expression_evaluate_strlang` (lines 209-274). -/
def rasqal_expression_evaluate_strlang (w : collaborators)
    (expr_context : rasqal_evaluation_context)
    (arg1 : eval_result) (arg2 : Unit → eval_result) : eval_result :=
  arg1.bind fun l1 =>
  match l1 with
  | none => failed
  | some l1 =>
    if l1.language ≠ none ∨ l1.datatype ≠ none then
      -- not a simple literal so return NULL success
      .ret none []
    else
      let s := w.rasqal_literal_as_counted_string l1 expr_context.flags
      let error := set_error s.2 0
      if error ≠ 0 then failed
      else
        (arg2 ()).bind fun l2 =>
        match l2 with
        | none => failed
        | some l2 =>
          let lang := w.rasqal_literal_as_counted_string l2 expr_context.flags
          let error := set_error lang.2 error
          if error ≠ 0 then failed
          else
            match s.1, lang.1 with
            | some new_s, some new_lang =>
              .ret (rasqal_new_string_literal (some new_s) (some new_lang) none) []
            -- memcpy from a NULL s or a NULL lang
            | _, _ => .stopped .undefined_behaviour

/-- Lines 302-311, 621-630 and 687-696, shared by the type tests, LANG and
DATATYPE: when the evaluated operand is a variable literal, go on with the
value of the variable, and fail when it has none. -/
def resolve_evaluated_variable (l1 : rasqal_literal) : Option rasqal_literal :=
  match rasqal_literal_as_variable l1 with
  | some v => v.value
  | none => some l1

/-- Embedding of `rasqal_expression_evaluate_istype` (lines 288-332); `op`
is `e->op`. -/
def rasqal_expression_evaluate_istype (w : collaborators) (op : rasqal_op)
    (arg1 : eval_result) : eval_result :=
  arg1.bind fun l1 =>
  match l1 with
  | none => failed
  | some l1 =>
    match resolve_evaluated_variable l1 with
    | none => failed
    | some l1 =>
      let b : Int :=
        if op = .RASQAL_EXPR_ISBLANK then
          (if l1.type = .RASQAL_LITERAL_BLANK then 1 else 0)
        else if op = .RASQAL_EXPR_ISLITERAL then
          (if w.rasqal_literal_get_rdf_term_type l1 = .RASQAL_LITERAL_STRING then 1 else 0)
        else if op = .RASQAL_EXPR_ISURI then
          (if l1.type = .RASQAL_LITERAL_URI then 1 else 0)
        else
          w.rasqal_literal_is_numeric l1
      .ret (rasqal_new_boolean_literal b) []

/-- Embedding of `rasqal_expression_evaluate_bound` (lines 344-369). It makes
no call of `rasqal_expression_evaluate2`, so it takes the node itself. -/
def rasqal_expression_evaluate_bound (e : rasqal_expression) : Option rasqal_literal :=
  match e.arg1 with
  | none => none
  | some arg1 =>
    if arg1.op ≠ .RASQAL_EXPR_LITERAL then none
    else
      match arg1.literal with
      | none => none
      | some l1 =>
        if l1.type ≠ .RASQAL_LITERAL_VARIABLE then none
        else
          match rasqal_literal_as_variable l1 with
          | none => none
          | some v => rasqal_new_boolean_literal (if v.value.isSome then 1 else 0)

/-- Embedding of `rasqal_expression_evaluate_if` (lines 381-402). `arg2` and
`arg3` are the evaluations of `e->arg2` and `e->arg3`; line 401 makes one of
the two calls. -/
def rasqal_expression_evaluate_if (w : collaborators)
    (arg1 : eval_result) (arg2 arg3 : Unit → eval_result) : eval_result :=
  arg1.bind fun l1 =>
  match l1 with
  | none => .ret none []
  | some l1 =>
    let b := w.rasqal_literal_as_boolean l1
    let error := set_error b.2 0
    if error ≠ 0 then .ret none []
    else if b.1 ≠ 0 then arg2 () else arg3 ()

/-- Embedding of `rasqal_expression_evaluate_sameterm` (lines 414-446). -/
def rasqal_expression_evaluate_sameterm (w : collaborators)
    (arg1 : eval_result) (arg2 : Unit → eval_result) : eval_result :=
  arg1.bind fun l1 =>
  match l1 with
  | none => failed
  | some l1 =>
    (arg2 ()).bind fun l2 =>
    match l2 with
    | none => failed
    | some l2 =>
      let b := w.rasqal_literal_same_term l1 l2
      .ret (rasqal_new_boolean_literal b) []

/-- Embedding of `rasqal_expression_evaluate_in_set` (lines 459-511) around
its `for` loop. `op` is `e->op`; `loop l1` runs lines 473-499 with the
evaluated probe and gives `none` for `goto failed`, else the final `found`. -/
def rasqal_expression_evaluate_in_set (op : rasqal_op) (arg1 : eval_result)
    (loop : rasqal_literal → computation (Option Int)) : eval_result :=
  arg1.bind fun l1 =>
  match l1 with
  | none => failed
  | some l1 =>
    (loop l1).bind fun found =>
    match found with
    | none => failed
    | some found =>
      let found : Int :=
        if op = .RASQAL_EXPR_NOT_IN then (if found ≠ 0 then 0 else 1) else found
      .ret (rasqal_new_boolean_literal found) []

/-- Embedding of `rasqal_expression_evaluate_str` (lines 556-595). -/
def rasqal_expression_evaluate_str (w : collaborators)
    (expr_context : rasqal_evaluation_context) (arg1 : eval_result) : eval_result :=
  arg1.bind fun l1 =>
  match l1 with
  | none => .ret none []
  | some l1 =>
    -- flags removes RASQAL_COMPARE_XQUERY
    let s := w.rasqal_literal_as_counted_string l1
      (expr_context.flags &&& (0xFFFFFFFF ^^^ RASQAL_COMPARE_XQUERY))
    let error := set_error s.2 0
    match s.1 with
    | none => failed
    | some new_s =>
      if error ≠ 0 then failed
      else .ret (rasqal_new_string_literal (some new_s) none none) []

/-- Embedding of `rasqal_expression_evaluate_lang` (lines 607-661). -/
def rasqal_expression_evaluate_lang (w : collaborators) (arg1 : eval_result) :
    eval_result :=
  arg1.bind fun l1 =>
  match l1 with
  | none => failed
  | some l1 =>
    match resolve_evaluated_variable l1 with
    | none => failed
    | some l1 =>
      if w.rasqal_literal_get_rdf_term_type l1 ≠ .RASQAL_LITERAL_STRING then failed
      else
        match l1.language with
        | some language => .ret (rasqal_new_string_literal (some language) none none) []
        | none => .ret (rasqal_new_string_literal (some "") none none) []

/-- Embedding of `rasqal_expression_evaluate_datatype` (lines 673-726). -/
def rasqal_expression_evaluate_datatype (w : collaborators) (arg1 : eval_result) :
    eval_result :=
  arg1.bind fun l1 =>
  match l1 with
  | none => failed
  | some l1 =>
    match resolve_evaluated_variable l1 with
    | none => failed
    | some l1 =>
      if w.rasqal_literal_get_rdf_term_type l1 ≠ .RASQAL_LITERAL_STRING then failed
      else if l1.language ≠ none then failed
      else
        -- The datatype of a plain literal is xsd:string
        let dt_uri := l1.datatype
        let dt_uri :=
          if dt_uri = none ∧ l1.type = .RASQAL_LITERAL_STRING then
            w.rasqal_xsd_datatype_type_to_uri .RASQAL_LITERAL_XSD_STRING
          else dt_uri
        match dt_uri with
        | none => failed
        | some dt_uri => .ret (rasqal_new_uri_literal (some dt_uri)) []

/-- Embedding of `rasqal_expression_evaluate_uri_constructor` (lines
739-773). -/
def rasqal_expression_evaluate_uri_constructor (w : collaborators)
    (expr_context : rasqal_evaluation_context) (arg1 : eval_result) : eval_result :=
  arg1.bind fun l1 =>
  match l1 with
  | none => failed
  | some l1 =>
    let s := w.rasqal_literal_as_string_flags l1 expr_context.flags
    let error := set_error s.2 0
    if error ≠ 0 then failed
    else
      match w.raptor_new_uri_relative_to_base expr_context.base_uri s.1 with
      | none => failed
      | some dt_uri => .ret (rasqal_new_uri_literal (some dt_uri)) []

/-- Embedding of `rasqal_expression_evaluate_bnode_constructor` (lines
785-827). `arg1` is `none` when `e->arg1` is `NULL`, else the evaluation of
`e->arg1`. -/
def rasqal_expression_evaluate_bnode_constructor (w : collaborators)
    (expr_context : rasqal_evaluation_context) (arg1 : Option eval_result) :
    eval_result :=
  match arg1 with
  | some arg1 =>
    arg1.bind fun l1 =>
    match l1 with
    | none => failed
    | some l1 =>
      let s := w.rasqal_literal_as_counted_string l1 expr_context.flags
      let error := set_error s.2 0
      if error ≠ 0 then failed
      else
        match s.1 with
        -- memcpy(new_s, s, len + 1) from a NULL s
        | none => .stopped .undefined_behaviour
        | some new_s => .ret (rasqal_new_simple_literal .RASQAL_LITERAL_BLANK (some new_s)) []
  | none =>
    match w.rasqal_world_generate_bnodeid with
    | none => failed
    | some new_s => .ret (rasqal_new_simple_literal .RASQAL_LITERAL_BLANK (some new_s)) []

/-! ## The dispatcher -/

/-- The smallest C `int` (32 bits). -/
def INT_MIN : Int := -2147483648

/-- Lines 887-895, 897-905, 924-932 and 934-942: one operand of AND or OR,
already evaluated to `l1`, becomes the pair `(b, e)` of its truth value and
its error flag. -/
def evaluate_logical_operand (w : collaborators) (l1 : Option rasqal_literal) : Int × Int :=
  match l1 with
  | none => (0, 1)
  | some l1 =>
    let b := w.rasqal_literal_as_boolean l1
    (b.1, set_error b.2 0)

/-- The opening shared by the two-operand cases of the dispatcher (for
example lines 961-969): evaluate `e->arg1`, fail when it gives `NULL`,
evaluate `e->arg2`, fail when it gives `NULL`, and go on with both
literals. -/
def evaluate_two_operands (arg1 : eval_result) (arg2 : Unit → eval_result)
    (k : rasqal_literal → rasqal_literal → eval_result) : eval_result :=
  arg1.bind fun l1 =>
  match l1 with
  | none => failed
  | some l1 =>
    (arg2 ()).bind fun l2 =>
    match l2 with
    | none => failed
    | some l2 => k l1 l2

/-- The close shared by the cases that wrap a comparison (for example lines
1032-1038): `b` is the C truth value computed from the collaborator result,
`reported` whether the collaborator reported an error into `errs.e`, which
line 877 set to 0. -/
def boolean_unless_error (b : Bool) (reported : Bool) : eval_result :=
  if set_error reported 0 ≠ 0 then failed
  else .ret (rasqal_new_boolean_literal (if b then 1 else 0)) []

/-- The close shared by the cases whose result is the collaborator result
(for example lines 1150-1156): `goto failed` drops the result when the
collaborator reported an error into `errs.e`. -/
def result_unless_error (r : Option rasqal_literal × Bool) : eval_result :=
  if set_error r.2 0 ≠ 0 then failed else .ret r.1 []

/-- Modelled from the spec: the macro `RASQAL_FATAL3` is defined in
`rasqal_internal.h`; §4.1 and §7 give what it does at line 1465: a fatal
internal-consistency failure that aborts instead of returning a term or the
`NULL` of ordinary failure. -/
def RASQAL_FATAL3 : eval_result := .stopped .fatal_unknown_operation

mutual

/-- Embedding of `rasqal_expression_evaluate2` (lines 840-1491): the pointer
checks of lines 871-872, then the `switch`. -/
def rasqal_expression_evaluate2 (w : collaborators)
    (eval_context : rasqal_evaluation_context) : Option rasqal_expression → eval_result
  | none => if w.assert_die then .stopped .assertion_died else .ret none []
  | some e => rasqal_expression_evaluate2_switch w eval_context e

/-- The `switch(e->op)` of `rasqal_expression_evaluate2` (lines 885-1467)
with the exits `got_result:` and `failed:`. -/
def rasqal_expression_evaluate2_switch (w : collaborators)
    (eval_context : rasqal_evaluation_context) : rasqal_expression → eval_result
  | .mk op arg1 arg2 arg3 literal name args =>
    let e := rasqal_expression.mk op arg1 arg2 arg3 literal name args
    let flags := eval_context.flags
    match op with
    | .RASQAL_EXPR_AND =>
      (rasqal_expression_evaluate2 w eval_context arg1).bind fun l1 =>
      let o1 := evaluate_logical_operand w l1
      (rasqal_expression_evaluate2 w eval_context arg2).bind fun l1 =>
      let o2 := evaluate_logical_operand w l1
      let b1 := o1.1
      let e1 := o1.2
      let b2 := o2.1
      let e2 := o2.2
      if e1 = 0 ∧ e2 = 0 then
        -- No type error, answer is A && B
        .ret (rasqal_new_boolean_literal (if b1 ≠ 0 ∧ b2 ≠ 0 then 1 else 0)) []
      else if (b1 = 0 ∧ e2 ≠ 0) ∨ (e1 ≠ 0 ∧ b2 ≠ 0) then
        -- F && E => F.   E && F => F.
        .ret (rasqal_new_boolean_literal 0) []
      else
        -- Otherwise E
        failed
    | .RASQAL_EXPR_OR =>
      (rasqal_expression_evaluate2 w eval_context arg1).bind fun l1 =>
      let o1 := evaluate_logical_operand w l1
      (rasqal_expression_evaluate2 w eval_context arg2).bind fun l1 =>
      let o2 := evaluate_logical_operand w l1
      let b1 := o1.1
      let e1 := o1.2
      let b2 := o2.1
      let e2 := o2.2
      if e1 = 0 ∧ e2 = 0 then
        -- No type error, answer is A || B
        .ret (rasqal_new_boolean_literal (if b1 ≠ 0 ∨ b2 ≠ 0 then 1 else 0)) []
      else if (b1 ≠ 0 ∧ e2 ≠ 0) ∨ (e1 ≠ 0 ∧ b2 ≠ 0) then
        -- T || E => T.   E || T => T
        .ret (rasqal_new_boolean_literal 1) []
      else
        -- Otherwise E
        failed
    | .RASQAL_EXPR_EQ =>
      evaluate_two_operands (rasqal_expression_evaluate2 w eval_context arg1)
        (fun _ => rasqal_expression_evaluate2 w eval_context arg2) fun l1 l2 =>
        if w.rasqal_xsd_datatype_check l1.type l1.string flags = 0 ∨
            w.rasqal_xsd_datatype_check l2.type l2.string flags = 0 then
          failed
        else
          let r := w.rasqal_literal_equals_flags l1 l2 flags
          boolean_unless_error (r.1 ≠ 0) r.2
    | .RASQAL_EXPR_NEQ =>
      evaluate_two_operands (rasqal_expression_evaluate2 w eval_context arg1)
        (fun _ => rasqal_expression_evaluate2 w eval_context arg2) fun l1 l2 =>
        let r := w.rasqal_literal_not_equals_flags l1 l2 flags
        boolean_unless_error (r.1 ≠ 0) r.2
    | .RASQAL_EXPR_LT =>
      evaluate_two_operands (rasqal_expression_evaluate2 w eval_context arg1)
        (fun _ => rasqal_expression_evaluate2 w eval_context arg2) fun l1 l2 =>
        let r := w.rasqal_literal_compare l1 l2 flags
        boolean_unless_error (r.1 < 0) r.2
    | .RASQAL_EXPR_GT =>
      evaluate_two_operands (rasqal_expression_evaluate2 w eval_context arg1)
        (fun _ => rasqal_expression_evaluate2 w eval_context arg2) fun l1 l2 =>
        let r := w.rasqal_literal_compare l1 l2 flags
        boolean_unless_error (r.1 > 0) r.2
    | .RASQAL_EXPR_LE =>
      evaluate_two_operands (rasqal_expression_evaluate2 w eval_context arg1)
        (fun _ => rasqal_expression_evaluate2 w eval_context arg2) fun l1 l2 =>
        let r := w.rasqal_literal_compare l1 l2 flags
        boolean_unless_error (r.1 ≤ 0) r.2
    | .RASQAL_EXPR_GE =>
      evaluate_two_operands (rasqal_expression_evaluate2 w eval_context arg1)
        (fun _ => rasqal_expression_evaluate2 w eval_context arg2) fun l1 l2 =>
        let r := w.rasqal_literal_compare l1 l2 flags
        boolean_unless_error (r.1 ≥ 0) r.2
    | .RASQAL_EXPR_UMINUS =>
      (rasqal_expression_evaluate2 w eval_context arg1).bind fun l1 =>
      match l1 with
      | none => failed
      | some l1 => result_unless_error (w.rasqal_literal_negate l1)
    | .RASQAL_EXPR_BOUND =>
      .ret (rasqal_expression_evaluate_bound e) []
    | .RASQAL_EXPR_STR =>
      rasqal_expression_evaluate_str w eval_context
        (rasqal_expression_evaluate2 w eval_context arg1)
    | .RASQAL_EXPR_LANG =>
      rasqal_expression_evaluate_lang w (rasqal_expression_evaluate2 w eval_context arg1)
    | .RASQAL_EXPR_LANGMATCHES =>
      w.rasqal_expression_evaluate_langmatches e eval_context
    | .RASQAL_EXPR_DATATYPE =>
      rasqal_expression_evaluate_datatype w (rasqal_expression_evaluate2 w eval_context arg1)
    | .RASQAL_EXPR_ISURI
    | .RASQAL_EXPR_ISBLANK
    | .RASQAL_EXPR_ISLITERAL
    | .RASQAL_EXPR_ISNUMERIC =>
      rasqal_expression_evaluate_istype w op (rasqal_expression_evaluate2 w eval_context arg1)
    | .RASQAL_EXPR_PLUS =>
      evaluate_two_operands (rasqal_expression_evaluate2 w eval_context arg1)
        (fun _ => rasqal_expression_evaluate2 w eval_context arg2) fun l1 l2 =>
        result_unless_error (w.rasqal_literal_add l1 l2)
    | .RASQAL_EXPR_MINUS =>
      evaluate_two_operands (rasqal_expression_evaluate2 w eval_context arg1)
        (fun _ => rasqal_expression_evaluate2 w eval_context arg2) fun l1 l2 =>
        result_unless_error (w.rasqal_literal_subtract l1 l2)
    | .RASQAL_EXPR_STAR =>
      evaluate_two_operands (rasqal_expression_evaluate2 w eval_context arg1)
        (fun _ => rasqal_expression_evaluate2 w eval_context arg2) fun l1 l2 =>
        result_unless_error (w.rasqal_literal_multiply l1 l2)
    | .RASQAL_EXPR_SLASH =>
      evaluate_two_operands (rasqal_expression_evaluate2 w eval_context arg1)
        (fun _ => rasqal_expression_evaluate2 w eval_context arg2) fun l1 l2 =>
        result_unless_error (w.rasqal_literal_divide l1 l2)
    | .RASQAL_EXPR_REM =>
      evaluate_two_operands (rasqal_expression_evaluate2 w eval_context arg1)
        (fun _ => rasqal_expression_evaluate2 w eval_context arg2) fun l1 l2 =>
        -- errs.e = 0 (line 877) is errs.errs.e1; errs.errs.e2 was never written
        let e1 : Int := 0
        let e2 : Int := w.uninitialised_e2
        let divisor := w.rasqal_literal_as_integer l2
        let e2 := set_error divisor.2 e2
        let i := divisor.1
        if i = 0 then
          -- error if divisor is zero
          let e2 : Int := 1
          if e1 ≠ 0 ∨ e2 ≠ 0 then failed
          else .ret (rasqal_new_integer_literal .RASQAL_LITERAL_INTEGER i) []
        else
          let dividend := w.rasqal_literal_as_integer l1
          let e1 := set_error dividend.2 e1
          -- INT_MIN % -1 overflows
          if dividend.1 = INT_MIN ∧ i = -1 then .stopped .undefined_behaviour
          else
            let i := Int.tmod dividend.1 i
            if e1 ≠ 0 ∨ e2 ≠ 0 then failed
            else .ret (rasqal_new_integer_literal .RASQAL_LITERAL_INTEGER i) []
    | .RASQAL_EXPR_STR_EQ =>
      evaluate_two_operands (rasqal_expression_evaluate2 w eval_context arg1)
        (fun _ => rasqal_expression_evaluate2 w eval_context arg2) fun l1 l2 =>
        let r := w.rasqal_literal_compare l1 l2 (flags ||| RASQAL_COMPARE_NOCASE)
        boolean_unless_error (r.1 = 0) r.2
    | .RASQAL_EXPR_STR_NEQ =>
      evaluate_two_operands (rasqal_expression_evaluate2 w eval_context arg1)
        (fun _ => rasqal_expression_evaluate2 w eval_context arg2) fun l1 l2 =>
        let r := w.rasqal_literal_compare l1 l2 (flags ||| RASQAL_COMPARE_NOCASE)
        boolean_unless_error (r.1 ≠ 0) r.2
    | .RASQAL_EXPR_TILDE =>
      (rasqal_expression_evaluate2 w eval_context arg1).bind fun l1 =>
      match l1 with
      | none => failed
      | some l1 =>
        let r := w.rasqal_literal_as_integer l1
        let i : Int := -r.1 - 1
        if set_error r.2 0 ≠ 0 then failed
        else .ret (rasqal_new_integer_literal .RASQAL_LITERAL_INTEGER i) []
    | .RASQAL_EXPR_BANG =>
      (rasqal_expression_evaluate2 w eval_context arg1).bind fun l1 =>
      match l1 with
      | none => failed
      | some l1 =>
        let r := w.rasqal_literal_as_boolean l1
        boolean_unless_error (r.1 = 0) r.2
    | .RASQAL_EXPR_STR_MATCH
    | .RASQAL_EXPR_STR_NMATCH
    | .RASQAL_EXPR_REGEX =>
      w.rasqal_expression_evaluate_strmatch e eval_context
    | .RASQAL_EXPR_LITERAL =>
      -- flatten any literal to a value as soon as possible (FLATTEN_LITERAL)
      .ret (rasqal_new_literal_from_literal (rasqal_literal_value literal)) []
    | .RASQAL_EXPR_FUNCTION =>
      .ret (rasqal_new_boolean_literal 0)
        [⟨.RAPTOR_LOG_LEVEL_WARN, eval_context.locator,
          "No function expressions support at present.  Returning false."⟩]
    | .RASQAL_EXPR_CAST =>
      (rasqal_expression_evaluate2 w eval_context arg1).bind fun l1 =>
      match l1 with
      | none => failed
      | some l1 => result_unless_error (w.rasqal_literal_cast l1 name flags)
    | .RASQAL_EXPR_ORDER_COND_ASC
    | .RASQAL_EXPR_ORDER_COND_DESC
    | .RASQAL_EXPR_GROUP_COND_ASC
    | .RASQAL_EXPR_GROUP_COND_DESC =>
      rasqal_expression_evaluate2 w eval_context arg1
    | .RASQAL_EXPR_COUNT
    | .RASQAL_EXPR_SUM
    | .RASQAL_EXPR_AVG
    | .RASQAL_EXPR_MIN
    | .RASQAL_EXPR_MAX
    | .RASQAL_EXPR_SAMPLE
    | .RASQAL_EXPR_GROUP_CONCAT =>
      .ret none
        [⟨.RAPTOR_LOG_LEVEL_ERROR, eval_context.locator,
          "Aggregate expressions cannot be evaluated in a general scalar expression."⟩]
    | .RASQAL_EXPR_VARSTAR =>
      -- constants
      .ret none []
    | .RASQAL_EXPR_SAMETERM =>
      rasqal_expression_evaluate_sameterm w (rasqal_expression_evaluate2 w eval_context arg1)
        (fun _ => rasqal_expression_evaluate2 w eval_context arg2)
    | .RASQAL_EXPR_CONCAT =>
      w.rasqal_expression_evaluate_concat e eval_context
    | .RASQAL_EXPR_COALESCE =>
      rasqal_expression_evaluate_coalesce w eval_context args
    | .RASQAL_EXPR_IF =>
      rasqal_expression_evaluate_if w (rasqal_expression_evaluate2 w eval_context arg1)
        (fun _ => rasqal_expression_evaluate2 w eval_context arg2)
        (fun _ => rasqal_expression_evaluate2 w eval_context arg3)
    | .RASQAL_EXPR_URI
    | .RASQAL_EXPR_IRI =>
      rasqal_expression_evaluate_uri_constructor w eval_context
        (rasqal_expression_evaluate2 w eval_context arg1)
    | .RASQAL_EXPR_STRLANG =>
      rasqal_expression_evaluate_strlang w eval_context
        (rasqal_expression_evaluate2 w eval_context arg1)
        (fun _ => rasqal_expression_evaluate2 w eval_context arg2)
    | .RASQAL_EXPR_STRDT =>
      rasqal_expression_evaluate_strdt w eval_context
        (rasqal_expression_evaluate2 w eval_context arg1)
        (fun _ => rasqal_expression_evaluate2 w eval_context arg2)
    | .RASQAL_EXPR_BNODE =>
      rasqal_expression_evaluate_bnode_constructor w eval_context
        (match arg1 with
          | none => none
          | some _ => some (rasqal_expression_evaluate2 w eval_context arg1))
    | .RASQAL_EXPR_IN
    | .RASQAL_EXPR_NOT_IN =>
      rasqal_expression_evaluate_in_set op (rasqal_expression_evaluate2 w eval_context arg1)
        (fun l1 => rasqal_expression_evaluate_in_set_loop w eval_context l1 args)
    | .RASQAL_EXPR_YEAR
    | .RASQAL_EXPR_MONTH
    | .RASQAL_EXPR_DAY
    | .RASQAL_EXPR_HOURS
    | .RASQAL_EXPR_MINUTES
    | .RASQAL_EXPR_SECONDS =>
      w.rasqal_expression_evaluate_datetime_part e eval_context
    | .RASQAL_EXPR_CURRENT_DATETIME
    | .RASQAL_EXPR_NOW =>
      w.rasqal_expression_evaluate_now e eval_context
    | .RASQAL_EXPR_TO_UNIXTIME =>
      w.rasqal_expression_evaluate_to_unixtime e eval_context
    | .RASQAL_EXPR_FROM_UNIXTIME =>
      w.rasqal_expression_evaluate_from_unixtime e eval_context
    | .RASQAL_EXPR_STRLEN =>
      w.rasqal_expression_evaluate_strlen e eval_context
    | .RASQAL_EXPR_UCASE
    | .RASQAL_EXPR_LCASE =>
      w.rasqal_expression_evaluate_set_case e eval_context
    | .RASQAL_EXPR_STRSTARTS
    | .RASQAL_EXPR_STRENDS
    | .RASQAL_EXPR_CONTAINS =>
      w.rasqal_expression_evaluate_str_prefix_suffix e eval_context
    | .RASQAL_EXPR_TIMEZONE =>
      w.rasqal_expression_evaluate_datetime_timezone e eval_context
    | .RASQAL_EXPR_TZ =>
      w.rasqal_expression_evaluate_datetime_tz e eval_context
    | .RASQAL_EXPR_ENCODE_FOR_URI =>
      w.rasqal_expression_evaluate_encode_for_uri e eval_context
    | .RASQAL_EXPR_SUBSTR =>
      w.rasqal_expression_evaluate_substr e eval_context
    | .RASQAL_EXPR_UNKNOWN
    | .unrecognised =>
      -- RASQAL_FATAL3("Unknown operation %s (%d)", ...)
      RASQAL_FATAL3

/-- The `for` loop of `rasqal_expression_evaluate_in_set` (lines 473-499)
over the entries of `e->args` not yet visited; `l1` is the evaluated probe.
The value is `none` for `goto failed`, else the `found` the loop ends with. -/
def rasqal_expression_evaluate_in_set_loop (w : collaborators)
    (expr_context : rasqal_evaluation_context) (l1 : rasqal_literal) :
    List (Option rasqal_expression) → computation (Option Int)
  | [] => .ret (some 0) []
  | arg_e :: rest =>
    (rasqal_expression_evaluate2 w expr_context arg_e).bind fun arg_literal =>
    match arg_literal with
    | none => .ret none []
    | some arg_literal =>
      let r := w.rasqal_literal_equals_flags l1 arg_literal expr_context.flags
      let found : Int := if r.1 ≠ 0 then 1 else 0
      let error := set_error r.2 0
      if error ≠ 0 then .ret none []
      else if found ≠ 0 then
        -- found - terminate search
        .ret (some found) []
      else rasqal_expression_evaluate_in_set_loop w expr_context l1 rest

/-- Embedding of `rasqal_expression_evaluate_coalesce` (lines 523-544) over
the entries of `e->args` not yet visited. -/
def rasqal_expression_evaluate_coalesce (w : collaborators)
    (expr_context : rasqal_evaluation_context) :
    List (Option rasqal_expression) → eval_result
  | [] =>
    -- No arguments evaluated to an RDF term, return an error (NULL)
    .ret none []
  | arg_e :: rest =>
    match arg_e with
    | none => rasqal_expression_evaluate_coalesce w expr_context rest
    | some _ =>
      (rasqal_expression_evaluate2 w expr_context arg_e).bind fun result =>
      match result with
      | some result => .ret (some result) []
      | none => rasqal_expression_evaluate_coalesce w expr_context rest

end

/-- Embedding of the deprecated `rasqal_expression_evaluate` (lines
1508-1523). `context` is the local structure as the stack holds it at entry:
line 1517 is `memset(&context, sizeof(context), '\0')`, a fill of zero bytes,
and lines 1518-1520 then store the locator and the flags. -/
def rasqal_expression_evaluate (w : collaborators) (context : rasqal_evaluation_context)
    (locator : Option String) (e : Option rasqal_expression) (flags : Nat) : eval_result :=
  match e with
  | none => if w.assert_die then .stopped .assertion_died else .ret none []
  | some e =>
    rasqal_expression_evaluate2 w { context with locator := locator, flags := flags } (some e)


/-! ## The recursion of the dispatcher, with a bound on the depth of calls

`rasqal_expression_evaluate2` above is defined by recursion on the structure
of the tree. To state that the C recursion ends, the dispatcher is given once
more with its recursive calls made through a parameter `ev`, and run with a
bound on the depth of calls. -/

/-- The `for` loop of `rasqal_expression_evaluate_in_set` (lines 473-499) as
in `rasqal_expression_evaluate_in_set_loop`, the call of line 479 made
through `ev`. -/
def rasqal_expression_evaluate_in_set_loop_calling (w : collaborators)
    (expr_context : rasqal_evaluation_context)
    (ev : Option rasqal_expression → eval_result) (l1 : rasqal_literal) :
    List (Option rasqal_expression) → computation (Option Int)
  | [] => .ret (some 0) []
  | arg_e :: rest =>
    (ev arg_e).bind fun arg_literal =>
    match arg_literal with
    | none => .ret none []
    | some arg_literal =>
      let r := w.rasqal_literal_equals_flags l1 arg_literal expr_context.flags
      let found : Int := if r.1 ≠ 0 then 1 else 0
      let error := set_error r.2 0
      if error ≠ 0 then .ret none []
      else if found ≠ 0 then
        -- found - terminate search
        .ret (some found) []
      else rasqal_expression_evaluate_in_set_loop_calling w expr_context ev l1 rest

/-- The loop of `rasqal_expression_evaluate_coalesce` (lines 530-540) as in
`rasqal_expression_evaluate_coalesce`, the call of line 536 made through
`ev`. -/
def rasqal_expression_evaluate_coalesce_calling
    (ev : Option rasqal_expression → eval_result) :
    List (Option rasqal_expression) → eval_result
  | [] =>
    -- No arguments evaluated to an RDF term, return an error (NULL)
    .ret none []
  | arg_e :: rest =>
    match arg_e with
    | none => rasqal_expression_evaluate_coalesce_calling ev rest
    | some _ =>
      (ev arg_e).bind fun result =>
      match result with
      | some result => .ret (some result) []
      | none => rasqal_expression_evaluate_coalesce_calling ev rest

/-- The `switch(e->op)` of `rasqal_expression_evaluate2` (lines 885-1467) as
in `rasqal_expression_evaluate2_switch`, each call
`rasqal_expression_evaluate2(x, eval_context)` made through `ev`. -/
def rasqal_expression_evaluate2_switch_calling (w : collaborators)
    (eval_context : rasqal_evaluation_context)
    (ev : Option rasqal_expression → eval_result) : rasqal_expression → eval_result
  | .mk op arg1 arg2 arg3 literal name args =>
    let e := rasqal_expression.mk op arg1 arg2 arg3 literal name args
    let flags := eval_context.flags
    match op with
    | .RASQAL_EXPR_AND =>
      (ev arg1).bind fun l1 =>
      let o1 := evaluate_logical_operand w l1
      (ev arg2).bind fun l1 =>
      let o2 := evaluate_logical_operand w l1
      let b1 := o1.1
      let e1 := o1.2
      let b2 := o2.1
      let e2 := o2.2
      if e1 = 0 ∧ e2 = 0 then
        -- No type error, answer is A && B
        .ret (rasqal_new_boolean_literal (if b1 ≠ 0 ∧ b2 ≠ 0 then 1 else 0)) []
      else if (b1 = 0 ∧ e2 ≠ 0) ∨ (e1 ≠ 0 ∧ b2 ≠ 0) then
        -- F && E => F.   E && F => F.
        .ret (rasqal_new_boolean_literal 0) []
      else
        -- Otherwise E
        failed
    | .RASQAL_EXPR_OR =>
      (ev arg1).bind fun l1 =>
      let o1 := evaluate_logical_operand w l1
      (ev arg2).bind fun l1 =>
      let o2 := evaluate_logical_operand w l1
      let b1 := o1.1
      let e1 := o1.2
      let b2 := o2.1
      let e2 := o2.2
      if e1 = 0 ∧ e2 = 0 then
        -- No type error, answer is A || B
        .ret (rasqal_new_boolean_literal (if b1 ≠ 0 ∨ b2 ≠ 0 then 1 else 0)) []
      else if (b1 ≠ 0 ∧ e2 ≠ 0) ∨ (e1 ≠ 0 ∧ b2 ≠ 0) then
        -- T || E => T.   E || T => T
        .ret (rasqal_new_boolean_literal 1) []
      else
        -- Otherwise E
        failed
    | .RASQAL_EXPR_EQ =>
      evaluate_two_operands (ev arg1)
        (fun _ => ev arg2) fun l1 l2 =>
        if w.rasqal_xsd_datatype_check l1.type l1.string flags = 0 ∨
            w.rasqal_xsd_datatype_check l2.type l2.string flags = 0 then
          failed
        else
          let r := w.rasqal_literal_equals_flags l1 l2 flags
          boolean_unless_error (r.1 ≠ 0) r.2
    | .RASQAL_EXPR_NEQ =>
      evaluate_two_operands (ev arg1)
        (fun _ => ev arg2) fun l1 l2 =>
        let r := w.rasqal_literal_not_equals_flags l1 l2 flags
        boolean_unless_error (r.1 ≠ 0) r.2
    | .RASQAL_EXPR_LT =>
      evaluate_two_operands (ev arg1)
        (fun _ => ev arg2) fun l1 l2 =>
        let r := w.rasqal_literal_compare l1 l2 flags
        boolean_unless_error (r.1 < 0) r.2
    | .RASQAL_EXPR_GT =>
      evaluate_two_operands (ev arg1)
        (fun _ => ev arg2) fun l1 l2 =>
        let r := w.rasqal_literal_compare l1 l2 flags
        boolean_unless_error (r.1 > 0) r.2
    | .RASQAL_EXPR_LE =>
      evaluate_two_operands (ev arg1)
        (fun _ => ev arg2) fun l1 l2 =>
        let r := w.rasqal_literal_compare l1 l2 flags
        boolean_unless_error (r.1 ≤ 0) r.2
    | .RASQAL_EXPR_GE =>
      evaluate_two_operands (ev arg1)
        (fun _ => ev arg2) fun l1 l2 =>
        let r := w.rasqal_literal_compare l1 l2 flags
        boolean_unless_error (r.1 ≥ 0) r.2
    | .RASQAL_EXPR_UMINUS =>
      (ev arg1).bind fun l1 =>
      match l1 with
      | none => failed
      | some l1 => result_unless_error (w.rasqal_literal_negate l1)
    | .RASQAL_EXPR_BOUND =>
      .ret (rasqal_expression_evaluate_bound e) []
    | .RASQAL_EXPR_STR =>
      rasqal_expression_evaluate_str w eval_context
        (ev arg1)
    | .RASQAL_EXPR_LANG =>
      rasqal_expression_evaluate_lang w (ev arg1)
    | .RASQAL_EXPR_LANGMATCHES =>
      w.rasqal_expression_evaluate_langmatches e eval_context
    | .RASQAL_EXPR_DATATYPE =>
      rasqal_expression_evaluate_datatype w (ev arg1)
    | .RASQAL_EXPR_ISURI
    | .RASQAL_EXPR_ISBLANK
    | .RASQAL_EXPR_ISLITERAL
    | .RASQAL_EXPR_ISNUMERIC =>
      rasqal_expression_evaluate_istype w op (ev arg1)
    | .RASQAL_EXPR_PLUS =>
      evaluate_two_operands (ev arg1)
        (fun _ => ev arg2) fun l1 l2 =>
        result_unless_error (w.rasqal_literal_add l1 l2)
    | .RASQAL_EXPR_MINUS =>
      evaluate_two_operands (ev arg1)
        (fun _ => ev arg2) fun l1 l2 =>
        result_unless_error (w.rasqal_literal_subtract l1 l2)
    | .RASQAL_EXPR_STAR =>
      evaluate_two_operands (ev arg1)
        (fun _ => ev arg2) fun l1 l2 =>
        result_unless_error (w.rasqal_literal_multiply l1 l2)
    | .RASQAL_EXPR_SLASH =>
      evaluate_two_operands (ev arg1)
        (fun _ => ev arg2) fun l1 l2 =>
        result_unless_error (w.rasqal_literal_divide l1 l2)
    | .RASQAL_EXPR_REM =>
      evaluate_two_operands (ev arg1)
        (fun _ => ev arg2) fun l1 l2 =>
        -- errs.e = 0 (line 877) is errs.errs.e1; errs.errs.e2 was never written
        let e1 : Int := 0
        let e2 : Int := w.uninitialised_e2
        let divisor := w.rasqal_literal_as_integer l2
        let e2 := set_error divisor.2 e2
        let i := divisor.1
        if i = 0 then
          -- error if divisor is zero
          let e2 : Int := 1
          if e1 ≠ 0 ∨ e2 ≠ 0 then failed
          else .ret (rasqal_new_integer_literal .RASQAL_LITERAL_INTEGER i) []
        else
          let dividend := w.rasqal_literal_as_integer l1
          let e1 := set_error dividend.2 e1
          -- INT_MIN % -1 overflows
          if dividend.1 = INT_MIN ∧ i = -1 then .stopped .undefined_behaviour
          else
            let i := Int.tmod dividend.1 i
            if e1 ≠ 0 ∨ e2 ≠ 0 then failed
            else .ret (rasqal_new_integer_literal .RASQAL_LITERAL_INTEGER i) []
    | .RASQAL_EXPR_STR_EQ =>
      evaluate_two_operands (ev arg1)
        (fun _ => ev arg2) fun l1 l2 =>
        let r := w.rasqal_literal_compare l1 l2 (flags ||| RASQAL_COMPARE_NOCASE)
        boolean_unless_error (r.1 = 0) r.2
    | .RASQAL_EXPR_STR_NEQ =>
      evaluate_two_operands (ev arg1)
        (fun _ => ev arg2) fun l1 l2 =>
        let r := w.rasqal_literal_compare l1 l2 (flags ||| RASQAL_COMPARE_NOCASE)
        boolean_unless_error (r.1 ≠ 0) r.2
    | .RASQAL_EXPR_TILDE =>
      (ev arg1).bind fun l1 =>
      match l1 with
      | none => failed
      | some l1 =>
        let r := w.rasqal_literal_as_integer l1
        let i : Int := -r.1 - 1
        if set_error r.2 0 ≠ 0 then failed
        else .ret (rasqal_new_integer_literal .RASQAL_LITERAL_INTEGER i) []
    | .RASQAL_EXPR_BANG =>
      (ev arg1).bind fun l1 =>
      match l1 with
      | none => failed
      | some l1 =>
        let r := w.rasqal_literal_as_boolean l1
        boolean_unless_error (r.1 = 0) r.2
    | .RASQAL_EXPR_STR_MATCH
    | .RASQAL_EXPR_STR_NMATCH
    | .RASQAL_EXPR_REGEX =>
      w.rasqal_expression_evaluate_strmatch e eval_context
    | .RASQAL_EXPR_LITERAL =>
      -- flatten any literal to a value as soon as possible (FLATTEN_LITERAL)
      .ret (rasqal_new_literal_from_literal (rasqal_literal_value literal)) []
    | .RASQAL_EXPR_FUNCTION =>
      .ret (rasqal_new_boolean_literal 0)
        [⟨.RAPTOR_LOG_LEVEL_WARN, eval_context.locator,
          "No function expressions support at present.  Returning false."⟩]
    | .RASQAL_EXPR_CAST =>
      (ev arg1).bind fun l1 =>
      match l1 with
      | none => failed
      | some l1 => result_unless_error (w.rasqal_literal_cast l1 name flags)
    | .RASQAL_EXPR_ORDER_COND_ASC
    | .RASQAL_EXPR_ORDER_COND_DESC
    | .RASQAL_EXPR_GROUP_COND_ASC
    | .RASQAL_EXPR_GROUP_COND_DESC =>
      ev arg1
    | .RASQAL_EXPR_COUNT
    | .RASQAL_EXPR_SUM
    | .RASQAL_EXPR_AVG
    | .RASQAL_EXPR_MIN
    | .RASQAL_EXPR_MAX
    | .RASQAL_EXPR_SAMPLE
    | .RASQAL_EXPR_GROUP_CONCAT =>
      .ret none
        [⟨.RAPTOR_LOG_LEVEL_ERROR, eval_context.locator,
          "Aggregate expressions cannot be evaluated in a general scalar expression."⟩]
    | .RASQAL_EXPR_VARSTAR =>
      -- constants
      .ret none []
    | .RASQAL_EXPR_SAMETERM =>
      rasqal_expression_evaluate_sameterm w (ev arg1)
        (fun _ => ev arg2)
    | .RASQAL_EXPR_CONCAT =>
      w.rasqal_expression_evaluate_concat e eval_context
    | .RASQAL_EXPR_COALESCE =>
      rasqal_expression_evaluate_coalesce_calling ev args
    | .RASQAL_EXPR_IF =>
      rasqal_expression_evaluate_if w (ev arg1)
        (fun _ => ev arg2)
        (fun _ => ev arg3)
    | .RASQAL_EXPR_URI
    | .RASQAL_EXPR_IRI =>
      rasqal_expression_evaluate_uri_constructor w eval_context
        (ev arg1)
    | .RASQAL_EXPR_STRLANG =>
      rasqal_expression_evaluate_strlang w eval_context
        (ev arg1)
        (fun _ => ev arg2)
    | .RASQAL_EXPR_STRDT =>
      rasqal_expression_evaluate_strdt w eval_context
        (ev arg1)
        (fun _ => ev arg2)
    | .RASQAL_EXPR_BNODE =>
      rasqal_expression_evaluate_bnode_constructor w eval_context
        (match arg1 with
          | none => none
          | some _ => some (ev arg1))
    | .RASQAL_EXPR_IN
    | .RASQAL_EXPR_NOT_IN =>
      rasqal_expression_evaluate_in_set op (ev arg1)
        (fun l1 => rasqal_expression_evaluate_in_set_loop_calling w eval_context ev l1 args)
    | .RASQAL_EXPR_YEAR
    | .RASQAL_EXPR_MONTH
    | .RASQAL_EXPR_DAY
    | .RASQAL_EXPR_HOURS
    | .RASQAL_EXPR_MINUTES
    | .RASQAL_EXPR_SECONDS =>
      w.rasqal_expression_evaluate_datetime_part e eval_context
    | .RASQAL_EXPR_CURRENT_DATETIME
    | .RASQAL_EXPR_NOW =>
      w.rasqal_expression_evaluate_now e eval_context
    | .RASQAL_EXPR_TO_UNIXTIME =>
      w.rasqal_expression_evaluate_to_unixtime e eval_context
    | .RASQAL_EXPR_FROM_UNIXTIME =>
      w.rasqal_expression_evaluate_from_unixtime e eval_context
    | .RASQAL_EXPR_STRLEN =>
      w.rasqal_expression_evaluate_strlen e eval_context
    | .RASQAL_EXPR_UCASE
    | .RASQAL_EXPR_LCASE =>
      w.rasqal_expression_evaluate_set_case e eval_context
    | .RASQAL_EXPR_STRSTARTS
    | .RASQAL_EXPR_STRENDS
    | .RASQAL_EXPR_CONTAINS =>
      w.rasqal_expression_evaluate_str_prefix_suffix e eval_context
    | .RASQAL_EXPR_TIMEZONE =>
      w.rasqal_expression_evaluate_datetime_timezone e eval_context
    | .RASQAL_EXPR_TZ =>
      w.rasqal_expression_evaluate_datetime_tz e eval_context
    | .RASQAL_EXPR_ENCODE_FOR_URI =>
      w.rasqal_expression_evaluate_encode_for_uri e eval_context
    | .RASQAL_EXPR_SUBSTR =>
      w.rasqal_expression_evaluate_substr e eval_context
    | .RASQAL_EXPR_UNKNOWN
    | .unrecognised =>
      -- RASQAL_FATAL3("Unknown operation %s (%d)", ...)
      RASQAL_FATAL3

/-- The function `rasqal_expression_evaluate2` run with a bound on the depth
of its calls: a call needs one unit, and each call it makes is run with one
unit less; with no unit left the run ends in `out_of_fuel`. -/
def rasqal_expression_evaluate2_bounded (w : collaborators)
    (eval_context : rasqal_evaluation_context) :
    Nat → Option rasqal_expression → eval_result
  | 0, _ => .stopped .out_of_fuel
  | _ + 1, none => if w.assert_die then .stopped .assertion_died else .ret none []
  | depth + 1, some e =>
    rasqal_expression_evaluate2_switch_calling w eval_context
      (rasqal_expression_evaluate2_bounded w eval_context depth) e

mutual

/-- The size of an expression tree: the number of its nodes. -/
def expression_size : rasqal_expression → Nat
  | .mk _ arg1 arg2 arg3 _ _ args =>
    1 + operand_size arg1 + operand_size arg2 + operand_size arg3 + operands_size args

/-- The size of the tree in an operand slot; 0 for `NULL`. -/
def operand_size : Option rasqal_expression → Nat
  | none => 0
  | some e => expression_size e

/-- The size of the trees of an operand sequence, added up. -/
def operands_size : List (Option rasqal_expression) → Nat
  | [] => 0
  | arg_e :: rest => operand_size arg_e + operands_size rest

end

/-- The evaluators that other files define never end in `out_of_fuel`, which
is no outcome of a C function. -/
def delegated_never_out_of_fuel (w : collaborators) : Prop :=
  ∀ (e : rasqal_expression) (ctx : rasqal_evaluation_context),
    w.rasqal_expression_evaluate_langmatches e ctx ≠ .stopped .out_of_fuel ∧
    w.rasqal_expression_evaluate_strmatch e ctx ≠ .stopped .out_of_fuel ∧
    w.rasqal_expression_evaluate_concat e ctx ≠ .stopped .out_of_fuel ∧
    w.rasqal_expression_evaluate_datetime_part e ctx ≠ .stopped .out_of_fuel ∧
    w.rasqal_expression_evaluate_now e ctx ≠ .stopped .out_of_fuel ∧
    w.rasqal_expression_evaluate_to_unixtime e ctx ≠ .stopped .out_of_fuel ∧
    w.rasqal_expression_evaluate_from_unixtime e ctx ≠ .stopped .out_of_fuel ∧
    w.rasqal_expression_evaluate_strlen e ctx ≠ .stopped .out_of_fuel ∧
    w.rasqal_expression_evaluate_set_case e ctx ≠ .stopped .out_of_fuel ∧
    w.rasqal_expression_evaluate_str_prefix_suffix e ctx ≠ .stopped .out_of_fuel ∧
    w.rasqal_expression_evaluate_datetime_timezone e ctx ≠ .stopped .out_of_fuel ∧
    w.rasqal_expression_evaluate_datetime_tz e ctx ≠ .stopped .out_of_fuel ∧
    w.rasqal_expression_evaluate_encode_for_uri e ctx ≠ .stopped .out_of_fuel ∧
    w.rasqal_expression_evaluate_substr e ctx ≠ .stopped .out_of_fuel

/-! ## What the case of an operator evaluates -/

/-- The operand slots of a node that the code of this file can hand to
`rasqal_expression_evaluate2` when the operator of the node is `op`: the
calls in the case of `op` in the dispatcher and in the special-form evaluator
the case calls (IF makes one of its two later calls, IN, NOT-IN and COALESCE
can leave their loop early). BNODE evaluates `e->arg1` when it is not `NULL`
(line 793). The cases that make no such call have none: the leaf, BOUND, the
function call, the aggregates, VARSTAR, the operators whose evaluator another
file defines (it is handed the node), and the unknown tags. -/
def operands_evaluated (op : rasqal_op) (arg1 arg2 arg3 : Option rasqal_expression)
    (args : List (Option rasqal_expression)) : List (Option rasqal_expression) :=
  match op with
  | .RASQAL_EXPR_AND | .RASQAL_EXPR_OR
  | .RASQAL_EXPR_EQ | .RASQAL_EXPR_NEQ
  | .RASQAL_EXPR_LT | .RASQAL_EXPR_GT | .RASQAL_EXPR_LE | .RASQAL_EXPR_GE
  | .RASQAL_EXPR_PLUS | .RASQAL_EXPR_MINUS | .RASQAL_EXPR_STAR | .RASQAL_EXPR_SLASH
  | .RASQAL_EXPR_REM
  | .RASQAL_EXPR_STR_EQ | .RASQAL_EXPR_STR_NEQ
  | .RASQAL_EXPR_SAMETERM
  | .RASQAL_EXPR_STRLANG | .RASQAL_EXPR_STRDT => [arg1, arg2]
  | .RASQAL_EXPR_UMINUS | .RASQAL_EXPR_TILDE | .RASQAL_EXPR_BANG | .RASQAL_EXPR_CAST
  | .RASQAL_EXPR_STR | .RASQAL_EXPR_LANG | .RASQAL_EXPR_DATATYPE
  | .RASQAL_EXPR_ISURI | .RASQAL_EXPR_ISBLANK | .RASQAL_EXPR_ISLITERAL
  | .RASQAL_EXPR_ISNUMERIC
  | .RASQAL_EXPR_URI | .RASQAL_EXPR_IRI
  | .RASQAL_EXPR_ORDER_COND_ASC | .RASQAL_EXPR_ORDER_COND_DESC
  | .RASQAL_EXPR_GROUP_COND_ASC | .RASQAL_EXPR_GROUP_COND_DESC => [arg1]
  | .RASQAL_EXPR_BNODE =>
    match arg1 with
    | none => []
    | some _ => [arg1]
  | .RASQAL_EXPR_IF => [arg1, arg2, arg3]
  | .RASQAL_EXPR_IN | .RASQAL_EXPR_NOT_IN => arg1 :: args
  | .RASQAL_EXPR_COALESCE => args
  | _ => []

/-- The call the dispatcher makes of an evaluator that another file defines,
when the operator of the node `e` is one of theirs; `none` for every other
operator. -/
def delegated_evaluation (w : collaborators) (op : rasqal_op) (e : rasqal_expression)
    (eval_context : rasqal_evaluation_context) : Option eval_result :=
  match op with
  | .RASQAL_EXPR_LANGMATCHES => some (w.rasqal_expression_evaluate_langmatches e eval_context)
  | .RASQAL_EXPR_STR_MATCH | .RASQAL_EXPR_STR_NMATCH | .RASQAL_EXPR_REGEX =>
    some (w.rasqal_expression_evaluate_strmatch e eval_context)
  | .RASQAL_EXPR_CONCAT => some (w.rasqal_expression_evaluate_concat e eval_context)
  | .RASQAL_EXPR_YEAR | .RASQAL_EXPR_MONTH | .RASQAL_EXPR_DAY
  | .RASQAL_EXPR_HOURS | .RASQAL_EXPR_MINUTES | .RASQAL_EXPR_SECONDS =>
    some (w.rasqal_expression_evaluate_datetime_part e eval_context)
  | .RASQAL_EXPR_CURRENT_DATETIME | .RASQAL_EXPR_NOW =>
    some (w.rasqal_expression_evaluate_now e eval_context)
  | .RASQAL_EXPR_TO_UNIXTIME => some (w.rasqal_expression_evaluate_to_unixtime e eval_context)
  | .RASQAL_EXPR_FROM_UNIXTIME =>
    some (w.rasqal_expression_evaluate_from_unixtime e eval_context)
  | .RASQAL_EXPR_STRLEN => some (w.rasqal_expression_evaluate_strlen e eval_context)
  | .RASQAL_EXPR_UCASE | .RASQAL_EXPR_LCASE =>
    some (w.rasqal_expression_evaluate_set_case e eval_context)
  | .RASQAL_EXPR_STRSTARTS | .RASQAL_EXPR_STRENDS | .RASQAL_EXPR_CONTAINS =>
    some (w.rasqal_expression_evaluate_str_prefix_suffix e eval_context)
  | .RASQAL_EXPR_TIMEZONE =>
    some (w.rasqal_expression_evaluate_datetime_timezone e eval_context)
  | .RASQAL_EXPR_TZ => some (w.rasqal_expression_evaluate_datetime_tz e eval_context)
  | .RASQAL_EXPR_ENCODE_FOR_URI =>
    some (w.rasqal_expression_evaluate_encode_for_uri e eval_context)
  | .RASQAL_EXPR_SUBSTR => some (w.rasqal_expression_evaluate_substr e eval_context)
  | _ => none

/-! ## The three-valued logic of §4.1 -/

/-- The truth values of §4.1: true, false, type error. -/
inductive truth_value where
  | T
  | F
  | E
  deriving DecidableEq, Repr

/-- How §4.1 classifies an operand of AND or OR whose evaluation returned
`l`: `E` when the evaluation failed or the effective-boolean-value coercion
reported an error, else `T` or `F` as the coercion says. -/
def operand_truth_value (w : collaborators) (l : Option rasqal_literal) : truth_value :=
  match l with
  | none => .E
  | some l =>
    if (w.rasqal_literal_as_boolean l).2 then .E
    else if (w.rasqal_literal_as_boolean l).1 ≠ 0 then .T
    else .F

/-- The AND table of §4.1: T∧T=T, T∧F=F, F∧anything=F, anything∧F=F, T∧E=E,
E∧T=E, E∧E=E. -/
def and_truth_table : truth_value → truth_value → truth_value
  | .T, .T => .T
  | .T, .F => .F
  | .F, _ => .F
  | _, .F => .F
  | .T, .E => .E
  | .E, .T => .E
  | .E, .E => .E

/-- The OR table of §4.1: F∨F=F, F∨T=T, T∨anything=T, anything∨T=T, F∨E=E,
E∨F=E, E∨E=E. -/
def or_truth_table : truth_value → truth_value → truth_value
  | .F, .F => .F
  | .F, .T => .T
  | .T, _ => .T
  | _, .T => .T
  | .F, .E => .E
  | .E, .F => .E
  | .E, .E => .E

/-- What a truth value is as the result of a node: the Boolean term true or
false, and no value at all for `E`. -/
def truth_value.result : truth_value → Option rasqal_literal
  | .T => rasqal_new_boolean_literal 1
  | .F => rasqal_new_boolean_literal 0
  | .E => none

/-! ## Concrete inputs -/

/-- A collaborator set for the concrete evaluations below. The effective
boolean value of a Boolean or Integer term is whether its integer is not 0
and that of a String term whether its string is not empty; every other term
is a type error, reported with the value 0. Integer coercion succeeds on
Boolean and Integer terms only. Equality compares kind and lexical form.
What is not needed reports an error or fails. Pointer assertions return. -/
def sample_collaborators : collaborators where
  assert_die := false
  uninitialised_e2 := 0
  rasqal_literal_as_boolean := fun l =>
    match l.type with
    | .RASQAL_LITERAL_BOOLEAN | .RASQAL_LITERAL_INTEGER =>
      (if l.value_integer ≠ 0 then 1 else 0, false)
    | .RASQAL_LITERAL_STRING =>
      (if l.string ≠ none ∧ l.string ≠ some "" then 1 else 0, false)
    | _ => (0, true)
  rasqal_literal_as_integer := fun l =>
    match l.type with
    | .RASQAL_LITERAL_BOOLEAN | .RASQAL_LITERAL_INTEGER => (l.value_integer, false)
    | _ => (0, true)
  rasqal_literal_as_counted_string := fun l _ => (l.string, false)
  rasqal_literal_as_string_flags := fun l _ => (l.string, false)
  rasqal_literal_as_uri := fun l => l.value_uri
  rasqal_literal_equals_flags := fun l1 l2 _ =>
    (if l1.type = l2.type ∧ l1.string = l2.string then 1 else 0, false)
  rasqal_literal_not_equals_flags := fun l1 l2 _ =>
    (if l1.type = l2.type ∧ l1.string = l2.string then 0 else 1, false)
  rasqal_literal_compare := fun _ _ _ => (0, true)
  rasqal_literal_same_term := fun l1 l2 =>
    if l1.type = l2.type ∧ l1.string = l2.string then 1 else 0
  rasqal_literal_negate := fun _ => (none, true)
  rasqal_literal_add := fun _ _ => (none, true)
  rasqal_literal_subtract := fun _ _ => (none, true)
  rasqal_literal_multiply := fun _ _ => (none, true)
  rasqal_literal_divide := fun _ _ => (none, true)
  rasqal_literal_cast := fun _ _ _ => (none, true)
  rasqal_literal_get_rdf_term_type := fun l => l.type
  rasqal_literal_is_numeric := fun l =>
    if l.type = .RASQAL_LITERAL_INTEGER then 1 else 0
  rasqal_xsd_datatype_check := fun _ _ _ => 1
  rasqal_xsd_datatype_type_to_uri := fun _ => some "http://www.w3.org/2001/XMLSchema#string"
  raptor_new_uri := fun s => s
  raptor_new_uri_relative_to_base := fun _ s => s
  rasqal_world_generate_bnodeid := some "bnodeid1"
  rasqal_expression_evaluate_langmatches := fun _ _ => failed
  rasqal_expression_evaluate_strmatch := fun _ _ => failed
  rasqal_expression_evaluate_concat := fun _ _ => failed
  rasqal_expression_evaluate_datetime_part := fun _ _ => failed
  rasqal_expression_evaluate_now := fun _ _ => failed
  rasqal_expression_evaluate_to_unixtime := fun _ _ => failed
  rasqal_expression_evaluate_from_unixtime := fun _ _ => failed
  rasqal_expression_evaluate_strlen := fun _ _ => failed
  rasqal_expression_evaluate_set_case := fun _ _ => failed
  rasqal_expression_evaluate_str_prefix_suffix := fun _ _ => failed
  rasqal_expression_evaluate_datetime_timezone := fun _ _ => failed
  rasqal_expression_evaluate_datetime_tz := fun _ _ => failed
  rasqal_expression_evaluate_encode_for_uri := fun _ _ => failed
  rasqal_expression_evaluate_substr := fun _ _ => failed

/-- An evaluation context with no flag set, no base URI and no locator. -/
def sample_context : rasqal_evaluation_context := ⟨0, none, none⟩

/-- The Boolean term `true`. -/
def literal_true : rasqal_literal :=
  .mk .RASQAL_LITERAL_BOOLEAN (some "true") none none 1 none none

/-- The Boolean term `false`. -/
def literal_false : rasqal_literal :=
  .mk .RASQAL_LITERAL_BOOLEAN (some "false") none none 0 none none

/-- The Integer term of the given value. -/
def literal_integer (i : Int) : rasqal_literal :=
  .mk .RASQAL_LITERAL_INTEGER (some (toString i)) none none i none none

/-- The plain string term `x`: no language, no datatype. -/
def literal_x : rasqal_literal :=
  .mk .RASQAL_LITERAL_STRING (some "x") none none 0 none none

/-- A URI term; it has no effective boolean value. -/
def literal_uri : rasqal_literal :=
  .mk .RASQAL_LITERAL_URI none none none 0 (some "http://example.org/a") none

/-- The VariableRef term of a variable `v` with the given binding. -/
def literal_variable (value : Option rasqal_literal) : rasqal_literal :=
  .mk .RASQAL_LITERAL_VARIABLE none none none 0 none (some ⟨"v", value⟩)

/-- The leaf node that embeds the term `l`. -/
def leaf (l : rasqal_literal) : rasqal_expression :=
  .mk .RASQAL_EXPR_LITERAL none none none (some l) none []

/-- The node of operator `op` with operands `arg1` and `arg2`. -/
def binary (op : rasqal_op) (arg1 arg2 : rasqal_expression) : rasqal_expression :=
  .mk op (some arg1) (some arg2) none none none []

/-- The node of operator `op` over the operand sequence `args`. -/
def variadic (op : rasqal_op) (args : List rasqal_expression) : rasqal_expression :=
  .mk op none none none none none (args.map some)

/-- A leaf whose evaluation fails: a reference to an unbound variable. -/
def leaf_unbound : rasqal_expression := leaf (literal_variable none)

/-- An alternative of COALESCE that yields no value: the sequence entry is
`NULL` (line 534 passes over it) or its evaluation returns `NULL`. -/
def alternative_fails (w : collaborators) (ctx : rasqal_evaluation_context)
    (a : Option rasqal_expression) : Prop :=
  a = none ∨ ∃ log, rasqal_expression_evaluate2 w ctx a = .ret none log

/-- The operand slot `arg1` is syntactically a leaf literal that holds a
VariableRef: a node of operator `RASQAL_EXPR_LITERAL` whose embedded term has
kind Variable and holds the variable `v`. -/
def is_variable_leaf (arg1 : Option rasqal_expression) (v : rasqal_variable) : Prop :=
  ∃ x l, arg1 = some x ∧ x.op = .RASQAL_EXPR_LITERAL ∧ x.literal = some l ∧
    l.type = .RASQAL_LITERAL_VARIABLE ∧ l.value_variable = some v

/-- A candidate of IN / NOT-IN that evaluates successfully and whose
coercing-equality test against the probe `l1` succeeds without error and
says "not equal". -/
def candidate_differs (w : collaborators) (ctx : rasqal_evaluation_context)
    (l1 : rasqal_literal) (a : Option rasqal_expression) : Prop :=
  ∃ l log, rasqal_expression_evaluate2 w ctx a = .ret (some l) log ∧
    (w.rasqal_literal_equals_flags l1 l ctx.flags).2 = false ∧
    (w.rasqal_literal_equals_flags l1 l ctx.flags).1 = 0

/-- A candidate of IN / NOT-IN that evaluates successfully and whose
coercing-equality test against the probe `l1` succeeds without error and
says "equal". -/
def candidate_equals (w : collaborators) (ctx : rasqal_evaluation_context)
    (l1 : rasqal_literal) (a : Option rasqal_expression) : Prop :=
  ∃ l log, rasqal_expression_evaluate2 w ctx a = .ret (some l) log ∧
    (w.rasqal_literal_equals_flags l1 l ctx.flags).2 = false ∧
    (w.rasqal_literal_equals_flags l1 l ctx.flags).1 ≠ 0

/-- The evaluators that other files define, and the dispatcher only calls,
never end in the fatal outcome of line 1465. -/
def delegated_never_fatal (w : collaborators) : Prop :=
  ∀ (e : rasqal_expression) (ctx : rasqal_evaluation_context),
    w.rasqal_expression_evaluate_langmatches e ctx ≠ RASQAL_FATAL3 ∧
    w.rasqal_expression_evaluate_strmatch e ctx ≠ RASQAL_FATAL3 ∧
    w.rasqal_expression_evaluate_concat e ctx ≠ RASQAL_FATAL3 ∧
    w.rasqal_expression_evaluate_datetime_part e ctx ≠ RASQAL_FATAL3 ∧
    w.rasqal_expression_evaluate_now e ctx ≠ RASQAL_FATAL3 ∧
    w.rasqal_expression_evaluate_to_unixtime e ctx ≠ RASQAL_FATAL3 ∧
    w.rasqal_expression_evaluate_from_unixtime e ctx ≠ RASQAL_FATAL3 ∧
    w.rasqal_expression_evaluate_strlen e ctx ≠ RASQAL_FATAL3 ∧
    w.rasqal_expression_evaluate_set_case e ctx ≠ RASQAL_FATAL3 ∧
    w.rasqal_expression_evaluate_str_prefix_suffix e ctx ≠ RASQAL_FATAL3 ∧
    w.rasqal_expression_evaluate_datetime_timezone e ctx ≠ RASQAL_FATAL3 ∧
    w.rasqal_expression_evaluate_datetime_tz e ctx ≠ RASQAL_FATAL3 ∧
    w.rasqal_expression_evaluate_encode_for_uri e ctx ≠ RASQAL_FATAL3 ∧
    w.rasqal_expression_evaluate_substr e ctx ≠ RASQAL_FATAL3

/-- The plain string term `en`. -/
def literal_en : rasqal_literal :=
  .mk .RASQAL_LITERAL_STRING (some "en") none none 0 none none

/-- The string term `chat` with the language tag `fr`. -/
def literal_chat_fr : rasqal_literal :=
  .mk .RASQAL_LITERAL_STRING (some "chat") (some "fr") none 0 none none

/-- The string term `1` with the declared datatype `xsd:integer`. -/
def literal_typed_1 : rasqal_literal :=
  .mk .RASQAL_LITERAL_STRING (some "1") none (some "http://www.w3.org/2001/XMLSchema#integer")
    0 none none

/-- The blank node labelled `b1`. -/
def literal_blank : rasqal_literal :=
  .mk .RASQAL_LITERAL_BLANK (some "b1") none none 0 none none

/-- A node whose operator the dispatcher does not know: evaluating it is
fatal. -/
def node_unknown : rasqal_expression :=
  .mk .RASQAL_EXPR_UNKNOWN none none none none none []

/-- The node of operator `op` with the single operand `arg1`. -/
def unary (op : rasqal_op) (arg1 : rasqal_expression) : rasqal_expression :=
  .mk op (some arg1) none none none none []

/-- The collaborator set `sample_collaborators` with a stringification that
gives the characters of the URI for a URI term, as §6 `asString` does when the
XQuery-compatibility bit is not set. -/
def sample_collaborators_uri_strings : collaborators :=
  { sample_collaborators with
    rasqal_literal_as_counted_string := fun l _ =>
      match l.type with
      | .RASQAL_LITERAL_URI => (l.value_uri, false)
      | _ => (l.string, false) }

/-- The collaborator set `sample_collaborators` with a lexical check that
rejects an Integer term whose lexical form is `abc`. -/
def sample_collaborators_lexical : collaborators :=
  { sample_collaborators with
    rasqal_xsd_datatype_check := fun type string _ =>
      if type = .RASQAL_LITERAL_INTEGER ∧ string = some "abc" then 0 else 1 }

/-- An Integer term with the invalid lexical form `abc`. -/
def literal_integer_abc : rasqal_literal :=
  .mk .RASQAL_LITERAL_INTEGER (some "abc") none
    (some "http://www.w3.org/2001/XMLSchema#integer") 0 none none

/-- The collaborator set `sample_collaborators` entered with the value 1 in
the memory of `errs.errs.e2`. -/
def sample_collaborators_stale_e2 : collaborators :=
  { sample_collaborators with uninitialised_e2 := 1 }

/-- The collaborator set `sample_collaborators` with a URI resolution that
puts the base URI, when there is one, in front of the string. -/
def sample_collaborators_resolving : collaborators :=
  { sample_collaborators with
    raptor_new_uri_relative_to_base := fun base s =>
      match base, s with
      | some base, some s => some (base ++ s)
      | none, s => s
      | _, none => none }

/-- The plain string term `a`. -/
def literal_a : rasqal_literal :=
  .mk .RASQAL_LITERAL_STRING (some "a") none none 0 none none

/-- A context as the stack may hold it when the deprecated entry point is
entered: a base URI left from earlier use. -/
def stale_context : rasqal_evaluation_context := ⟨7, some "http://stale.example/", none⟩

/-- The one-operand operators of the claim on default failure propagation:
negate, bit-complement, NOT and CAST. -/
def propagating_unary_ops : List rasqal_op :=
  [.RASQAL_EXPR_UMINUS, .RASQAL_EXPR_TILDE, .RASQAL_EXPR_BANG, .RASQAL_EXPR_CAST]

/-- The two-operand operators of the claim on default failure propagation:
the comparisons, the string-equality variants, the arithmetic operators and
SAME-TERM. -/
def propagating_binary_ops : List rasqal_op :=
  [.RASQAL_EXPR_EQ, .RASQAL_EXPR_NEQ, .RASQAL_EXPR_LT, .RASQAL_EXPR_GT, .RASQAL_EXPR_LE,
    .RASQAL_EXPR_GE, .RASQAL_EXPR_STR_EQ, .RASQAL_EXPR_STR_NEQ, .RASQAL_EXPR_PLUS,
    .RASQAL_EXPR_MINUS, .RASQAL_EXPR_STAR, .RASQAL_EXPR_SLASH, .RASQAL_EXPR_REM,
    .RASQAL_EXPR_SAMETERM]

/-- Spec side: the evaluated operand `l1` resolves to the term `t`. Either
`l1` is no reference to a variable and `t` is `l1` itself, or `l1` is a
reference to a variable whose currently bound value is `t`. -/
def operand_resolves_to (l1 t : rasqal_literal) : Prop :=
  (rasqal_literal_as_variable l1 = none ∧ t = l1) ∨
    ∃ v : rasqal_variable, rasqal_literal_as_variable l1 = some v ∧ v.value = some t

/-- Spec side: the evaluated operand `l1` is unbound: a reference to a
variable that has no value. -/
def operand_unbound (l1 : rasqal_literal) : Prop :=
  ∃ v : rasqal_variable, rasqal_literal_as_variable l1 = some v ∧ v.value = none

/-- A leaf whose evaluation is itself a reference to a variable: the variable
of the leaf is bound to the VariableRef term of the given binding, and
flattening takes one step. -/
def leaf_reference (value : Option rasqal_literal) : rasqal_expression :=
  leaf (literal_variable (some (literal_variable value)))

/-- The collaborator set `sample_collaborators` with an evaluator of
LANGMATCHES that evaluates the first operand of its node, as the evaluators of
the other files do with their operands. -/
def sample_collaborators_evaluating : collaborators :=
  { sample_collaborators with
    rasqal_expression_evaluate_langmatches := fun e ctx =>
      rasqal_expression_evaluate2 sample_collaborators ctx e.arg1 }

/-- Spec side: an evaluation succeeds when it returns a term. -/
def evaluation_succeeds (c : eval_result) : Prop :=
  ∃ (r : rasqal_literal) (log : List diagnostic), c = .ret (some r) log

/-- Spec side: an evaluation fails when it returns `NULL`. -/
def evaluation_fails (c : eval_result) : Prop :=
  ∃ log : List diagnostic, c = .ret none log

/-- The operators that this file evaluates and that cannot succeed when the
evaluation of one of their operands fails: those of the claim on default
failure propagation, then STR, LANG, DATATYPE, the type tests, the URI and
blank node constructors, STRLANG, STRDT and the ORDER and GROUP wrappers. -/
def failure_strict_ops : List rasqal_op :=
  propagating_unary_ops ++ propagating_binary_ops ++
    [.RASQAL_EXPR_STR, .RASQAL_EXPR_LANG, .RASQAL_EXPR_DATATYPE, .RASQAL_EXPR_ISURI,
      .RASQAL_EXPR_ISBLANK, .RASQAL_EXPR_ISLITERAL, .RASQAL_EXPR_ISNUMERIC,
      .RASQAL_EXPR_URI, .RASQAL_EXPR_IRI, .RASQAL_EXPR_STRLANG, .RASQAL_EXPR_STRDT,
      .RASQAL_EXPR_BNODE, .RASQAL_EXPR_ORDER_COND_ASC, .RASQAL_EXPR_ORDER_COND_DESC,
      .RASQAL_EXPR_GROUP_COND_ASC, .RASQAL_EXPR_GROUP_COND_DESC]

/-- The operators that this file evaluates and that can succeed although the
evaluation of one of their operands fails, or would fail: AND, OR, COALESCE,
BOUND, IF, IN, NOT-IN and the function call. -/
def failure_lenient_ops : List rasqal_op :=
  [.RASQAL_EXPR_AND, .RASQAL_EXPR_OR, .RASQAL_EXPR_COALESCE, .RASQAL_EXPR_BOUND,
    .RASQAL_EXPR_IF, .RASQAL_EXPR_IN, .RASQAL_EXPR_NOT_IN, .RASQAL_EXPR_FUNCTION]

/-- The operators whose node never returns a term: the aggregates, VARSTAR
and the unknown tags. -/
def never_succeeding_ops : List rasqal_op :=
  [.RASQAL_EXPR_COUNT, .RASQAL_EXPR_SUM, .RASQAL_EXPR_AVG, .RASQAL_EXPR_MIN,
    .RASQAL_EXPR_MAX, .RASQAL_EXPR_SAMPLE, .RASQAL_EXPR_GROUP_CONCAT,
    .RASQAL_EXPR_VARSTAR, .RASQAL_EXPR_UNKNOWN, .unrecognised]

/-! ## Theorems: language-range matching -/

theorem tolower_of_upper (c : Char) (h : 65 ≤ c.toNat ∧ c.toNat ≤ 90) :
    tolower c = Char.ofNat (c.toNat + 32) := by
  simp [tolower, h]

theorem tolower_of_not_upper (c : Char) (h : ¬ (65 ≤ c.toNat ∧ c.toNat ≤ 90)) :
    tolower c = c := by
  simp only [tolower, if_neg h]

theorem char_eq_ofNat_toNat (c : Char) : c = Char.ofNat c.toNat := by
  simp

theorem tolower_idem (c : Char) : tolower (tolower c) = tolower c := by
  by_cases h : 65 ≤ c.toNat ∧ c.toNat ≤ 90
  · rw [tolower_of_upper c h]
    obtain ⟨h1, h2⟩ := h
    generalize c.toNat = n at h1 h2
    interval_cases n <;> decide
  · rw [tolower_of_not_upper c h, tolower_of_not_upper c h]

theorem tolower_toupper (c : Char) : tolower (toupper c) = tolower c := by
  by_cases h : 97 ≤ c.toNat ∧ c.toNat ≤ 122
  · have hc : c = Char.ofNat c.toNat := char_eq_ofNat_toNat c
    obtain ⟨h1, h2⟩ := h
    generalize c.toNat = n at hc h1 h2
    subst hc
    interval_cases n <;> decide
  · simp only [toupper, if_neg h]

theorem tolower_eq_hyphen (c : Char) : tolower c = '-' ↔ c = '-' := by
  by_cases h : 65 ≤ c.toNat ∧ c.toNat ≤ 90
  · have hc : c = Char.ofNat c.toNat := char_eq_ofNat_toNat c
    obtain ⟨h1, h2⟩ := h
    generalize c.toNat = n at hc h1 h2
    subst hc
    interval_cases n <;> decide
  · rw [tolower_of_not_upper c h]

theorem tolower_eq_star (c : Char) : tolower c = '*' ↔ c = '*' := by
  by_cases h : 65 ≤ c.toNat ∧ c.toNat ≤ 90
  · have hc : c = Char.ofNat c.toNat := char_eq_ofNat_toNat c
    obtain ⟨h1, h2⟩ := h
    generalize c.toNat = n at hc h1 h2
    subst hc
    interval_cases n <;> decide
  · rw [tolower_of_not_upper c h]

/-- What the scanning loop computes: after lower-casing, the range is the
whole tag, or the range is followed in the tag by a hyphen. -/
theorem rasqal_language_matches_loop_iff (tag range : List Char) :
    rasqal_language_matches_loop tag range = true ↔
      (range.map tolower = tag.map tolower ∨
        ∃ rest, tag.map tolower = range.map tolower ++ '-' :: rest) := by
  induction tag generalizing range with
  | nil =>
    cases range with
    | nil => simp [rasqal_language_matches_loop]
    | cons r rs => simp [rasqal_language_matches_loop]
  | cons t ts ih =>
    cases range with
    | nil =>
      by_cases ht : tolower t = '-'
      · simp [rasqal_language_matches_loop, ht]
      · simp [rasqal_language_matches_loop, ht]
    | cons r rs =>
      by_cases hrt : tolower r = tolower t
      · have := ih rs
        simp [rasqal_language_matches_loop, hrt, this]
      · have hrt' : ¬ tolower t = tolower r := fun h => hrt h.symm
        simp [rasqal_language_matches_loop, hrt, hrt']

theorem recased_map_tolower (s s' : List Char) (h : recased s s') :
    s'.map tolower = s.map tolower := by
  unfold recased at h
  induction h with
  | nil => rfl
  | cons hc _ ih =>
    rcases hc with hc | hc | hc
    · simp [hc, ih]
    · simp [hc, ih, tolower_idem]
    · simp [hc, ih, tolower_toupper]

theorem map_tolower_head_star (s s' : List Char)
    (h : s'.map tolower = s.map tolower) : s.head? = some '*' ↔ s'.head? = some '*' := by
  cases s with
  | nil => cases s' with
    | nil => simp
    | cons c' t' => simp at h
  | cons c t => cases s' with
    | nil => simp at h
    | cons c' t' =>
      simp only [List.map_cons, List.cons.injEq] at h
      simp only [List.head?_cons, Option.some.injEq]
      rw [← tolower_eq_star c, ← tolower_eq_star c', h.1]

theorem map_tolower_eq_nil (s s' : List Char)
    (h : s'.map tolower = s.map tolower) : s = [] ↔ s' = [] := by
  cases s <;> cases s' <;> simp at h ⊢

theorem head?_eq_none_iff_nil (s : List Char) : s.head? = none ↔ s = [] := by
  cases s <;> simp

/-- The matcher only looks at the lower-cased characters of its arguments. -/
theorem rasqal_language_matches_congr (tag tag' range range' : List Char)
    (ht : tag'.map tolower = tag.map tolower)
    (hr : range'.map tolower = range.map tolower) :
    rasqal_language_matches (some tag) (some range) =
      rasqal_language_matches (some tag') (some range') := by
  have hloop : rasqal_language_matches_loop tag range =
      rasqal_language_matches_loop tag' range' := by
    rw [Bool.eq_iff_iff, rasqal_language_matches_loop_iff, rasqal_language_matches_loop_iff,
      ht, hr]
  have htn := map_tolower_eq_nil tag tag' ht
  have hrn := map_tolower_eq_nil range range' hr
  have hstar := map_tolower_head_star range range' hr
  have htl : range.tail.head? = none ↔ range'.tail.head? = none := by
    rw [head?_eq_none_iff_nil, head?_eq_none_iff_nil]
    have hlen : range.length = range'.length := by
      have := congrArg List.length hr
      simpa using this.symm
    cases range <;> cases range' <;> simp at hlen ⊢
    rw [← List.length_eq_zero, ← List.length_eq_zero (l := _), hlen]
  simp only [rasqal_language_matches, head?_eq_none_iff_nil, htn, hrn, hstar, htl, hloop]

/-- C3 (as stated, refuted): the tag `*a` and the range `*a` are non-empty,
the range is not exactly `*`, and the range equals the tag, yet
`rasqal_language_matches` answers false: a range that starts with `*` is
decided by the guard of lines 85-89 and never reaches the comparison loop. -/
theorem language_matches_star_range_not_prefix_rule :
    "*a".toList ≠ [] ∧ "*a".toList ≠ ['*'] ∧
    ¬ (rasqal_language_matches (some "*a".toList) (some "*a".toList) = true ↔
        ("*a".toList.map tolower = "*a".toList.map tolower ∨
          ∃ rest, "*a".toList.map tolower = "*a".toList.map tolower ++ '-' :: rest)) := by
  refine ⟨by decide, by decide, ?_⟩
  intro h
  have hm := h.mpr (Or.inl rfl)
  revert hm
  decide

/-- C3 (amended): for every non-empty language tag and every non-empty
language range whose first character is not `*`,
`rasqal_language_matches(tag, range)` is true if and only if, comparing
characters after lower-casing, either the range equals the tag, or the range
is a proper prefix of the tag and the tag character right after that prefix
is `-`. -/
theorem language_matches_iff_range_leads_tag (tag range : List Char)
    (htag : tag ≠ []) (hrange : range ≠ []) (hstar : range.head? ≠ some '*') :
    rasqal_language_matches (some tag) (some range) = true ↔
      (range.map tolower = tag.map tolower ∨
        ∃ rest, tag.map tolower = range.map tolower ++ '-' :: rest) := by
  rw [← rasqal_language_matches_loop_iff]
  simp [rasqal_language_matches, head?_eq_none_iff_nil, htag, hrange, hstar]

/-- C3 witness: the amended rule at tag `en-US` and range `en`, together with
the three evaluations named by the claim. -/
theorem language_matches_iff_range_leads_tag_witness :
    ("en-US".toList ≠ [] ∧ "en".toList ≠ [] ∧ "en".toList.head? ≠ some '*') ∧
    (rasqal_language_matches (some "en-US".toList) (some "en".toList) = true ↔
      ("en".toList.map tolower = "en-US".toList.map tolower ∨
        ∃ rest, "en-US".toList.map tolower = "en".toList.map tolower ++ '-' :: rest)) ∧
    rasqal_language_matches (some "en-US".toList) (some "en".toList) = true ∧
    rasqal_language_matches (some "en".toList) (some "en-US".toList) = false ∧
    rasqal_language_matches (some "english".toList) (some "en".toList) = false :=
  ⟨⟨by decide, by decide, by decide⟩,
   language_matches_iff_range_leads_tag "en-US".toList "en".toList
     (by decide) (by decide) (by decide),
   by decide, by decide, by decide⟩

/-- C4: `rasqal_language_matches` returns false whenever the tag or the range
is absent (NULL) or the empty string, whatever the other argument is. -/
theorem language_matches_false_of_absent_or_empty (tag range : Option (List Char))
    (h : tag = none ∨ tag = some [] ∨ range = none ∨ range = some []) :
    rasqal_language_matches tag range = false := by
  rcases h with h | h | h | h
  · subst h; cases range <;> rfl
  · subst h; cases range <;> simp [rasqal_language_matches]
  · subst h; cases tag <;> rfl
  · subst h; cases tag <;> simp [rasqal_language_matches]

/-- C4 witness: the empty tag against the range `*`, with the other
evaluations named by the claim. -/
theorem language_matches_false_of_absent_or_empty_witness :
    rasqal_language_matches (some "".toList) (some "*".toList) = false ∧
    rasqal_language_matches (some "".toList) (some "en".toList) = false ∧
    rasqal_language_matches (some "en".toList) (some "".toList) = false ∧
    rasqal_language_matches none (some "*".toList) = false ∧
    rasqal_language_matches (some "en".toList) none = false :=
  ⟨language_matches_false_of_absent_or_empty (some "".toList) (some "*".toList)
     (Or.inr (Or.inl rfl)),
   by decide, by decide, by decide, by decide⟩

/-- C5: for every non-empty language tag, `rasqal_language_matches(tag, "*")`
is true. -/
theorem language_matches_star (tag : List Char) (h : tag ≠ []) :
    rasqal_language_matches (some tag) (some "*".toList) = true := by
  have hs : "*".toList = ['*'] := by decide
  simp [rasqal_language_matches, head?_eq_none_iff_nil, h, hs]

/-- C5 witness: the tag `en-US` against the range `*`. -/
theorem language_matches_star_witness :
    "en-US".toList ≠ [] ∧
    rasqal_language_matches (some "en-US".toList) (some "*".toList) = true :=
  ⟨by decide, language_matches_star "en-US".toList (by decide)⟩

/-- C6: `rasqal_language_matches` is case-insensitive: replacing ASCII letters
of the tag and of the range by their upper- or lower-case counterparts does
not change the result. -/
theorem language_matches_case_insensitive (tag tag' range range' : List Char)
    (ht : recased tag tag') (hr : recased range range') :
    rasqal_language_matches (some tag') (some range') =
      rasqal_language_matches (some tag) (some range) :=
  (rasqal_language_matches_congr tag tag' range range'
    (recased_map_tolower tag tag' ht) (recased_map_tolower range range' hr)).symm

/-- C6 witness: `matches("EN","en") = matches("en","en") = true`. -/
theorem language_matches_case_insensitive_witness :
    (recased "en".toList "EN".toList ∧ recased "en".toList "en".toList) ∧
    rasqal_language_matches (some "EN".toList) (some "en".toList) =
      rasqal_language_matches (some "en".toList) (some "en".toList) ∧
    rasqal_language_matches (some "en".toList) (some "en".toList) = true :=
  ⟨⟨List.Forall₂.cons (Or.inr (Or.inr (by decide)))
      (List.Forall₂.cons (Or.inr (Or.inr (by decide))) List.Forall₂.nil),
    List.Forall₂.cons (Or.inl rfl) (List.Forall₂.cons (Or.inl rfl) List.Forall₂.nil)⟩,
   language_matches_case_insensitive "en".toList "EN".toList "en".toList "en".toList
     (List.Forall₂.cons (Or.inr (Or.inr (by decide)))
       (List.Forall₂.cons (Or.inr (Or.inr (by decide))) List.Forall₂.nil))
     (List.Forall₂.cons (Or.inl rfl) (List.Forall₂.cons (Or.inl rfl) List.Forall₂.nil)),
   by decide⟩

/-! ## Theorems: the dispatcher -/

theorem bind_ret {α β : Type} (a : α) (log : List diagnostic) (k : α → computation β) :
    (computation.ret a log).bind k =
      match k a with
      | .stopped why => .stopped why
      | .ret b log' => .ret b (log ++ log') := rfl

/-- What the AND case computes from the outcomes of its two operands. -/
theorem evaluate2_and (w : collaborators) (ctx : rasqal_evaluation_context)
    (arg1 arg2 arg3 : Option rasqal_expression) (literal : Option rasqal_literal)
    (name : Option raptor_uri) (args : List (Option rasqal_expression))
    (l1 l2 : Option rasqal_literal) (log1 log2 : List diagnostic)
    (h1 : rasqal_expression_evaluate2 w ctx arg1 = .ret l1 log1)
    (h2 : rasqal_expression_evaluate2 w ctx arg2 = .ret l2 log2) :
    rasqal_expression_evaluate2 w ctx
        (some (.mk .RASQAL_EXPR_AND arg1 arg2 arg3 literal name args)) =
      .ret
        (if (evaluate_logical_operand w l1).2 = 0 ∧ (evaluate_logical_operand w l2).2 = 0 then
          rasqal_new_boolean_literal
            (if (evaluate_logical_operand w l1).1 ≠ 0 ∧ (evaluate_logical_operand w l2).1 ≠ 0
              then 1 else 0)
        else if ((evaluate_logical_operand w l1).1 = 0 ∧ (evaluate_logical_operand w l2).2 ≠ 0) ∨
            ((evaluate_logical_operand w l1).2 ≠ 0 ∧ (evaluate_logical_operand w l2).1 ≠ 0) then
          rasqal_new_boolean_literal 0
        else none)
        (log1 ++ log2) := by
  simp only [rasqal_expression_evaluate2, rasqal_expression_evaluate2_switch, h1, h2, bind_ret,
    failed]
  split_ifs <;> simp

theorem sample_collaborators_as_boolean_zero (l : rasqal_literal)
    (h : (sample_collaborators.rasqal_literal_as_boolean l).2 = true) :
    (sample_collaborators.rasqal_literal_as_boolean l).1 = 0 := by
  revert h
  simp only [sample_collaborators]
  split <;> simp

/-- C1 (the code at the failing inputs): in the AND case an operand that
fails to evaluate is an `E`; with a false, a true and a failing second
operand the table of §4.1 gives F, E and E, and the code gives failure,
the Boolean false and the Boolean false. The same happens when the first
operand evaluates and its coercion fails (a URI term). -/
theorem and_error_first_operand_evaluations :
    (rasqal_expression_evaluate2 sample_collaborators sample_context (some leaf_unbound) =
        .ret none [] ∧
      operand_truth_value sample_collaborators none = .E ∧
      operand_truth_value sample_collaborators (some literal_uri) = .E ∧
      operand_truth_value sample_collaborators (some literal_false) = .F ∧
      operand_truth_value sample_collaborators (some literal_true) = .T) ∧
    (and_truth_table .E .F = .F ∧
      rasqal_expression_evaluate2 sample_collaborators sample_context
        (some (binary .RASQAL_EXPR_AND leaf_unbound (leaf literal_false))) = .ret none []) ∧
    (and_truth_table .E .T = .E ∧
      rasqal_expression_evaluate2 sample_collaborators sample_context
        (some (binary .RASQAL_EXPR_AND leaf_unbound (leaf literal_true))) =
          .ret (rasqal_new_boolean_literal 0) []) ∧
    (and_truth_table .E .E = .E ∧
      rasqal_expression_evaluate2 sample_collaborators sample_context
        (some (binary .RASQAL_EXPR_AND leaf_unbound leaf_unbound)) =
          .ret (rasqal_new_boolean_literal 0) []) ∧
    (rasqal_expression_evaluate2 sample_collaborators sample_context
        (some (binary .RASQAL_EXPR_AND (leaf literal_uri) (leaf literal_false))) =
          .ret none [] ∧
      rasqal_expression_evaluate2 sample_collaborators sample_context
        (some (binary .RASQAL_EXPR_AND (leaf literal_uri) (leaf literal_true))) =
          .ret (rasqal_new_boolean_literal 0) []) :=
  ⟨⟨rfl, rfl, rfl, rfl, rfl⟩, ⟨rfl, rfl⟩, ⟨rfl, rfl⟩, ⟨rfl, rfl⟩, ⟨rfl, rfl⟩⟩

/-- C2: for every OR node whose operand evaluations return, with each operand
classified T, F or E (E: its evaluation failed or its effective-boolean-value
coercion reported an error), the node yields exactly the OR table of §4.1:
the Boolean term true or false for T or F, and failure for E. The coercion is
a collaborator; it is taken to return 0 whenever it reports an error. -/
theorem or_node_follows_truth_table (w : collaborators) (ctx : rasqal_evaluation_context)
    (arg1 arg2 arg3 : Option rasqal_expression) (literal : Option rasqal_literal)
    (name : Option raptor_uri) (args : List (Option rasqal_expression))
    (l1 l2 : Option rasqal_literal) (log1 log2 : List diagnostic)
    (hzero : ∀ l, (w.rasqal_literal_as_boolean l).2 = true →
      (w.rasqal_literal_as_boolean l).1 = 0)
    (h1 : rasqal_expression_evaluate2 w ctx arg1 = .ret l1 log1)
    (h2 : rasqal_expression_evaluate2 w ctx arg2 = .ret l2 log2) :
    rasqal_expression_evaluate2 w ctx
        (some (.mk .RASQAL_EXPR_OR arg1 arg2 arg3 literal name args)) =
      .ret (or_truth_table (operand_truth_value w l1) (operand_truth_value w l2)).result
        (log1 ++ log2) := by
  simp only [rasqal_expression_evaluate2, rasqal_expression_evaluate2_switch, h1, h2, bind_ret,
    failed]
  have key : ∀ l : Option rasqal_literal,
      (operand_truth_value w l = .E ↔ (evaluate_logical_operand w l).2 ≠ 0) ∧
      (operand_truth_value w l = .T ↔
        ((evaluate_logical_operand w l).2 = 0 ∧ (evaluate_logical_operand w l).1 ≠ 0)) ∧
      (operand_truth_value w l = .F ↔
        ((evaluate_logical_operand w l).2 = 0 ∧ (evaluate_logical_operand w l).1 = 0)) ∧
      ((evaluate_logical_operand w l).2 ≠ 0 → (evaluate_logical_operand w l).1 = 0) := by
    intro l
    cases l with
    | none => simp [evaluate_logical_operand, operand_truth_value]
    | some l =>
      have hz := hzero l
      rcases hb : w.rasqal_literal_as_boolean l with ⟨v, r⟩
      rw [hb] at hz
      cases r
      · by_cases hv : v = 0 <;>
          simp [evaluate_logical_operand, operand_truth_value, hb, set_error, hv]
      · have hv : v = 0 := hz rfl
        simp [evaluate_logical_operand, operand_truth_value, hb, set_error, hv]
  obtain ⟨kE1, kT1, kF1, kz1⟩ := key l1
  obtain ⟨kE2, kT2, kF2, kz2⟩ := key l2
  cases t1 : operand_truth_value w l1 <;> cases t2 : operand_truth_value w l2 <;>
    simp only [t1, t2, true_iff, false_iff, reduceCtorEq] at kE1 kT1 kF1 kE2 kT2 kF2 <;>
    simp_all [or_truth_table, truth_value.result]

/-- C2 witness: `true OR unbound` is the Boolean true (T∨E=T) and
`false OR unbound` fails (F∨E=E). -/
theorem or_node_follows_truth_table_witness :
    rasqal_expression_evaluate2 sample_collaborators sample_context
        (some (binary .RASQAL_EXPR_OR (leaf literal_true) leaf_unbound)) =
      .ret (or_truth_table (operand_truth_value sample_collaborators (some literal_true))
        (operand_truth_value sample_collaborators none)).result ([] ++ []) ∧
    (or_truth_table (operand_truth_value sample_collaborators (some literal_true))
        (operand_truth_value sample_collaborators none)).result =
      rasqal_new_boolean_literal 1 ∧
    rasqal_expression_evaluate2 sample_collaborators sample_context
        (some (binary .RASQAL_EXPR_OR (leaf literal_false) leaf_unbound)) = .ret none [] :=
  ⟨or_node_follows_truth_table sample_collaborators sample_context
      (some (leaf literal_true)) (some leaf_unbound) none none none []
      (some literal_true) none [] [] sample_collaborators_as_boolean_zero rfl rfl,
    rfl, rfl⟩

/-- C7: for every MODULO node whose two operands evaluate successfully and
whose divisor (second operand) coerces to the integer 0, the evaluation
returns no value, for every dividend: it neither stops the process nor
returns a numeric term. -/
theorem modulo_by_zero_fails (w : collaborators) (ctx : rasqal_evaluation_context)
    (arg1 arg2 arg3 : Option rasqal_expression) (literal : Option rasqal_literal)
    (name : Option raptor_uri) (args : List (Option rasqal_expression))
    (l1 l2 : rasqal_literal) (log1 log2 : List diagnostic)
    (h1 : rasqal_expression_evaluate2 w ctx arg1 = .ret (some l1) log1)
    (h2 : rasqal_expression_evaluate2 w ctx arg2 = .ret (some l2) log2)
    (hzero : (w.rasqal_literal_as_integer l2).1 = 0) :
    rasqal_expression_evaluate2 w ctx
        (some (.mk .RASQAL_EXPR_REM arg1 arg2 arg3 literal name args)) =
      .ret none (log1 ++ log2) := by
  simp [rasqal_expression_evaluate2, rasqal_expression_evaluate2_switch, h1, h2, bind_ret,
    failed, evaluate_two_operands, hzero]

/-- C7 witness: `7 MODULO 0` returns no value. -/
theorem modulo_by_zero_fails_witness :
    (sample_collaborators.rasqal_literal_as_integer (literal_integer 0)).1 = 0 ∧
    rasqal_expression_evaluate2 sample_collaborators sample_context
        (some (binary .RASQAL_EXPR_REM (leaf (literal_integer 7)) (leaf (literal_integer 0)))) =
      .ret none ([] ++ []) :=
  ⟨rfl, modulo_by_zero_fails sample_collaborators sample_context
      (some (leaf (literal_integer 7))) (some (leaf (literal_integer 0))) none none none []
      (literal_integer 7) (literal_integer 0) [] [] rfl rfl rfl⟩

theorem evaluate2_coalesce (w : collaborators) (ctx : rasqal_evaluation_context)
    (arg1 arg2 arg3 : Option rasqal_expression) (literal : Option rasqal_literal)
    (name : Option raptor_uri) (args : List (Option rasqal_expression)) :
    rasqal_expression_evaluate2 w ctx
        (some (.mk .RASQAL_EXPR_COALESCE arg1 arg2 arg3 literal name args)) =
      rasqal_expression_evaluate_coalesce w ctx args := by
  simp only [rasqal_expression_evaluate2, rasqal_expression_evaluate2_switch]

/-- COALESCE at an alternative that evaluates to a value returns that value. -/
theorem coalesce_cons_value (w : collaborators) (ctx : rasqal_evaluation_context)
    (x : Option rasqal_expression) (post : List (Option rasqal_expression))
    (v : rasqal_literal) (logx : List diagnostic)
    (hx : rasqal_expression_evaluate2 w ctx x = .ret (some v) logx) :
    rasqal_expression_evaluate_coalesce w ctx (x :: post) = .ret (some v) (logx ++ []) := by
  cases x with
  | none =>
    exfalso
    revert hx
    simp only [rasqal_expression_evaluate2]
    split <;> simp
  | some e => simp only [rasqal_expression_evaluate_coalesce, hx, bind_ret]

/-- COALESCE passes over alternatives that yield no value. -/
theorem coalesce_append_of_fails (w : collaborators) (ctx : rasqal_evaluation_context)
    (pre rest : List (Option rasqal_expression))
    (hpre : ∀ a ∈ pre, alternative_fails w ctx a)
    (r : Option rasqal_literal) (log' : List diagnostic)
    (hrest : rasqal_expression_evaluate_coalesce w ctx rest = .ret r log') :
    ∃ log, rasqal_expression_evaluate_coalesce w ctx (pre ++ rest) = .ret r log := by
  induction pre with
  | nil => exact ⟨log', hrest⟩
  | cons a pre ih =>
    obtain ⟨log, hlog⟩ := ih (fun b hb => hpre b (List.mem_cons_of_mem a hb))
    rcases hpre a (List.mem_cons_self a pre) with ha | ⟨loga, ha⟩
    · subst ha
      exact ⟨log, by
        simp only [List.cons_append, rasqal_expression_evaluate_coalesce, List.append_eq, hlog]⟩
    · cases a with
      | none =>
        exact ⟨log, by
        simp only [List.cons_append, rasqal_expression_evaluate_coalesce, List.append_eq, hlog]⟩
      | some e =>
        exact ⟨loga ++ log, by
          simp only [List.cons_append, rasqal_expression_evaluate_coalesce, ha, bind_ret,
            List.append_eq, hlog]⟩

/-- C8: for every COALESCE node: if some alternative evaluates successfully,
the result is the value of the first such alternative, the alternatives
before it, which all fail, being passed over; if every alternative fails
(also when there is none), the whole form fails. -/
theorem coalesce_returns_first_value (w : collaborators) (ctx : rasqal_evaluation_context)
    (arg1 arg2 arg3 : Option rasqal_expression) (literal : Option rasqal_literal)
    (name : Option raptor_uri) :
    (∀ (pre : List (Option rasqal_expression)) (x : Option rasqal_expression)
        (post : List (Option rasqal_expression)) (v : rasqal_literal) (logx : List diagnostic),
        (∀ a ∈ pre, alternative_fails w ctx a) →
        rasqal_expression_evaluate2 w ctx x = .ret (some v) logx →
        ∃ log, rasqal_expression_evaluate2 w ctx
          (some (.mk .RASQAL_EXPR_COALESCE arg1 arg2 arg3 literal name (pre ++ x :: post))) =
            .ret (some v) log) ∧
    (∀ (args : List (Option rasqal_expression)),
        (∀ a ∈ args, alternative_fails w ctx a) →
        ∃ log, rasqal_expression_evaluate2 w ctx
          (some (.mk .RASQAL_EXPR_COALESCE arg1 arg2 arg3 literal name args)) =
            .ret none log) := by
  constructor
  · intro pre x post v logx hpre hx
    rw [evaluate2_coalesce]
    exact coalesce_append_of_fails w ctx pre (x :: post) hpre (some v) (logx ++ [])
      (coalesce_cons_value w ctx x post v logx hx)
  · intro args hargs
    rw [evaluate2_coalesce]
    have h := coalesce_append_of_fails w ctx args [] hargs none []
      (by simp only [rasqal_expression_evaluate_coalesce])
    simpa using h

/-- C8 witness: `COALESCE(fail, fail, "x")` is `"x"` and `COALESCE(fail,
fail)` fails, `fail` being a reference to an unbound variable. -/
theorem coalesce_returns_first_value_witness :
    (∃ log, rasqal_expression_evaluate2 sample_collaborators sample_context
      (some (variadic .RASQAL_EXPR_COALESCE [leaf_unbound, leaf_unbound, leaf literal_x])) =
        .ret (some literal_x) log) ∧
    (∃ log, rasqal_expression_evaluate2 sample_collaborators sample_context
      (some (variadic .RASQAL_EXPR_COALESCE [leaf_unbound, leaf_unbound])) = .ret none log) ∧
    rasqal_expression_evaluate2 sample_collaborators sample_context
      (some (variadic .RASQAL_EXPR_COALESCE [leaf_unbound, leaf_unbound, leaf literal_x])) =
        .ret (some literal_x) [] ∧
    rasqal_expression_evaluate2 sample_collaborators sample_context
      (some (variadic .RASQAL_EXPR_COALESCE [leaf_unbound, leaf_unbound])) = .ret none [] ∧
    rasqal_expression_evaluate2 sample_collaborators sample_context
      (some (variadic .RASQAL_EXPR_COALESCE [])) = .ret none [] :=
  ⟨(coalesce_returns_first_value sample_collaborators sample_context none none none none
      none).1 [some leaf_unbound, some leaf_unbound] (some (leaf literal_x)) [] literal_x []
      (fun a ha => by
        simp only [List.mem_cons, List.mem_singleton, List.not_mem_nil, or_false] at ha
        rcases ha with ha | ha <;> subst ha <;> exact Or.inr ⟨[], rfl⟩)
      rfl,
    (coalesce_returns_first_value sample_collaborators sample_context none none none none
      none).2 [some leaf_unbound, some leaf_unbound]
      (fun a ha => by
        simp only [List.mem_cons, List.mem_singleton, List.not_mem_nil, or_false] at ha
        rcases ha with ha | ha <;> subst ha <;> exact Or.inr ⟨[], rfl⟩),
    rfl, rfl, rfl⟩

theorem evaluate2_bound (w : collaborators) (ctx : rasqal_evaluation_context)
    (arg1 arg2 arg3 : Option rasqal_expression) (literal : Option rasqal_literal)
    (name : Option raptor_uri) (args : List (Option rasqal_expression)) :
    rasqal_expression_evaluate2 w ctx
        (some (.mk .RASQAL_EXPR_BOUND arg1 arg2 arg3 literal name args)) =
      .ret (rasqal_expression_evaluate_bound
        (.mk .RASQAL_EXPR_BOUND arg1 arg2 arg3 literal name args)) [] := by
  simp only [rasqal_expression_evaluate2, rasqal_expression_evaluate2_switch]

/-- C9: BOUND succeeds if and only if its operand is syntactically a leaf
literal holding a VariableRef. In that case it returns the Boolean true when
the variable has a bound value and the Boolean false when it has none; for
every other operand shape (no operand, a node that is not a leaf literal, a
leaf holding no variable term) it fails. -/
theorem bound_iff_variable_leaf (w : collaborators) (ctx : rasqal_evaluation_context)
    (arg1 arg2 arg3 : Option rasqal_expression) (literal : Option rasqal_literal)
    (name : Option raptor_uri) (args : List (Option rasqal_expression)) :
    (∀ (v : rasqal_variable) (value : rasqal_literal), is_variable_leaf arg1 v →
        v.value = some value →
        rasqal_expression_evaluate2 w ctx
          (some (.mk .RASQAL_EXPR_BOUND arg1 arg2 arg3 literal name args)) =
            .ret (rasqal_new_boolean_literal 1) []) ∧
    (∀ (v : rasqal_variable), is_variable_leaf arg1 v → v.value = none →
        rasqal_expression_evaluate2 w ctx
          (some (.mk .RASQAL_EXPR_BOUND arg1 arg2 arg3 literal name args)) =
            .ret (rasqal_new_boolean_literal 0) []) ∧
    ((¬ ∃ v, is_variable_leaf arg1 v) →
        rasqal_expression_evaluate2 w ctx
          (some (.mk .RASQAL_EXPR_BOUND arg1 arg2 arg3 literal name args)) = .ret none []) ∧
    ((∃ r, rasqal_expression_evaluate2 w ctx
          (some (.mk .RASQAL_EXPR_BOUND arg1 arg2 arg3 literal name args)) = .ret (some r) []) ↔
      ∃ v, is_variable_leaf arg1 v) := by
  have hyes : ∀ (v : rasqal_variable), is_variable_leaf arg1 v →
      rasqal_expression_evaluate_bound (.mk .RASQAL_EXPR_BOUND arg1 arg2 arg3 literal name args) =
        rasqal_new_boolean_literal (if v.value.isSome then 1 else 0) := by
    rintro v ⟨x, l, hx, hop, hl, ht, hv⟩
    simp [rasqal_expression_evaluate_bound, rasqal_expression.arg1, hx, hop, hl, ht,
      rasqal_literal_as_variable, hv]
  have hno : (¬ ∃ v, is_variable_leaf arg1 v) →
      rasqal_expression_evaluate_bound (.mk .RASQAL_EXPR_BOUND arg1 arg2 arg3 literal name args) =
        none := by
    intro h
    simp only [rasqal_expression_evaluate_bound, rasqal_expression.arg1]
    cases harg : arg1 with
    | none => rfl
    | some x =>
      by_cases hop : x.op = .RASQAL_EXPR_LITERAL
      · cases hl : x.literal with
        | none => simp [hop, hl]
        | some l =>
          by_cases ht : l.type = .RASQAL_LITERAL_VARIABLE
          · cases hv : l.value_variable with
            | none => simp [hop, hl, ht, rasqal_literal_as_variable, hv]
            | some v => exact absurd ⟨v, x, l, harg, hop, hl, ht, hv⟩ h
          · simp [hop, hl, ht]
      · simp [hop]
  refine ⟨?_, ?_, ?_, ?_⟩
  · intro v value hleaf hvalue
    rw [evaluate2_bound, hyes v hleaf, hvalue]
    rfl
  · intro v hleaf hvalue
    rw [evaluate2_bound, hyes v hleaf, hvalue]
    rfl
  · intro h
    rw [evaluate2_bound, hno h]
  · constructor
    · rintro ⟨r, hr⟩
      by_contra h
      rw [evaluate2_bound, hno h] at hr
      simp at hr
    · rintro ⟨v, hleaf⟩
      rw [evaluate2_bound, hyes v hleaf]
      exact ⟨_, rfl⟩

/-- C9 witness: BOUND of an unbound variable is the Boolean false, BOUND of a
variable bound to `"x"` is the Boolean true, and BOUND of a leaf holding the
plain string `"x"` fails. -/
theorem bound_iff_variable_leaf_witness :
    rasqal_expression_evaluate2 sample_collaborators sample_context
      (some (.mk .RASQAL_EXPR_BOUND (some (leaf (literal_variable (some literal_x))))
        none none none none [])) = .ret (rasqal_new_boolean_literal 1) [] ∧
    rasqal_expression_evaluate2 sample_collaborators sample_context
      (some (.mk .RASQAL_EXPR_BOUND (some leaf_unbound) none none none none [])) =
        .ret (rasqal_new_boolean_literal 0) [] ∧
    rasqal_expression_evaluate2 sample_collaborators sample_context
      (some (.mk .RASQAL_EXPR_BOUND (some (leaf literal_x)) none none none none [])) =
        .ret none [] :=
  ⟨(bound_iff_variable_leaf sample_collaborators sample_context
      (some (leaf (literal_variable (some literal_x)))) none none none none []).1
      ⟨"v", some literal_x⟩ literal_x ⟨_, _, rfl, rfl, rfl, rfl, rfl⟩ rfl,
    (bound_iff_variable_leaf sample_collaborators sample_context
      (some leaf_unbound) none none none none []).2.1
      ⟨"v", none⟩ ⟨_, _, rfl, rfl, rfl, rfl, rfl⟩ rfl,
    (bound_iff_variable_leaf sample_collaborators sample_context
      (some (leaf literal_x)) none none none none []).2.2.1
      (by
        rintro ⟨v, x, l, hx, _, hl, ht, _⟩
        cases hx
        cases hl
        exact absurd ht (by decide))⟩

/-- A term is not the value bound to the variable it holds. -/
theorem rasqal_literal_ne_bound_value (l value : rasqal_literal) (v : rasqal_variable)
    (hv : l.value_variable = some v) (hvalue : v.value = some value) : value ≠ l := by
  intro h
  subst h
  cases value with
  | mk t s la d i u vv =>
    simp only [rasqal_literal.value_variable] at hv
    subst hv
    cases v with
    | mk n val =>
      simp only at hvalue
      have hsize := congrArg sizeOf hvalue
      simp at hsize
      omega

/-- C10: for every leaf-literal node: if the embedded term is a VariableRef
that is bound, the evaluation returns a copy equal to the bound value, which
is not the VariableRef itself; if the VariableRef is unbound, the evaluation
fails; if the embedded term is not a variable, the evaluation returns a copy
equal to that term. -/
theorem literal_leaf_flattens (w : collaborators) (ctx : rasqal_evaluation_context)
    (arg1 arg2 arg3 : Option rasqal_expression) (l : rasqal_literal)
    (name : Option raptor_uri) (args : List (Option rasqal_expression)) :
    (∀ (v : rasqal_variable) (value : rasqal_literal),
        l.type = .RASQAL_LITERAL_VARIABLE → l.value_variable = some v → v.value = some value →
        rasqal_expression_evaluate2 w ctx
          (some (.mk .RASQAL_EXPR_LITERAL arg1 arg2 arg3 (some l) name args)) =
            .ret (some value) [] ∧ value ≠ l) ∧
    (∀ (v : rasqal_variable),
        l.type = .RASQAL_LITERAL_VARIABLE → l.value_variable = some v → v.value = none →
        rasqal_expression_evaluate2 w ctx
          (some (.mk .RASQAL_EXPR_LITERAL arg1 arg2 arg3 (some l) name args)) = .ret none []) ∧
    (l.type ≠ .RASQAL_LITERAL_VARIABLE →
        rasqal_expression_evaluate2 w ctx
          (some (.mk .RASQAL_EXPR_LITERAL arg1 arg2 arg3 (some l) name args)) =
            .ret (some l) []) := by
  refine ⟨?_, ?_, ?_⟩
  · intro v value ht hv hvalue
    refine ⟨?_, rasqal_literal_ne_bound_value l value v hv hvalue⟩
    simp [rasqal_expression_evaluate2, rasqal_expression_evaluate2_switch,
      rasqal_new_literal_from_literal, rasqal_literal_value, ht, hv, hvalue]
  · intro v ht hv hvalue
    simp [rasqal_expression_evaluate2, rasqal_expression_evaluate2_switch,
      rasqal_new_literal_from_literal, rasqal_literal_value, ht, hv, hvalue]
  · intro ht
    simp [rasqal_expression_evaluate2, rasqal_expression_evaluate2_switch,
      rasqal_new_literal_from_literal, rasqal_literal_value, ht]

/-- C10 witness: a leaf holding a variable bound to `"x"` evaluates to `"x"`,
a leaf holding an unbound variable fails, and a leaf holding `"x"` evaluates
to `"x"`. -/
theorem literal_leaf_flattens_witness :
    (rasqal_expression_evaluate2 sample_collaborators sample_context
        (some (leaf (literal_variable (some literal_x)))) = .ret (some literal_x) [] ∧
      literal_x ≠ literal_variable (some literal_x)) ∧
    rasqal_expression_evaluate2 sample_collaborators sample_context (some leaf_unbound) =
      .ret none [] ∧
    rasqal_expression_evaluate2 sample_collaborators sample_context (some (leaf literal_x)) =
      .ret (some literal_x) [] :=
  ⟨(literal_leaf_flattens sample_collaborators sample_context none none none
      (literal_variable (some literal_x)) none []).1 ⟨"v", some literal_x⟩ literal_x
      rfl rfl rfl,
    (literal_leaf_flattens sample_collaborators sample_context none none none
      (literal_variable none) none []).2.1 ⟨"v", none⟩ rfl rfl rfl,
    (literal_leaf_flattens sample_collaborators sample_context none none none
      literal_x none []).2.2 (by decide)⟩

/-! ## Theorems: special forms -/

/-- The loop of IN / NOT-IN steps over a candidate that differs from the
probe. -/
theorem in_set_loop_cons_differs (w : collaborators) (ctx : rasqal_evaluation_context)
    (l1 : rasqal_literal) (a : Option rasqal_expression)
    (rest : List (Option rasqal_expression)) (h : candidate_differs w ctx l1 a) :
    ∃ loga, rasqal_expression_evaluate_in_set_loop w ctx l1 (a :: rest) =
      (computation.ret () loga).bind fun _ =>
        rasqal_expression_evaluate_in_set_loop w ctx l1 rest := by
  obtain ⟨l, loga, hev, herr, hval⟩ := h
  refine ⟨loga, ?_⟩
  simp only [rasqal_expression_evaluate_in_set_loop, hev, bind_ret, herr, hval, set_error]
  simp

/-- The loop of IN / NOT-IN ends at a candidate that equals the probe: what
follows the candidate is not looked at. -/
theorem in_set_loop_cons_equals (w : collaborators) (ctx : rasqal_evaluation_context)
    (l1 : rasqal_literal) (a : Option rasqal_expression)
    (h : candidate_equals w ctx l1 a) :
    ∃ loga, ∀ rest, rasqal_expression_evaluate_in_set_loop w ctx l1 (a :: rest) =
      .ret (some 1) loga := by
  obtain ⟨l, loga, hev, herr, hval⟩ := h
  refine ⟨loga, fun rest => ?_⟩
  simp [rasqal_expression_evaluate_in_set_loop, hev, bind_ret, herr, hval, set_error]

/-- What the loop of IN / NOT-IN gives when the first candidate equal to the
probe comes after candidates that all differ from it. -/
theorem in_set_loop_first_equal (w : collaborators) (ctx : rasqal_evaluation_context)
    (l1 : rasqal_literal) (pre : List (Option rasqal_expression))
    (x : Option rasqal_expression)
    (hpre : ∀ a ∈ pre, candidate_differs w ctx l1 a) (hx : candidate_equals w ctx l1 x) :
    ∃ log, ∀ post, rasqal_expression_evaluate_in_set_loop w ctx l1 (pre ++ x :: post) =
      .ret (some 1) log := by
  induction pre with
  | nil =>
    obtain ⟨loga, h⟩ := in_set_loop_cons_equals w ctx l1 x hx
    exact ⟨loga, fun post => h post⟩
  | cons a pre ih =>
    obtain ⟨log, hlog⟩ := ih (fun b hb => hpre b (List.mem_cons_of_mem a hb))
    obtain ⟨l, loga, hev, herr, hval⟩ := hpre a (List.mem_cons_self a pre)
    refine ⟨loga ++ log, fun post => ?_⟩
    have hstep : rasqal_expression_evaluate_in_set_loop w ctx l1 (a :: (pre ++ x :: post)) =
        (computation.ret () loga).bind fun _ =>
          rasqal_expression_evaluate_in_set_loop w ctx l1 (pre ++ x :: post) := by
      simp only [rasqal_expression_evaluate_in_set_loop, hev, bind_ret, herr, hval, set_error]
      simp
    rw [List.cons_append, hstep, hlog post]
    rfl

/-- What the loop of IN / NOT-IN gives when every candidate differs from the
probe. -/
theorem in_set_loop_all_differ (w : collaborators) (ctx : rasqal_evaluation_context)
    (l1 : rasqal_literal) (args : List (Option rasqal_expression))
    (hargs : ∀ a ∈ args, candidate_differs w ctx l1 a) :
    ∃ log, rasqal_expression_evaluate_in_set_loop w ctx l1 args = .ret (some 0) log := by
  induction args with
  | nil => exact ⟨[], by simp only [rasqal_expression_evaluate_in_set_loop]⟩
  | cons a args ih =>
    obtain ⟨log, hlog⟩ := ih (fun b hb => hargs b (List.mem_cons_of_mem a hb))
    obtain ⟨loga, ha⟩ := in_set_loop_cons_differs w ctx l1 a args
      (hargs a (List.mem_cons_self a args))
    exact ⟨loga ++ log, by rw [ha, hlog]; rfl⟩

/-- A candidate does not both differ from the probe and equal it. -/
theorem candidate_differs_not_equals (w : collaborators) (ctx : rasqal_evaluation_context)
    (l1 : rasqal_literal) (a : Option rasqal_expression)
    (hd : candidate_differs w ctx l1 a) : ¬ candidate_equals w ctx l1 a := by
  obtain ⟨l, log, hev, _, hval⟩ := hd
  rintro ⟨l', log', hev', _, hval'⟩
  rw [hev] at hev'
  cases hev'
  exact hval' hval

/-- A list of candidates that each differ from the probe or equal it either
has none that equals it, or splits at the first that does. -/
theorem candidates_split_at_first_equal (w : collaborators)
    (ctx : rasqal_evaluation_context) (l1 : rasqal_literal)
    (args : List (Option rasqal_expression))
    (hargs : ∀ a ∈ args, candidate_differs w ctx l1 a ∨ candidate_equals w ctx l1 a) :
    (∀ a ∈ args, candidate_differs w ctx l1 a) ∨
    ∃ pre x post, args = pre ++ x :: post ∧ (∀ a ∈ pre, candidate_differs w ctx l1 a) ∧
      candidate_equals w ctx l1 x := by
  induction args with
  | nil => exact Or.inl (fun a ha => absurd ha (List.not_mem_nil a))
  | cons a args ih =>
    rcases hargs a (List.mem_cons_self a args) with ha | ha
    · rcases ih (fun b hb => hargs b (List.mem_cons_of_mem a hb)) with h | ⟨pre, x, post, h, hp, hx⟩
      · left
        intro b hb
        rcases List.mem_cons.mp hb with hb | hb
        · exact hb ▸ ha
        · exact h b hb
      · right
        refine ⟨a :: pre, x, post, by rw [h]; rfl, ?_, hx⟩
        intro b hb
        rcases List.mem_cons.mp hb with hb | hb
        · exact hb ▸ ha
        · exact hp b hb
    · exact Or.inr ⟨[], a, args, rfl, fun b hb => absurd hb (List.not_mem_nil b), ha⟩

/-- The IN and NOT-IN cases from the evaluated probe and the outcome of the
loop. -/
theorem evaluate2_in_set (w : collaborators) (ctx : rasqal_evaluation_context)
    (arg1 arg2 arg3 : Option rasqal_expression) (literal : Option rasqal_literal)
    (name : Option raptor_uri) (args : List (Option rasqal_expression))
    (l1 : rasqal_literal) (log1 log : List diagnostic) (found : Int)
    (h1 : rasqal_expression_evaluate2 w ctx arg1 = .ret (some l1) log1)
    (hloop : rasqal_expression_evaluate_in_set_loop w ctx l1 args = .ret (some found) log) :
    rasqal_expression_evaluate2 w ctx
        (some (.mk .RASQAL_EXPR_IN arg1 arg2 arg3 literal name args)) =
      .ret (rasqal_new_boolean_literal found) (log1 ++ log) ∧
    rasqal_expression_evaluate2 w ctx
        (some (.mk .RASQAL_EXPR_NOT_IN arg1 arg2 arg3 literal name args)) =
      .ret (rasqal_new_boolean_literal (if found ≠ 0 then 0 else 1)) (log1 ++ log) := by
  constructor <;>
    simp [rasqal_expression_evaluate2, rasqal_expression_evaluate2_switch,
      rasqal_expression_evaluate_in_set, h1, hloop, bind_ret]

/-- C11: for every IN / NOT-IN node whose probe and candidates all evaluate
successfully and whose coercing-equality tests all succeed without error, IN
returns the Boolean true if and only if at least one candidate is equal to
the probe and the Boolean false otherwise (false for an empty list), and
NOT-IN on the same operands returns the negation of the IN result. -/
theorem in_set_iff_some_candidate_equals (w : collaborators)
    (ctx : rasqal_evaluation_context)
    (arg1 arg2 arg3 : Option rasqal_expression) (literal : Option rasqal_literal)
    (name : Option raptor_uri) (args : List (Option rasqal_expression))
    (l1 : rasqal_literal) (log1 : List diagnostic)
    (h1 : rasqal_expression_evaluate2 w ctx arg1 = .ret (some l1) log1)
    (hargs : ∀ a ∈ args, candidate_differs w ctx l1 a ∨ candidate_equals w ctx l1 a) :
    ((∃ a ∈ args, candidate_equals w ctx l1 a) →
      ∃ log,
        rasqal_expression_evaluate2 w ctx
            (some (.mk .RASQAL_EXPR_IN arg1 arg2 arg3 literal name args)) =
          .ret (rasqal_new_boolean_literal 1) log ∧
        rasqal_expression_evaluate2 w ctx
            (some (.mk .RASQAL_EXPR_NOT_IN arg1 arg2 arg3 literal name args)) =
          .ret (rasqal_new_boolean_literal 0) log) ∧
    ((¬ ∃ a ∈ args, candidate_equals w ctx l1 a) →
      ∃ log,
        rasqal_expression_evaluate2 w ctx
            (some (.mk .RASQAL_EXPR_IN arg1 arg2 arg3 literal name args)) =
          .ret (rasqal_new_boolean_literal 0) log ∧
        rasqal_expression_evaluate2 w ctx
            (some (.mk .RASQAL_EXPR_NOT_IN arg1 arg2 arg3 literal name args)) =
          .ret (rasqal_new_boolean_literal 1) log) := by
  rcases candidates_split_at_first_equal w ctx l1 args hargs with hall | ⟨pre, x, post, hsplit, hpre, hx⟩
  · obtain ⟨log, hlog⟩ := in_set_loop_all_differ w ctx l1 args hall
    have hnode := evaluate2_in_set w ctx arg1 arg2 arg3 literal name args l1 log1 log 0 h1 hlog
    constructor
    · rintro ⟨a, ha, heq⟩
      exact absurd heq (candidate_differs_not_equals w ctx l1 a (hall a ha))
    · intro _
      exact ⟨log1 ++ log, hnode.1, by simpa using hnode.2⟩
  · obtain ⟨log, hlog⟩ := in_set_loop_first_equal w ctx l1 pre x hpre hx
    have hloop := hlog post
    rw [← hsplit] at hloop
    have hnode := evaluate2_in_set w ctx arg1 arg2 arg3 literal name args l1 log1 log 1 h1 hloop
    constructor
    · intro _
      exact ⟨log1 ++ log, hnode.1, by simpa using hnode.2⟩
    · intro hnone
      exact absurd ⟨x, by rw [hsplit]; simp, hx⟩ hnone

/-- C11 witness: with the probe `"x"`, IN over `(true, "x")` is true and
NOT-IN is false; IN over `(true)` and over the empty list is false and NOT-IN
is true. -/
theorem in_set_iff_some_candidate_equals_witness :
    (∃ log,
      rasqal_expression_evaluate2 sample_collaborators sample_context
          (some (.mk .RASQAL_EXPR_IN (some (leaf literal_x)) none none none none
            [some (leaf literal_true), some (leaf literal_x)])) =
        .ret (rasqal_new_boolean_literal 1) log ∧
      rasqal_expression_evaluate2 sample_collaborators sample_context
          (some (.mk .RASQAL_EXPR_NOT_IN (some (leaf literal_x)) none none none none
            [some (leaf literal_true), some (leaf literal_x)])) =
        .ret (rasqal_new_boolean_literal 0) log) ∧
    (∃ log,
      rasqal_expression_evaluate2 sample_collaborators sample_context
          (some (.mk .RASQAL_EXPR_IN (some (leaf literal_x)) none none none none
            [some (leaf literal_true)])) =
        .ret (rasqal_new_boolean_literal 0) log ∧
      rasqal_expression_evaluate2 sample_collaborators sample_context
          (some (.mk .RASQAL_EXPR_NOT_IN (some (leaf literal_x)) none none none none
            [some (leaf literal_true)])) =
        .ret (rasqal_new_boolean_literal 1) log) ∧
    rasqal_expression_evaluate2 sample_collaborators sample_context
        (some (.mk .RASQAL_EXPR_IN (some (leaf literal_x)) none none none none [])) =
      .ret (rasqal_new_boolean_literal 0) [] ∧
    rasqal_expression_evaluate2 sample_collaborators sample_context
        (some (.mk .RASQAL_EXPR_NOT_IN (some (leaf literal_x)) none none none none [])) =
      .ret (rasqal_new_boolean_literal 1) [] :=
  ⟨(in_set_iff_some_candidate_equals sample_collaborators sample_context
      (some (leaf literal_x)) none none none none
      [some (leaf literal_true), some (leaf literal_x)] literal_x [] rfl
      (fun a ha => by
        simp only [List.mem_cons, List.mem_singleton, List.not_mem_nil, or_false] at ha
        rcases ha with ha | ha <;> subst ha
        · exact Or.inl ⟨literal_true, [], rfl, rfl, rfl⟩
        · exact Or.inr ⟨literal_x, [], rfl, rfl, by decide⟩)).1
      ⟨some (leaf literal_x), by simp, literal_x, [], rfl, rfl, by decide⟩,
    (in_set_iff_some_candidate_equals sample_collaborators sample_context
      (some (leaf literal_x)) none none none none
      [some (leaf literal_true)] literal_x [] rfl
      (fun a ha => by
        simp only [List.mem_singleton] at ha
        subst ha
        exact Or.inl ⟨literal_true, [], rfl, rfl, rfl⟩)).2
      (by
        rintro ⟨a, ha, heq⟩
        simp only [List.mem_singleton] at ha
        subst ha
        exact candidate_differs_not_equals sample_collaborators sample_context literal_x
          (some (leaf literal_true)) ⟨literal_true, [], rfl, rfl, rfl⟩ heq),
    rfl, rfl⟩

/-- The loop of IN / NOT-IN over candidates that all differ from the probe,
followed by one that equals it: the diagnostics are those of these
candidates, one after the other, whatever follows them. -/
theorem in_set_loop_first_equal_log (w : collaborators) (ctx : rasqal_evaluation_context)
    (l1 : rasqal_literal) (pre : List (Option rasqal_expression))
    (logs : List (List diagnostic)) (x : Option rasqal_expression) (logx : List diagnostic)
    (hpre : List.Forall₂
      (fun a loga => ∃ l, rasqal_expression_evaluate2 w ctx a = .ret (some l) loga ∧
        (w.rasqal_literal_equals_flags l1 l ctx.flags).2 = false ∧
        (w.rasqal_literal_equals_flags l1 l ctx.flags).1 = 0) pre logs)
    (hx : ∃ l, rasqal_expression_evaluate2 w ctx x = .ret (some l) logx ∧
      (w.rasqal_literal_equals_flags l1 l ctx.flags).2 = false ∧
      (w.rasqal_literal_equals_flags l1 l ctx.flags).1 ≠ 0)
    (post : List (Option rasqal_expression)) :
    rasqal_expression_evaluate_in_set_loop w ctx l1 (pre ++ x :: post) =
      .ret (some 1) (logs.flatten ++ logx) := by
  induction hpre with
  | nil =>
    obtain ⟨l, hev, herr, hval⟩ := hx
    simp [rasqal_expression_evaluate_in_set_loop, hev, bind_ret, herr, hval, set_error]
  | cons ha _ ih =>
    obtain ⟨l, hev, herr, hval⟩ := ha
    simp only [List.cons_append, rasqal_expression_evaluate_in_set_loop, hev, bind_ret, herr,
      hval, set_error, List.append_eq, ih]
    simp

/-- C12: IN short-circuit. When the first candidate equal to the probe is at
position k (the candidates before it evaluate, compare without error and
differ), the outcome of IN is the Boolean true and that of NOT-IN the Boolean
false, with the diagnostics of the probe and of the candidates 0..k, each
once and in order, and nothing else: the candidates after position k are not
evaluated, so this holds whatever they are, also when one of them would fail
to evaluate or to compare, or would stop the process. -/
theorem in_set_stops_at_first_equal (w : collaborators) (ctx : rasqal_evaluation_context)
    (arg1 arg2 arg3 : Option rasqal_expression) (literal : Option rasqal_literal)
    (name : Option raptor_uri) (l1 : rasqal_literal) (log1 : List diagnostic)
    (pre : List (Option rasqal_expression)) (logs : List (List diagnostic))
    (x : Option rasqal_expression) (logx : List diagnostic)
    (h1 : rasqal_expression_evaluate2 w ctx arg1 = .ret (some l1) log1)
    (hpre : List.Forall₂
      (fun a loga => ∃ l, rasqal_expression_evaluate2 w ctx a = .ret (some l) loga ∧
        (w.rasqal_literal_equals_flags l1 l ctx.flags).2 = false ∧
        (w.rasqal_literal_equals_flags l1 l ctx.flags).1 = 0) pre logs)
    (hx : ∃ l, rasqal_expression_evaluate2 w ctx x = .ret (some l) logx ∧
      (w.rasqal_literal_equals_flags l1 l ctx.flags).2 = false ∧
      (w.rasqal_literal_equals_flags l1 l ctx.flags).1 ≠ 0) :
    ∀ post : List (Option rasqal_expression),
      rasqal_expression_evaluate2 w ctx
          (some (.mk .RASQAL_EXPR_IN arg1 arg2 arg3 literal name (pre ++ x :: post))) =
        .ret (rasqal_new_boolean_literal 1) (log1 ++ (logs.flatten ++ logx)) ∧
      rasqal_expression_evaluate2 w ctx
          (some (.mk .RASQAL_EXPR_NOT_IN arg1 arg2 arg3 literal name (pre ++ x :: post))) =
        .ret (rasqal_new_boolean_literal 0) (log1 ++ (logs.flatten ++ logx)) := by
  intro post
  have hloop := in_set_loop_first_equal_log w ctx l1 pre logs x logx hpre hx post
  have hnode := evaluate2_in_set w ctx arg1 arg2 arg3 literal name (pre ++ x :: post) l1 log1
    (logs.flatten ++ logx) 1 h1 hloop
  exact ⟨hnode.1, by simpa using hnode.2⟩

/-- C12 witness: with the probe `"x"` and the candidates `(true, "x", c)`,
IN is true and NOT-IN is false when `c` is a reference to an unbound
variable, which fails to evaluate, and when `c` is a node of unknown
operator, whose evaluation would stop the process. -/
theorem in_set_stops_at_first_equal_witness :
    (rasqal_expression_evaluate2 sample_collaborators sample_context
        (some (.mk .RASQAL_EXPR_IN (some (leaf literal_x)) none none none none
          ([some (leaf literal_true)] ++ some (leaf literal_x) :: [some leaf_unbound]))) =
      .ret (rasqal_new_boolean_literal 1) ([] ++ ([[]].flatten ++ [])) ∧
    rasqal_expression_evaluate2 sample_collaborators sample_context
        (some (.mk .RASQAL_EXPR_NOT_IN (some (leaf literal_x)) none none none none
          ([some (leaf literal_true)] ++ some (leaf literal_x) :: [some leaf_unbound]))) =
      .ret (rasqal_new_boolean_literal 0) ([] ++ ([[]].flatten ++ []))) ∧
    rasqal_expression_evaluate2 sample_collaborators sample_context
        (some (.mk .RASQAL_EXPR_IN (some (leaf literal_x)) none none none none
          [some (leaf literal_true), some (leaf literal_x), some node_unknown])) =
      .ret (rasqal_new_boolean_literal 1) [] ∧
    rasqal_expression_evaluate2 sample_collaborators sample_context (some node_unknown) =
      .stopped .fatal_unknown_operation ∧
    rasqal_expression_evaluate2 sample_collaborators sample_context
        (some (.mk .RASQAL_EXPR_IN (some (leaf literal_x)) none none none none
          [some (leaf literal_true), some node_unknown, some (leaf literal_x)])) =
      .stopped .fatal_unknown_operation :=
  ⟨in_set_stops_at_first_equal sample_collaborators sample_context
      (some (leaf literal_x)) none none none none literal_x []
      [some (leaf literal_true)] [[]] (some (leaf literal_x)) [] rfl
      (List.Forall₂.cons ⟨literal_true, rfl, rfl, rfl⟩ List.Forall₂.nil)
      ⟨literal_x, rfl, rfl, by decide⟩ [some leaf_unbound],
    rfl, rfl, rfl⟩

/-- C13: for every IF node: if the condition fails to evaluate or its
effective-boolean-value coercion reports an error, the node fails; otherwise
the outcome of the node is exactly the outcome of the `then` operand when the
condition is true and of the `else` operand when it is false. Nothing is
assumed of the operand that is not chosen: it is not evaluated. -/
theorem if_node_outcome (w : collaborators) (ctx : rasqal_evaluation_context)
    (arg1 arg2 arg3 : Option rasqal_expression) (literal : Option rasqal_literal)
    (name : Option raptor_uri) (args : List (Option rasqal_expression)) :
    (∀ log1, rasqal_expression_evaluate2 w ctx arg1 = .ret none log1 →
      rasqal_expression_evaluate2 w ctx
        (some (.mk .RASQAL_EXPR_IF arg1 arg2 arg3 literal name args)) = .ret none log1) ∧
    (∀ l1 log1, rasqal_expression_evaluate2 w ctx arg1 = .ret (some l1) log1 →
      (w.rasqal_literal_as_boolean l1).2 = true →
      rasqal_expression_evaluate2 w ctx
        (some (.mk .RASQAL_EXPR_IF arg1 arg2 arg3 literal name args)) = .ret none log1) ∧
    (∀ l1 log1, rasqal_expression_evaluate2 w ctx arg1 = .ret (some l1) log1 →
      (w.rasqal_literal_as_boolean l1).2 = false → (w.rasqal_literal_as_boolean l1).1 ≠ 0 →
      (∀ r log2, rasqal_expression_evaluate2 w ctx arg2 = .ret r log2 →
        rasqal_expression_evaluate2 w ctx
          (some (.mk .RASQAL_EXPR_IF arg1 arg2 arg3 literal name args)) =
            .ret r (log1 ++ log2)) ∧
      (∀ why, rasqal_expression_evaluate2 w ctx arg2 = .stopped why →
        rasqal_expression_evaluate2 w ctx
          (some (.mk .RASQAL_EXPR_IF arg1 arg2 arg3 literal name args)) = .stopped why)) ∧
    (∀ l1 log1, rasqal_expression_evaluate2 w ctx arg1 = .ret (some l1) log1 →
      (w.rasqal_literal_as_boolean l1).2 = false → (w.rasqal_literal_as_boolean l1).1 = 0 →
      (∀ r log3, rasqal_expression_evaluate2 w ctx arg3 = .ret r log3 →
        rasqal_expression_evaluate2 w ctx
          (some (.mk .RASQAL_EXPR_IF arg1 arg2 arg3 literal name args)) =
            .ret r (log1 ++ log3)) ∧
      (∀ why, rasqal_expression_evaluate2 w ctx arg3 = .stopped why →
        rasqal_expression_evaluate2 w ctx
          (some (.mk .RASQAL_EXPR_IF arg1 arg2 arg3 literal name args)) = .stopped why)) := by
  refine ⟨?_, ?_, ?_, ?_⟩
  · intro log1 h1
    simp [rasqal_expression_evaluate2, rasqal_expression_evaluate2_switch,
      rasqal_expression_evaluate_if, h1, bind_ret]
  · intro l1 log1 h1 herr
    simp [rasqal_expression_evaluate2, rasqal_expression_evaluate2_switch,
      rasqal_expression_evaluate_if, h1, bind_ret, herr, set_error]
  · intro l1 log1 h1 herr hb
    constructor
    · intro r log2 h2
      simp [rasqal_expression_evaluate2, rasqal_expression_evaluate2_switch,
        rasqal_expression_evaluate_if, h1, bind_ret, herr, set_error, hb, h2]
    · intro why h2
      simp [rasqal_expression_evaluate2, rasqal_expression_evaluate2_switch,
        rasqal_expression_evaluate_if, h1, bind_ret, herr, set_error, hb, h2]
  · intro l1 log1 h1 herr hb
    constructor
    · intro r log3 h3
      simp [rasqal_expression_evaluate2, rasqal_expression_evaluate2_switch,
        rasqal_expression_evaluate_if, h1, bind_ret, herr, set_error, hb, h3]
    · intro why h3
      simp [rasqal_expression_evaluate2, rasqal_expression_evaluate2_switch,
        rasqal_expression_evaluate_if, h1, bind_ret, herr, set_error, hb, h3]

/-- C13 witness: `IF(true, "x", u)` and `IF(false, u, "x")` are `"x"` for a
node `u` of unknown operator, whose evaluation would stop the process;
`IF(unbound, "x", "x")` and `IF(uri, "x", "x")` fail. -/
theorem if_node_outcome_witness :
    rasqal_expression_evaluate2 sample_collaborators sample_context
        (some (.mk .RASQAL_EXPR_IF (some (leaf literal_true)) (some (leaf literal_x))
          (some node_unknown) none none [])) = .ret (some literal_x) ([] ++ []) ∧
    rasqal_expression_evaluate2 sample_collaborators sample_context
        (some (.mk .RASQAL_EXPR_IF (some (leaf literal_false)) (some node_unknown)
          (some (leaf literal_x)) none none [])) = .ret (some literal_x) ([] ++ []) ∧
    rasqal_expression_evaluate2 sample_collaborators sample_context
        (some (.mk .RASQAL_EXPR_IF (some leaf_unbound) (some (leaf literal_x))
          (some (leaf literal_x)) none none [])) = .ret none [] ∧
    rasqal_expression_evaluate2 sample_collaborators sample_context
        (some (.mk .RASQAL_EXPR_IF (some (leaf literal_uri)) (some (leaf literal_x))
          (some (leaf literal_x)) none none [])) = .ret none [] :=
  ⟨((if_node_outcome sample_collaborators sample_context (some (leaf literal_true))
      (some (leaf literal_x)) (some node_unknown) none none []).2.2.1
      literal_true [] rfl rfl (by decide)).1 (some literal_x) [] rfl,
    ((if_node_outcome sample_collaborators sample_context (some (leaf literal_false))
      (some node_unknown) (some (leaf literal_x)) none none []).2.2.2
      literal_false [] rfl rfl rfl).1 (some literal_x) [] rfl,
    (if_node_outcome sample_collaborators sample_context (some leaf_unbound)
      (some (leaf literal_x)) (some (leaf literal_x)) none none []).1 [] rfl,
    (if_node_outcome sample_collaborators sample_context (some (leaf literal_uri))
      (some (leaf literal_x)) (some (leaf literal_x)) none none []).2.1
      literal_uri [] rfl rfl⟩

/-- Lines 302-311, 621-630 and 687-696 go on with the term the operand
resolves to. -/
theorem resolve_of_operand_resolves_to (l1 t : rasqal_literal)
    (h : operand_resolves_to l1 t) : resolve_evaluated_variable l1 = some t := by
  rcases h with ⟨hv, ht⟩ | ⟨v, hv, ht⟩
  · simp [resolve_evaluated_variable, hv, ht]
  · simp [resolve_evaluated_variable, hv, ht]

/-- Lines 302-311, 621-630 and 687-696 fail on an unbound operand. -/
theorem resolve_of_operand_unbound (l1 : rasqal_literal)
    (h : operand_unbound l1) : resolve_evaluated_variable l1 = none := by
  rcases h with ⟨v, hv, ht⟩
  simp [resolve_evaluated_variable, hv, ht]

/-- An evaluated operand is unbound or resolves to a term. -/
theorem operand_unbound_or_resolves (l1 : rasqal_literal) :
    operand_unbound l1 ∨ ∃ t, operand_resolves_to l1 t := by
  cases hv : rasqal_literal_as_variable l1 with
  | none => exact Or.inr ⟨l1, Or.inl ⟨hv, rfl⟩⟩
  | some v =>
    cases ht : v.value with
    | none => exact Or.inl ⟨v, hv, ht⟩
    | some t => exact Or.inr ⟨t, Or.inr ⟨v, hv, ht⟩⟩

/-- C14: LANG, for an operand that evaluates to `l1` and resolves to the term
`t` (`l1` itself when `l1` is no reference to a variable, the bound value of
the variable when it is one): when `t` is a string-family term carrying the
language tag `L`, the result is the plain string `L` (no language, no
datatype); when `t` is a string-family term without language tag, the result
is the empty plain string; when `t` is not string-family, the evaluation
fails. -/
theorem lang_of_resolved_operand (w : collaborators) (ctx : rasqal_evaluation_context)
    (arg1 arg2 arg3 : Option rasqal_expression) (literal : Option rasqal_literal)
    (name : Option raptor_uri) (args : List (Option rasqal_expression))
    (l1 t : rasqal_literal) (log1 : List diagnostic)
    (h1 : rasqal_expression_evaluate2 w ctx arg1 = .ret (some l1) log1)
    (ht : operand_resolves_to l1 t) :
    (∀ L, w.rasqal_literal_get_rdf_term_type t = .RASQAL_LITERAL_STRING →
      t.language = some L →
      rasqal_expression_evaluate2 w ctx
        (some (.mk .RASQAL_EXPR_LANG arg1 arg2 arg3 literal name args)) =
          .ret (rasqal_new_string_literal (some L) none none) log1) ∧
    (w.rasqal_literal_get_rdf_term_type t = .RASQAL_LITERAL_STRING → t.language = none →
      rasqal_expression_evaluate2 w ctx
        (some (.mk .RASQAL_EXPR_LANG arg1 arg2 arg3 literal name args)) =
          .ret (rasqal_new_string_literal (some "") none none) log1) ∧
    (w.rasqal_literal_get_rdf_term_type t ≠ .RASQAL_LITERAL_STRING →
      rasqal_expression_evaluate2 w ctx
        (some (.mk .RASQAL_EXPR_LANG arg1 arg2 arg3 literal name args)) = .ret none log1) := by
  have ht := resolve_of_operand_resolves_to l1 t ht
  refine ⟨?_, ?_, ?_⟩
  · intro L hkind hlang
    simp [rasqal_expression_evaluate2, rasqal_expression_evaluate2_switch,
      rasqal_expression_evaluate_lang, h1, bind_ret, ht, hkind, hlang]
  · intro hkind hlang
    simp [rasqal_expression_evaluate2, rasqal_expression_evaluate2_switch,
      rasqal_expression_evaluate_lang, h1, bind_ret, ht, hkind, hlang]
  · intro hkind
    simp [rasqal_expression_evaluate2, rasqal_expression_evaluate2_switch,
      rasqal_expression_evaluate_lang, h1, bind_ret, ht, hkind, failed]

/-- C14 witness: LANG of `"chat"@fr` is `"fr"`, LANG of `"x"` is `""`, LANG
of a URI fails; and for an operand whose evaluation is a reference to a
variable, LANG reads the value of the variable: bound to `"chat"@fr` it is
`"fr"`, bound to a URI it fails. -/
theorem lang_of_resolved_operand_witness :
    rasqal_expression_evaluate2 sample_collaborators sample_context
        (some (unary .RASQAL_EXPR_LANG (leaf literal_chat_fr))) =
      .ret (rasqal_new_string_literal (some "fr") none none) [] ∧
    rasqal_expression_evaluate2 sample_collaborators sample_context
        (some (unary .RASQAL_EXPR_LANG (leaf literal_x))) =
      .ret (rasqal_new_string_literal (some "") none none) [] ∧
    rasqal_expression_evaluate2 sample_collaborators sample_context
        (some (unary .RASQAL_EXPR_LANG (leaf literal_uri))) = .ret none [] ∧
    rasqal_expression_evaluate2 sample_collaborators sample_context
        (some (leaf_reference (some literal_chat_fr))) =
      .ret (some (literal_variable (some literal_chat_fr))) [] ∧
    rasqal_expression_evaluate2 sample_collaborators sample_context
        (some (unary .RASQAL_EXPR_LANG (leaf_reference (some literal_chat_fr)))) =
      .ret (rasqal_new_string_literal (some "fr") none none) [] ∧
    rasqal_expression_evaluate2 sample_collaborators sample_context
        (some (unary .RASQAL_EXPR_LANG (leaf_reference (some literal_uri)))) = .ret none [] :=
  ⟨(lang_of_resolved_operand sample_collaborators sample_context
      (some (leaf literal_chat_fr)) none none none none [] literal_chat_fr literal_chat_fr []
      rfl (Or.inl ⟨rfl, rfl⟩)).1 "fr" rfl rfl,
    (lang_of_resolved_operand sample_collaborators sample_context
      (some (leaf literal_x)) none none none none [] literal_x literal_x [] rfl
      (Or.inl ⟨rfl, rfl⟩)).2.1 rfl rfl,
    (lang_of_resolved_operand sample_collaborators sample_context
      (some (leaf literal_uri)) none none none none [] literal_uri literal_uri [] rfl
      (Or.inl ⟨rfl, rfl⟩)).2.2 (by decide),
    rfl,
    (lang_of_resolved_operand sample_collaborators sample_context
      (some (leaf_reference (some literal_chat_fr))) none none none none []
      (literal_variable (some literal_chat_fr)) literal_chat_fr [] rfl
      (Or.inr ⟨⟨"v", some literal_chat_fr⟩, rfl, rfl⟩)).1 "fr" rfl rfl,
    (lang_of_resolved_operand sample_collaborators sample_context
      (some (leaf_reference (some literal_uri))) none none none none []
      (literal_variable (some literal_uri)) literal_uri [] rfl
      (Or.inr ⟨⟨"v", some literal_uri⟩, rfl, rfl⟩)).2.2 (by decide)⟩

/-- C15: DATATYPE, for an operand that evaluates to `l1` and resolves to the
term `t` (`l1` itself when `l1` is no reference to a variable, the bound value
of the variable when it is one): when `t` is not string-family, or carries a language tag, the
evaluation fails; when `t` is a plain string with no language and no explicit
datatype, the result is the URI term of the implicit string datatype
`xsd:string`; when `t` is string-family with a declared datatype and no
language, the result is the URI term of that datatype. -/
theorem datatype_of_resolved_operand (w : collaborators) (ctx : rasqal_evaluation_context)
    (arg1 arg2 arg3 : Option rasqal_expression) (literal : Option rasqal_literal)
    (name : Option raptor_uri) (args : List (Option rasqal_expression))
    (l1 t : rasqal_literal) (log1 : List diagnostic)
    (h1 : rasqal_expression_evaluate2 w ctx arg1 = .ret (some l1) log1)
    (ht : operand_resolves_to l1 t) :
    (w.rasqal_literal_get_rdf_term_type t ≠ .RASQAL_LITERAL_STRING →
      rasqal_expression_evaluate2 w ctx
        (some (.mk .RASQAL_EXPR_DATATYPE arg1 arg2 arg3 literal name args)) =
          .ret none log1) ∧
    (∀ L, t.language = some L →
      rasqal_expression_evaluate2 w ctx
        (some (.mk .RASQAL_EXPR_DATATYPE arg1 arg2 arg3 literal name args)) =
          .ret none log1) ∧
    (∀ xsd_string, w.rasqal_literal_get_rdf_term_type t = .RASQAL_LITERAL_STRING →
      t.type = .RASQAL_LITERAL_STRING → t.language = none → t.datatype = none →
      w.rasqal_xsd_datatype_type_to_uri .RASQAL_LITERAL_XSD_STRING = some xsd_string →
      rasqal_expression_evaluate2 w ctx
        (some (.mk .RASQAL_EXPR_DATATYPE arg1 arg2 arg3 literal name args)) =
          .ret (rasqal_new_uri_literal (some xsd_string)) log1) ∧
    (∀ dt, w.rasqal_literal_get_rdf_term_type t = .RASQAL_LITERAL_STRING →
      t.language = none → t.datatype = some dt →
      rasqal_expression_evaluate2 w ctx
        (some (.mk .RASQAL_EXPR_DATATYPE arg1 arg2 arg3 literal name args)) =
          .ret (rasqal_new_uri_literal (some dt)) log1) := by
  have ht := resolve_of_operand_resolves_to l1 t ht
  refine ⟨?_, ?_, ?_, ?_⟩
  · intro hkind
    simp [rasqal_expression_evaluate2, rasqal_expression_evaluate2_switch,
      rasqal_expression_evaluate_datatype, h1, bind_ret, ht, hkind, failed]
  · intro L hlang
    by_cases hkind : w.rasqal_literal_get_rdf_term_type t = .RASQAL_LITERAL_STRING <;>
      simp [rasqal_expression_evaluate2, rasqal_expression_evaluate2_switch,
        rasqal_expression_evaluate_datatype, h1, bind_ret, ht, hkind, hlang, failed]
  · intro u hkind htype hlang hdt hu
    simp [rasqal_expression_evaluate2, rasqal_expression_evaluate2_switch,
      rasqal_expression_evaluate_datatype, h1, bind_ret, ht, hkind, htype, hlang, hdt, hu]
  · intro dt hkind hlang hdt
    simp [rasqal_expression_evaluate2, rasqal_expression_evaluate2_switch,
      rasqal_expression_evaluate_datatype, h1, bind_ret, ht, hkind, hlang, hdt]

/-- C15 witness: DATATYPE of `"x"` is the URI `xsd:string`, DATATYPE of the
literal `"1"` typed `xsd:integer` is the URI `xsd:integer`, DATATYPE of
`"chat"@fr` fails and DATATYPE of a URI fails; and for an operand whose
evaluation is a reference to a variable, DATATYPE reads the value of the
variable: bound to the typed literal it is the URI `xsd:integer`, bound to
`"chat"@fr` it fails. -/
theorem datatype_of_resolved_operand_witness :
    rasqal_expression_evaluate2 sample_collaborators sample_context
        (some (unary .RASQAL_EXPR_DATATYPE (leaf literal_x))) =
      .ret (rasqal_new_uri_literal (some "http://www.w3.org/2001/XMLSchema#string")) [] ∧
    rasqal_expression_evaluate2 sample_collaborators sample_context
        (some (unary .RASQAL_EXPR_DATATYPE (leaf literal_typed_1))) =
      .ret (rasqal_new_uri_literal (some "http://www.w3.org/2001/XMLSchema#integer")) [] ∧
    rasqal_expression_evaluate2 sample_collaborators sample_context
        (some (unary .RASQAL_EXPR_DATATYPE (leaf literal_chat_fr))) = .ret none [] ∧
    rasqal_expression_evaluate2 sample_collaborators sample_context
        (some (unary .RASQAL_EXPR_DATATYPE (leaf literal_uri))) = .ret none [] ∧
    rasqal_expression_evaluate2 sample_collaborators sample_context
        (some (leaf_reference (some literal_typed_1))) =
      .ret (some (literal_variable (some literal_typed_1))) [] ∧
    rasqal_expression_evaluate2 sample_collaborators sample_context
        (some (unary .RASQAL_EXPR_DATATYPE (leaf_reference (some literal_typed_1)))) =
      .ret (rasqal_new_uri_literal (some "http://www.w3.org/2001/XMLSchema#integer")) [] ∧
    rasqal_expression_evaluate2 sample_collaborators sample_context
        (some (unary .RASQAL_EXPR_DATATYPE (leaf_reference (some literal_chat_fr)))) =
      .ret none [] :=
  ⟨(datatype_of_resolved_operand sample_collaborators sample_context
      (some (leaf literal_x)) none none none none [] literal_x literal_x [] rfl
      (Or.inl ⟨rfl, rfl⟩)).2.2.1
      "http://www.w3.org/2001/XMLSchema#string" rfl rfl rfl rfl rfl,
    (datatype_of_resolved_operand sample_collaborators sample_context
      (some (leaf literal_typed_1)) none none none none [] literal_typed_1 literal_typed_1 []
      rfl (Or.inl ⟨rfl, rfl⟩)).2.2.2 "http://www.w3.org/2001/XMLSchema#integer" rfl rfl rfl,
    (datatype_of_resolved_operand sample_collaborators sample_context
      (some (leaf literal_chat_fr)) none none none none [] literal_chat_fr literal_chat_fr []
      rfl (Or.inl ⟨rfl, rfl⟩)).2.1 "fr" rfl,
    (datatype_of_resolved_operand sample_collaborators sample_context
      (some (leaf literal_uri)) none none none none [] literal_uri literal_uri [] rfl
      (Or.inl ⟨rfl, rfl⟩)).1 (by decide),
    rfl,
    (datatype_of_resolved_operand sample_collaborators sample_context
      (some (leaf_reference (some literal_typed_1))) none none none none []
      (literal_variable (some literal_typed_1)) literal_typed_1 [] rfl
      (Or.inr ⟨⟨"v", some literal_typed_1⟩, rfl, rfl⟩)).2.2.2
      "http://www.w3.org/2001/XMLSchema#integer" rfl rfl rfl,
    (datatype_of_resolved_operand sample_collaborators sample_context
      (some (leaf_reference (some literal_chat_fr))) none none none none []
      (literal_variable (some literal_chat_fr)) literal_chat_fr [] rfl
      (Or.inr ⟨⟨"v", some literal_chat_fr⟩, rfl, rfl⟩)).2.1 "fr" rfl⟩

/-- Every value STR returns is built by `rasqal_new_string_literal` from a
string, without language and without datatype. -/
theorem str_result_is_plain (w : collaborators) (ctx : rasqal_evaluation_context)
    (arg1 arg2 arg3 : Option rasqal_expression) (literal : Option rasqal_literal)
    (name : Option raptor_uri) (args : List (Option rasqal_expression))
    (r : rasqal_literal) (log : List diagnostic)
    (h : rasqal_expression_evaluate2 w ctx
      (some (.mk .RASQAL_EXPR_STR arg1 arg2 arg3 literal name args)) = .ret (some r) log) :
    ∃ s, some r = rasqal_new_string_literal (some s) none none := by
  simp only [rasqal_expression_evaluate2, rasqal_expression_evaluate2_switch,
    rasqal_expression_evaluate_str] at h
  cases h1 : rasqal_expression_evaluate2 w ctx arg1 with
  | stopped why => simp [h1, computation.bind] at h
  | ret l1 log1 =>
    rw [h1, bind_ret] at h
    cases l1 with
    | none => simp at h
    | some l1 =>
      simp only at h
      cases hs : (w.rasqal_literal_as_counted_string l1
          (ctx.flags &&& (0xFFFFFFFF ^^^ RASQAL_COMPARE_XQUERY))).1 with
      | none => simp [hs, failed] at h
      | some s =>
        refine ⟨s, ?_⟩
        simp only [hs] at h
        split_ifs at h
        · simp [failed] at h
        · simp only [computation.ret.injEq] at h
          exact h.1.symm

/-- C16: STR on plain strings is the identity. For every operand that
evaluates to a plain string term (string `s`, no language, no datatype) that
the collaborator stringifies to its own value, STR returns the plain string
term of `s`; every successful STR result is a string term with no language
and no datatype; and when the collaborator stringifies every plain string to
its own value, `STR(STR(x))` has the outcome of `STR(x)` whenever `STR(x)`
succeeds. -/
theorem str_identity_on_plain_strings (w : collaborators) (ctx : rasqal_evaluation_context)
    (arg1 arg2 arg3 : Option rasqal_expression) (literal : Option rasqal_literal)
    (name : Option raptor_uri) (args : List (Option rasqal_expression)) :
    (∀ l1 log1 s, rasqal_expression_evaluate2 w ctx arg1 = .ret (some l1) log1 →
      l1.type = .RASQAL_LITERAL_STRING → l1.string = some s → l1.language = none →
      l1.datatype = none →
      w.rasqal_literal_as_counted_string l1
        (ctx.flags &&& (0xFFFFFFFF ^^^ RASQAL_COMPARE_XQUERY)) = (some s, false) →
      rasqal_expression_evaluate2 w ctx
        (some (.mk .RASQAL_EXPR_STR arg1 arg2 arg3 literal name args)) =
          .ret (rasqal_new_string_literal (some s) none none) log1) ∧
    (∀ r log, rasqal_expression_evaluate2 w ctx
        (some (.mk .RASQAL_EXPR_STR arg1 arg2 arg3 literal name args)) = .ret (some r) log →
      r.type = .RASQAL_LITERAL_STRING ∧ r.language = none ∧ r.datatype = none) ∧
    ((∀ s flags, w.rasqal_literal_as_counted_string
        (.mk .RASQAL_LITERAL_STRING (some s) none none 0 none none) flags = (some s, false)) →
      ∀ r log (outer2 outer3 : Option rasqal_expression) (outer_literal : Option rasqal_literal)
        (outer_name : Option raptor_uri) (outer_args : List (Option rasqal_expression)),
        rasqal_expression_evaluate2 w ctx
          (some (.mk .RASQAL_EXPR_STR arg1 arg2 arg3 literal name args)) = .ret (some r) log →
        rasqal_expression_evaluate2 w ctx
          (some (.mk .RASQAL_EXPR_STR
            (some (.mk .RASQAL_EXPR_STR arg1 arg2 arg3 literal name args))
            outer2 outer3 outer_literal outer_name outer_args)) = .ret (some r) log) := by
  refine ⟨?_, ?_, ?_⟩
  · intro l1 log1 s h1 _ _ _ _ hs
    simp [rasqal_expression_evaluate2, rasqal_expression_evaluate2_switch,
      rasqal_expression_evaluate_str, h1, bind_ret, hs, set_error]
  · intro r log h
    obtain ⟨s, hr⟩ := str_result_is_plain w ctx arg1 arg2 arg3 literal name args r log h
    simp only [rasqal_new_string_literal, Option.some.injEq] at hr
    subst hr
    exact ⟨rfl, rfl, rfl⟩
  · intro hplain r log outer2 outer3 outer_literal outer_name outer_args h
    obtain ⟨s, hr⟩ := str_result_is_plain w ctx arg1 arg2 arg3 literal name args r log h
    simp only [rasqal_new_string_literal, Option.some.injEq] at hr
    subst hr
    have hev : rasqal_expression_evaluate2 w ctx
        (some (.mk .RASQAL_EXPR_STR arg1 arg2 arg3 literal name args)) =
        .ret (some (.mk .RASQAL_LITERAL_STRING (some s) none none 0 none none)) log := h
    rw [rasqal_expression_evaluate2, rasqal_expression_evaluate2_switch]
    simp only [rasqal_expression_evaluate_str, hev, bind_ret, hplain, set_error]
    simp [rasqal_new_string_literal]

/-- C16 witness: STR of `"x"` is `"x"`, and so is STR of STR of `"x"`. -/
theorem str_identity_on_plain_strings_witness :
    rasqal_expression_evaluate2 sample_collaborators sample_context
        (some (unary .RASQAL_EXPR_STR (leaf literal_x))) = .ret (some literal_x) [] ∧
    (literal_x.type = .RASQAL_LITERAL_STRING ∧ literal_x.language = none ∧
      literal_x.datatype = none) ∧
    rasqal_expression_evaluate2 sample_collaborators sample_context
        (some (unary .RASQAL_EXPR_STR (unary .RASQAL_EXPR_STR (leaf literal_x)))) =
      .ret (some literal_x) [] :=
  ⟨(str_identity_on_plain_strings sample_collaborators sample_context
      (some (leaf literal_x)) none none none none []).1 literal_x [] "x" rfl rfl rfl rfl rfl
      rfl,
    (str_identity_on_plain_strings sample_collaborators sample_context
      (some (leaf literal_x)) none none none none []).2.1 literal_x [] rfl,
    (str_identity_on_plain_strings sample_collaborators sample_context
      (some (leaf literal_x)) none none none none []).2.2 (fun _ _ => rfl)
      literal_x [] none none none none [] rfl⟩

/-- STRLANG and STRDT fail when the first operand evaluates to a term that
carries a language tag or a datatype: the guard of lines 145-149 and
228-232. -/
theorem strlang_strdt_fail_on_tagged_or_typed (w : collaborators)
    (ctx : rasqal_evaluation_context)
    (arg1 arg2 arg3 : Option rasqal_expression) (literal : Option rasqal_literal)
    (name : Option raptor_uri) (args : List (Option rasqal_expression))
    (l1 : rasqal_literal) (log1 : List diagnostic)
    (h1 : rasqal_expression_evaluate2 w ctx arg1 = .ret (some l1) log1)
    (hl : l1.language ≠ none ∨ l1.datatype ≠ none) :
    rasqal_expression_evaluate2 w ctx
        (some (.mk .RASQAL_EXPR_STRLANG arg1 arg2 arg3 literal name args)) = .ret none log1 ∧
    rasqal_expression_evaluate2 w ctx
        (some (.mk .RASQAL_EXPR_STRDT arg1 arg2 arg3 literal name args)) = .ret none log1 := by
  constructor
  · simp only [rasqal_expression_evaluate2, rasqal_expression_evaluate2_switch,
      rasqal_expression_evaluate_strlang, h1, bind_ret, if_pos hl]
    simp
  · simp only [rasqal_expression_evaluate2, rasqal_expression_evaluate2_switch,
      rasqal_expression_evaluate_strdt, h1, bind_ret, if_pos hl]
    simp

/-- C17 (the code at the failing inputs): a blank node and a URI are terms
that are not of string kind; they carry no language tag and no datatype, so
they pass the guard of lines 145 and 228, and STRLANG and STRDT succeed on
them: `STRLANG(_:b1, "en")` is the string `b1` tagged `en`, `STRDT(_:b1, uri)`
is the string `b1` typed with the URI, and with a stringification that
spells a URI, `STRLANG(uri, "en")` is the characters of the URI tagged
`en`. -/
theorem strlang_strdt_accept_non_string_terms :
    (literal_blank.type = .RASQAL_LITERAL_BLANK ∧ literal_blank.language = none ∧
      literal_blank.datatype = none ∧
      sample_collaborators.rasqal_literal_get_rdf_term_type literal_blank ≠
        .RASQAL_LITERAL_STRING) ∧
    rasqal_expression_evaluate2 sample_collaborators sample_context
        (some (binary .RASQAL_EXPR_STRLANG (leaf literal_blank) (leaf literal_en))) =
      .ret (rasqal_new_string_literal (some "b1") (some "en") none) [] ∧
    rasqal_expression_evaluate2 sample_collaborators sample_context
        (some (binary .RASQAL_EXPR_STRDT (leaf literal_blank) (leaf literal_uri))) =
      .ret (rasqal_new_string_literal (some "b1") none (some "http://example.org/a")) [] ∧
    rasqal_expression_evaluate2 sample_collaborators_uri_strings sample_context
        (some (binary .RASQAL_EXPR_STRLANG (leaf literal_uri) (leaf literal_en))) =
      .ret (rasqal_new_string_literal (some "http://example.org/a") (some "en") none) [] ∧
    rasqal_expression_evaluate2 sample_collaborators sample_context
        (some (binary .RASQAL_EXPR_STRLANG (leaf literal_chat_fr) (leaf literal_en))) =
      .ret none [] ∧
    rasqal_expression_evaluate2 sample_collaborators sample_context
        (some (binary .RASQAL_EXPR_STRDT (leaf literal_typed_1) (leaf literal_uri))) =
      .ret none [] :=
  ⟨⟨rfl, rfl, rfl, by decide⟩, rfl, rfl, rfl, rfl, rfl⟩

/-- C18: for every node whose operator is one of the aggregate forms COUNT,
SUM, AVG, MIN, MAX, SAMPLE, GROUP_CONCAT, the evaluation returns no value and
reports one error diagnostic, whatever the operands of the node, the context
and the collaborators are: no operand is evaluated. -/
theorem aggregate_nodes_fail (w : collaborators) (ctx : rasqal_evaluation_context)
    (arg1 arg2 arg3 : Option rasqal_expression) (literal : Option rasqal_literal)
    (name : Option raptor_uri) (args : List (Option rasqal_expression)) :
    ∀ op, op = rasqal_op.RASQAL_EXPR_COUNT ∨ op = .RASQAL_EXPR_SUM ∨ op = .RASQAL_EXPR_AVG ∨
        op = .RASQAL_EXPR_MIN ∨ op = .RASQAL_EXPR_MAX ∨ op = .RASQAL_EXPR_SAMPLE ∨
        op = .RASQAL_EXPR_GROUP_CONCAT →
      rasqal_expression_evaluate2 w ctx (some (.mk op arg1 arg2 arg3 literal name args)) =
        .ret none
          [⟨.RAPTOR_LOG_LEVEL_ERROR, ctx.locator,
            "Aggregate expressions cannot be evaluated in a general scalar expression."⟩] := by
  intro op hop
  rcases hop with h | h | h | h | h | h | h <;> subst h <;>
    simp only [rasqal_expression_evaluate2, rasqal_expression_evaluate2_switch]

/-- C18 witness: `COUNT(u)` fails for a node `u` of unknown operator, whose
evaluation would stop the process. -/
theorem aggregate_nodes_fail_witness :
    rasqal_expression_evaluate2 sample_collaborators sample_context
        (some (.mk .RASQAL_EXPR_COUNT (some node_unknown) none none none none
          [some node_unknown])) =
      .ret none
        [⟨.RAPTOR_LOG_LEVEL_ERROR, sample_context.locator,
          "Aggregate expressions cannot be evaluated in a general scalar expression."⟩] :=
  aggregate_nodes_fail sample_collaborators sample_context (some node_unknown) none none none
    none [some node_unknown] .RASQAL_EXPR_COUNT (Or.inl rfl)

/-- C19: for every node with the unsupported function-call operator, the
evaluation does not fail: it returns the Boolean term false and reports one
warning diagnostic, whatever the operands of the node, the context and the
collaborators are. -/
theorem function_node_returns_false (w : collaborators) (ctx : rasqal_evaluation_context)
    (arg1 arg2 arg3 : Option rasqal_expression) (literal : Option rasqal_literal)
    (name : Option raptor_uri) (args : List (Option rasqal_expression)) :
    rasqal_expression_evaluate2 w ctx
        (some (.mk .RASQAL_EXPR_FUNCTION arg1 arg2 arg3 literal name args)) =
      .ret (rasqal_new_boolean_literal 0)
        [⟨.RAPTOR_LOG_LEVEL_WARN, ctx.locator,
          "No function expressions support at present.  Returning false."⟩] := by
  simp only [rasqal_expression_evaluate2, rasqal_expression_evaluate2_switch]

/-! ## Theorems: the fatal outcome -/

/-- A sequence of two steps is not fatal when neither step is. -/
theorem bind_ne_fatal {α β : Type} (c : computation α) (k : α → computation β)
    (hc : c ≠ .stopped .fatal_unknown_operation)
    (hk : ∀ a, k a ≠ .stopped .fatal_unknown_operation) :
    c.bind k ≠ .stopped .fatal_unknown_operation := by
  cases c with
  | stopped why =>
    intro h
    simp only [computation.bind, computation.stopped.injEq] at h
    exact hc (by rw [h])
  | ret a log =>
    have := hk a
    rw [bind_ret]
    cases hka : k a with
    | stopped why' =>
      rw [hka] at this
      simpa using this
    | ret b log' => simp



/-- The loop of IN / NOT-IN is not fatal when no candidate is. -/
theorem in_set_loop_ne_fatal (w : collaborators) (ctx : rasqal_evaluation_context)
    (l1 : rasqal_literal) (args : List (Option rasqal_expression))
    (hargs : ∀ a ∈ args, rasqal_expression_evaluate2 w ctx a ≠ RASQAL_FATAL3) :
    rasqal_expression_evaluate_in_set_loop w ctx l1 args ≠ .stopped .fatal_unknown_operation := by
  induction args with
  | nil => simp [rasqal_expression_evaluate_in_set_loop]
  | cons a args ih =>
    have iht := ih (fun b hb => hargs b (List.mem_cons_of_mem a hb))
    rw [rasqal_expression_evaluate_in_set_loop]
    refine bind_ne_fatal _ _ (hargs a (List.mem_cons_self a args)) (fun r => ?_)
    cases r with
    | none => simp
    | some l =>
      simp only
      split_ifs <;> first | exact iht | simp

/-- COALESCE is not fatal when no alternative is. -/
theorem coalesce_ne_fatal (w : collaborators) (ctx : rasqal_evaluation_context)
    (args : List (Option rasqal_expression))
    (hargs : ∀ a ∈ args, rasqal_expression_evaluate2 w ctx a ≠ RASQAL_FATAL3) :
    rasqal_expression_evaluate_coalesce w ctx args ≠ .stopped .fatal_unknown_operation := by
  induction args with
  | nil => simp [rasqal_expression_evaluate_coalesce]
  | cons a args ih =>
    have iht := ih (fun b hb => hargs b (List.mem_cons_of_mem a hb))
    cases a with
    | none =>
      rw [rasqal_expression_evaluate_coalesce]
      exact iht
    | some e =>
      rw [rasqal_expression_evaluate_coalesce]
      refine bind_ne_fatal _ _ (hargs (some e) (List.mem_cons_self _ args)) (fun r => ?_)
      cases r with
      | none => exact iht
      | some l => simp

set_option maxHeartbeats 2000000 in
/-- A node whose operator the dispatcher knows does not end in the fatal
outcome unless the evaluation of one of its operands, or an evaluator
defined in another file, does. -/
theorem recognised_node_not_fatal (w : collaborators) (ctx : rasqal_evaluation_context)
    (arg1 arg2 arg3 : Option rasqal_expression) (literal : Option rasqal_literal)
    (name : Option raptor_uri) (args : List (Option rasqal_expression)) (op : rasqal_op)
    (hop : op ≠ .RASQAL_EXPR_UNKNOWN ∧ op ≠ .unrecognised)
    (hw : delegated_never_fatal w)
    (h1 : rasqal_expression_evaluate2 w ctx arg1 ≠ RASQAL_FATAL3)
    (h2 : rasqal_expression_evaluate2 w ctx arg2 ≠ RASQAL_FATAL3)
    (h3 : rasqal_expression_evaluate2 w ctx arg3 ≠ RASQAL_FATAL3)
    (hargs : ∀ a ∈ args, rasqal_expression_evaluate2 w ctx a ≠ RASQAL_FATAL3) :
    rasqal_expression_evaluate2 w ctx (some (.mk op arg1 arg2 arg3 literal name args)) ≠
      RASQAL_FATAL3 := by
  have hd := hw (.mk op arg1 arg2 arg3 literal name args) ctx
  obtain ⟨d1, d2, d3, d4, d5, d6, d7, d8, d9, d10, d11, d12, d13, d14⟩ := hd
  have hloop := fun l1 => in_set_loop_ne_fatal w ctx l1 args hargs
  have hco := coalesce_ne_fatal w ctx args hargs
  simp only [RASQAL_FATAL3] at h1 h2 h3 d1 d2 d3 d4 d5 d6 d7 d8 d9 d10 d11 d12 d13 d14 ⊢
  rw [rasqal_expression_evaluate2]
  cases op
  case RASQAL_EXPR_BNODE =>
    simp only [rasqal_expression_evaluate2_switch]
    cases arg1 with
    | none =>
      simp only [rasqal_expression_evaluate_bnode_constructor, failed]
      split <;> simp
    | some x =>
      simp only [rasqal_expression_evaluate_bnode_constructor, failed]
      refine bind_ne_fatal _ _ h1 (fun l1 => ?_)
      repeat' (first | split | simp)
  all_goals simp only [rasqal_expression_evaluate2_switch]
  all_goals first
    | exact absurd rfl hop.1
    | exact absurd rfl hop.2
    | assumption
    | (simp only [rasqal_expression_evaluate_strdt, rasqal_expression_evaluate_strlang,
        rasqal_expression_evaluate_istype, rasqal_expression_evaluate_if,
        rasqal_expression_evaluate_sameterm, rasqal_expression_evaluate_in_set,
        rasqal_expression_evaluate_str, rasqal_expression_evaluate_lang,
        rasqal_expression_evaluate_datatype, rasqal_expression_evaluate_uri_constructor,
        rasqal_expression_evaluate_bnode_constructor, evaluate_two_operands,
        boolean_unless_error, result_unless_error, failed]
       repeat' (first
        | assumption
        | exact hloop _
        | refine bind_ne_fatal _ _ ?_ (fun _ => ?_)
        | split
        | simp))
    | (repeat' (first
        | assumption
        | exact hloop _
        | refine bind_ne_fatal _ _ ?_ (fun _ => ?_)
        | split
        | simp))

theorem sample_collaborators_delegated_never_fatal :
    delegated_never_fatal sample_collaborators := by
  intro e ctx
  simp [sample_collaborators, failed, RASQAL_FATAL3]

set_option maxHeartbeats 4000000 in
/-- A node whose operator the dispatcher knows does not end in the fatal
outcome unless the evaluation of an operand that the case of the operator
evaluates, or the evaluator of another file called on this node, does. -/
theorem recognised_node_fatal_only_from_operands (w : collaborators)
    (ctx : rasqal_evaluation_context)
    (arg1 arg2 arg3 : Option rasqal_expression) (literal : Option rasqal_literal)
    (name : Option raptor_uri) (args : List (Option rasqal_expression)) (op : rasqal_op)
    (hop : op ≠ .RASQAL_EXPR_UNKNOWN ∧ op ≠ .unrecognised)
    (hops : ∀ a ∈ operands_evaluated op arg1 arg2 arg3 args,
      rasqal_expression_evaluate2 w ctx a ≠ RASQAL_FATAL3)
    (hd : ∀ r, delegated_evaluation w op (.mk op arg1 arg2 arg3 literal name args) ctx =
      some r → r ≠ RASQAL_FATAL3) :
    rasqal_expression_evaluate2 w ctx (some (.mk op arg1 arg2 arg3 literal name args)) ≠
      RASQAL_FATAL3 := by
  have h1 : arg1 ∈ operands_evaluated op arg1 arg2 arg3 args →
      rasqal_expression_evaluate2 w ctx arg1 ≠ RASQAL_FATAL3 := hops arg1
  have h2 : arg2 ∈ operands_evaluated op arg1 arg2 arg3 args →
      rasqal_expression_evaluate2 w ctx arg2 ≠ RASQAL_FATAL3 := hops arg2
  have h3 : arg3 ∈ operands_evaluated op arg1 arg2 arg3 args →
      rasqal_expression_evaluate2 w ctx arg3 ≠ RASQAL_FATAL3 := hops arg3
  have hargs : (∀ a ∈ args, a ∈ operands_evaluated op arg1 arg2 arg3 args) →
      ∀ a ∈ args, rasqal_expression_evaluate2 w ctx a ≠ RASQAL_FATAL3 :=
    fun h a ha => hops a (h a ha)
  have hd := hd
  clear hops
  rw [rasqal_expression_evaluate2]
  cases op
  case RASQAL_EXPR_BNODE =>
    simp only [rasqal_expression_evaluate2_switch, RASQAL_FATAL3]
    cases arg1 with
    | none =>
      simp only [rasqal_expression_evaluate_bnode_constructor, failed]
      split <;> simp
    | some x =>
      have h1 := h1 (by simp [operands_evaluated])
      simp only [RASQAL_FATAL3] at h1
      simp only [rasqal_expression_evaluate_bnode_constructor, failed]
      refine bind_ne_fatal _ _ h1 (fun l1 => ?_)
      repeat' (first | split | simp)
  case RASQAL_EXPR_IN =>
    have h1 := h1 (by simp [operands_evaluated])
    have hloop := fun l1 => in_set_loop_ne_fatal w ctx l1 args
      (hargs (fun a ha => by simp [operands_evaluated, ha]))
    simp only [RASQAL_FATAL3] at h1 ⊢
    simp only [rasqal_expression_evaluate2_switch, rasqal_expression_evaluate_in_set, failed]
    repeat' (first
      | assumption
      | exact hloop _
      | refine bind_ne_fatal _ _ ?_ (fun _ => ?_)
      | split
      | simp)
  case RASQAL_EXPR_NOT_IN =>
    have h1 := h1 (by simp [operands_evaluated])
    have hloop := fun l1 => in_set_loop_ne_fatal w ctx l1 args
      (hargs (fun a ha => by simp [operands_evaluated, ha]))
    simp only [RASQAL_FATAL3] at h1 ⊢
    simp only [rasqal_expression_evaluate2_switch, rasqal_expression_evaluate_in_set, failed]
    repeat' (first
      | assumption
      | exact hloop _
      | refine bind_ne_fatal _ _ ?_ (fun _ => ?_)
      | split
      | simp)
  case RASQAL_EXPR_COALESCE =>
    have hco := coalesce_ne_fatal w ctx args
      (hargs (fun a ha => by simpa [operands_evaluated] using ha))
    simp only [rasqal_expression_evaluate2_switch, RASQAL_FATAL3]
    exact hco
  all_goals try simp only [operands_evaluated, List.mem_cons, List.mem_singleton, true_or,
    or_true, forall_const, RASQAL_FATAL3] at h1
  all_goals try simp only [operands_evaluated, List.mem_cons, List.mem_singleton, true_or,
    or_true, forall_const, RASQAL_FATAL3] at h2
  all_goals try simp only [operands_evaluated, List.mem_cons, List.mem_singleton, true_or,
    or_true, forall_const, RASQAL_FATAL3] at h3
  all_goals try simp only [delegated_evaluation, Option.some.injEq, forall_eq',
    RASQAL_FATAL3] at hd
  all_goals simp only [rasqal_expression_evaluate2_switch, RASQAL_FATAL3]
  all_goals first
    | exact absurd rfl hop.1
    | exact absurd rfl hop.2
    | assumption
    | (simp only [rasqal_expression_evaluate_strdt, rasqal_expression_evaluate_strlang,
        rasqal_expression_evaluate_istype, rasqal_expression_evaluate_if,
        rasqal_expression_evaluate_sameterm,
        rasqal_expression_evaluate_str, rasqal_expression_evaluate_lang,
        rasqal_expression_evaluate_datatype, rasqal_expression_evaluate_uri_constructor,
        evaluate_two_operands,
        boolean_unless_error, result_unless_error, failed]
       repeat' (first
        | assumption
        | refine bind_ne_fatal _ _ ?_ (fun _ => ?_)
        | split
        | simp))
    | (repeat' (first
        | assumption
        | refine bind_ne_fatal _ _ ?_ (fun _ => ?_)
        | split
        | simp))

/-- C20: a node whose operator tag is UNKNOWN, or any tag the dispatcher does
not recognise, ends in the fatal outcome: the process is stopped, which is
neither a term nor the `NULL` of ordinary failure. Conversely a node with a
recognised operator tag does not produce the fatal outcome at its own node:
it ends in it only if the evaluation of one of the operands that the case of
its operator evaluates does, or, for an operator whose evaluator another file
defines, if that evaluator called on this node does; and for such an operator
the outcome of the node is the outcome of that evaluator. Nothing is asked of
the operand slots the operator does not evaluate, nor of the evaluators of
other files on other nodes. -/
theorem unknown_operator_is_fatal (w : collaborators) (ctx : rasqal_evaluation_context)
    (arg1 arg2 arg3 : Option rasqal_expression) (literal : Option rasqal_literal)
    (name : Option raptor_uri) (args : List (Option rasqal_expression)) :
    rasqal_expression_evaluate2 w ctx
        (some (.mk .RASQAL_EXPR_UNKNOWN arg1 arg2 arg3 literal name args)) = RASQAL_FATAL3 ∧
    rasqal_expression_evaluate2 w ctx
        (some (.mk .unrecognised arg1 arg2 arg3 literal name args)) = RASQAL_FATAL3 ∧
    (∀ (r : Option rasqal_literal) (log : List diagnostic), RASQAL_FATAL3 ≠ .ret r log) ∧
    (∀ op, op ≠ rasqal_op.RASQAL_EXPR_UNKNOWN → op ≠ rasqal_op.unrecognised →
      (∀ a ∈ operands_evaluated op arg1 arg2 arg3 args,
        rasqal_expression_evaluate2 w ctx a ≠ RASQAL_FATAL3) →
      (∀ r, delegated_evaluation w op (.mk op arg1 arg2 arg3 literal name args) ctx =
        some r → r ≠ RASQAL_FATAL3) →
      rasqal_expression_evaluate2 w ctx (some (.mk op arg1 arg2 arg3 literal name args)) ≠
        RASQAL_FATAL3) ∧
    (∀ op r, delegated_evaluation w op (.mk op arg1 arg2 arg3 literal name args) ctx =
        some r →
      rasqal_expression_evaluate2 w ctx (some (.mk op arg1 arg2 arg3 literal name args)) =
        r) := by
  refine ⟨?_, ?_, ?_, ?_, ?_⟩
  · simp only [rasqal_expression_evaluate2, rasqal_expression_evaluate2_switch]
  · simp only [rasqal_expression_evaluate2, rasqal_expression_evaluate2_switch]
  · intro r log h
    simp [RASQAL_FATAL3] at h
  · intro op h1 h2 hops hd
    exact recognised_node_fatal_only_from_operands w ctx arg1 arg2 arg3 literal name args op
      ⟨h1, h2⟩ hops hd
  · intro op r hd
    cases op <;> simp only [delegated_evaluation, Option.some.injEq] at hd <;>
      first
      | exact absurd hd (by simp)
      | (rw [← hd]
         simp only [rasqal_expression_evaluate2, rasqal_expression_evaluate2_switch])

/-- C20 witness, with a LANGMATCHES evaluator that evaluates the first operand
of its node. `true AND true` does not end in the fatal outcome, although its
unused slots `arg3` and `args` hold a node of unknown operator and the
LANGMATCHES evaluator is fatal on other nodes; `LANGMATCHES(true, true)` does
not either; `LANGMATCHES(u, true)` for a node `u` of unknown operator does,
its outcome being that of the evaluator; a node of unknown operator does, and
so does `true AND u`. -/
theorem unknown_operator_is_fatal_witness :
    rasqal_expression_evaluate2 sample_collaborators_evaluating sample_context
        (some (.mk .RASQAL_EXPR_AND (some (leaf literal_true)) (some (leaf literal_true))
          (some node_unknown) none none [some node_unknown])) ≠ RASQAL_FATAL3 ∧
    rasqal_expression_evaluate2 sample_collaborators_evaluating sample_context
        (some (binary .RASQAL_EXPR_LANGMATCHES (leaf literal_true) (leaf literal_true))) ≠
      RASQAL_FATAL3 ∧
    rasqal_expression_evaluate2 sample_collaborators_evaluating sample_context
        (some (binary .RASQAL_EXPR_LANGMATCHES node_unknown (leaf literal_true))) =
      RASQAL_FATAL3 ∧
    rasqal_expression_evaluate2 sample_collaborators sample_context (some node_unknown) =
      RASQAL_FATAL3 ∧
    rasqal_expression_evaluate2 sample_collaborators sample_context
        (some (binary .RASQAL_EXPR_AND (leaf literal_true) node_unknown)) = RASQAL_FATAL3 :=
  ⟨(unknown_operator_is_fatal sample_collaborators_evaluating sample_context
      (some (leaf literal_true)) (some (leaf literal_true)) (some node_unknown) none none
      [some node_unknown]).2.2.2.1 .RASQAL_EXPR_AND (by decide) (by decide)
      (fun a ha => by
        simp only [operands_evaluated, List.mem_cons, List.mem_singleton, List.not_mem_nil,
          or_false, or_self] at ha
        rw [ha]
        exact fun h => computation.noConfusion h)
      (fun r hr => by simp [delegated_evaluation] at hr),
    (unknown_operator_is_fatal sample_collaborators_evaluating sample_context
      (some (leaf literal_true)) (some (leaf literal_true)) none none none
      []).2.2.2.1 .RASQAL_EXPR_LANGMATCHES (by decide) (by decide)
      (fun a ha => by simp [operands_evaluated] at ha)
      (fun r hr => by
        simp only [delegated_evaluation, Option.some.injEq] at hr
        rw [← hr]
        exact fun h => computation.noConfusion h),
    (unknown_operator_is_fatal sample_collaborators_evaluating sample_context
      (some node_unknown) (some (leaf literal_true)) none none none
      []).2.2.2.2 .RASQAL_EXPR_LANGMATCHES RASQAL_FATAL3 rfl,
    rfl, rfl⟩

/-! ## Theorems: comparisons, arithmetic and the remaining forms -/

/-- C30: a language range that begins with `*` and is longer than one
character matches no tag: `rasqal_language_matches(tag, range)` is false for
every tag, absent, empty or not, also when the tag is the range itself. -/
theorem language_matches_long_star_range (tag : Option (List Char)) (c : Char)
    (rest : List Char) :
    rasqal_language_matches tag (some ('*' :: c :: rest)) = false ∧
    rasqal_language_matches (some ('*' :: c :: rest)) (some ('*' :: c :: rest)) = false := by
  constructor
  · cases tag with
    | none => rfl
    | some t => cases t <;> simp [rasqal_language_matches]
  · simp [rasqal_language_matches]

/-- What the four ordering cases compute from the outcomes of the operands:
the same thing up to the test applied to the result of
`rasqal_literal_compare`. -/
theorem evaluate2_ordering (w : collaborators) (ctx : rasqal_evaluation_context)
    (arg1 arg2 arg3 : Option rasqal_expression) (literal : Option rasqal_literal)
    (name : Option raptor_uri) (args : List (Option rasqal_expression)) :
    rasqal_expression_evaluate2 w ctx
        (some (.mk .RASQAL_EXPR_LT arg1 arg2 arg3 literal name args)) =
      evaluate_two_operands (rasqal_expression_evaluate2 w ctx arg1)
        (fun _ => rasqal_expression_evaluate2 w ctx arg2) (fun l1 l2 =>
          boolean_unless_error ((w.rasqal_literal_compare l1 l2 ctx.flags).1 < 0)
            (w.rasqal_literal_compare l1 l2 ctx.flags).2) ∧
    rasqal_expression_evaluate2 w ctx
        (some (.mk .RASQAL_EXPR_GT arg1 arg2 arg3 literal name args)) =
      evaluate_two_operands (rasqal_expression_evaluate2 w ctx arg1)
        (fun _ => rasqal_expression_evaluate2 w ctx arg2) (fun l1 l2 =>
          boolean_unless_error ((w.rasqal_literal_compare l1 l2 ctx.flags).1 > 0)
            (w.rasqal_literal_compare l1 l2 ctx.flags).2) ∧
    rasqal_expression_evaluate2 w ctx
        (some (.mk .RASQAL_EXPR_LE arg1 arg2 arg3 literal name args)) =
      evaluate_two_operands (rasqal_expression_evaluate2 w ctx arg1)
        (fun _ => rasqal_expression_evaluate2 w ctx arg2) (fun l1 l2 =>
          boolean_unless_error ((w.rasqal_literal_compare l1 l2 ctx.flags).1 ≤ 0)
            (w.rasqal_literal_compare l1 l2 ctx.flags).2) ∧
    rasqal_expression_evaluate2 w ctx
        (some (.mk .RASQAL_EXPR_GE arg1 arg2 arg3 literal name args)) =
      evaluate_two_operands (rasqal_expression_evaluate2 w ctx arg1)
        (fun _ => rasqal_expression_evaluate2 w ctx arg2) (fun l1 l2 =>
          boolean_unless_error ((w.rasqal_literal_compare l1 l2 ctx.flags).1 ≥ 0)
            (w.rasqal_literal_compare l1 l2 ctx.flags).2) := by
  refine ⟨?_, ?_, ?_, ?_⟩ <;>
    simp only [rasqal_expression_evaluate2, rasqal_expression_evaluate2_switch]

/-- C29: the four ordering comparisons are mutually consistent. For every
pair of operands, every context and every collaborator set, either LT, GT, LE
and GE all stop the process, or all four fail, or all four succeed; in the
last case LE is the negation of GT, GE is the negation of LT, and LT and GT
are not both true. -/
theorem ordering_comparisons_consistent (w : collaborators) (ctx : rasqal_evaluation_context)
    (arg1 arg2 arg3 : Option rasqal_expression) (literal : Option rasqal_literal)
    (name : Option raptor_uri) (args : List (Option rasqal_expression)) :
    (∃ why,
      rasqal_expression_evaluate2 w ctx
        (some (.mk .RASQAL_EXPR_LT arg1 arg2 arg3 literal name args)) = .stopped why ∧
      rasqal_expression_evaluate2 w ctx
        (some (.mk .RASQAL_EXPR_GT arg1 arg2 arg3 literal name args)) = .stopped why ∧
      rasqal_expression_evaluate2 w ctx
        (some (.mk .RASQAL_EXPR_LE arg1 arg2 arg3 literal name args)) = .stopped why ∧
      rasqal_expression_evaluate2 w ctx
        (some (.mk .RASQAL_EXPR_GE arg1 arg2 arg3 literal name args)) = .stopped why) ∨
    (∃ log,
      rasqal_expression_evaluate2 w ctx
        (some (.mk .RASQAL_EXPR_LT arg1 arg2 arg3 literal name args)) = .ret none log ∧
      rasqal_expression_evaluate2 w ctx
        (some (.mk .RASQAL_EXPR_GT arg1 arg2 arg3 literal name args)) = .ret none log ∧
      rasqal_expression_evaluate2 w ctx
        (some (.mk .RASQAL_EXPR_LE arg1 arg2 arg3 literal name args)) = .ret none log ∧
      rasqal_expression_evaluate2 w ctx
        (some (.mk .RASQAL_EXPR_GE arg1 arg2 arg3 literal name args)) = .ret none log) ∨
    (∃ (log : List diagnostic) (lt gt : Bool), ¬ (lt = true ∧ gt = true) ∧
      rasqal_expression_evaluate2 w ctx
          (some (.mk .RASQAL_EXPR_LT arg1 arg2 arg3 literal name args)) =
        .ret (rasqal_new_boolean_literal (if lt then 1 else 0)) log ∧
      rasqal_expression_evaluate2 w ctx
          (some (.mk .RASQAL_EXPR_GT arg1 arg2 arg3 literal name args)) =
        .ret (rasqal_new_boolean_literal (if gt then 1 else 0)) log ∧
      rasqal_expression_evaluate2 w ctx
          (some (.mk .RASQAL_EXPR_LE arg1 arg2 arg3 literal name args)) =
        .ret (rasqal_new_boolean_literal (if !gt then 1 else 0)) log ∧
      rasqal_expression_evaluate2 w ctx
          (some (.mk .RASQAL_EXPR_GE arg1 arg2 arg3 literal name args)) =
        .ret (rasqal_new_boolean_literal (if !lt then 1 else 0)) log) := by
  obtain ⟨hlt, hgt, hle, hge⟩ := evaluate2_ordering w ctx arg1 arg2 arg3 literal name args
  rw [hlt, hgt, hle, hge]
  simp only [evaluate_two_operands]
  cases h1 : rasqal_expression_evaluate2 w ctx arg1 with
  | stopped why => exact Or.inl ⟨why, rfl, rfl, rfl, rfl⟩
  | ret l1 log1 =>
    cases l1 with
    | none => exact Or.inr (Or.inl ⟨log1 ++ [], rfl, rfl, rfl, rfl⟩)
    | some l1 =>
      cases h2 : rasqal_expression_evaluate2 w ctx arg2 with
      | stopped why => exact Or.inl ⟨why, rfl, rfl, rfl, rfl⟩
      | ret l2 log2 =>
        cases l2 with
        | none => exact Or.inr (Or.inl ⟨log1 ++ (log2 ++ []), rfl, rfl, rfl, rfl⟩)
        | some l2 =>
          rcases hc : w.rasqal_literal_compare l1 l2 ctx.flags with ⟨r, reported⟩
          cases reported with
          | true =>
            refine Or.inr (Or.inl ⟨log1 ++ (log2 ++ []), ?_, ?_, ?_, ?_⟩) <;>
              simp [bind_ret, hc, boolean_unless_error, set_error, failed]
          | false =>
            refine Or.inr (Or.inr ⟨log1 ++ (log2 ++ []), decide (r < 0), decide (r > 0),
              ?_, ?_, ?_, ?_, ?_⟩)
            · simp only [decide_eq_true_eq]
              omega
            · simp [bind_ret, hc, boolean_unless_error, set_error]
            · simp [bind_ret, hc, boolean_unless_error, set_error]
            · simp [bind_ret, hc, boolean_unless_error, set_error]
            · simp [bind_ret, hc, boolean_unless_error, set_error]

/-- C27 (the code at the failing input): AND is not symmetric in the code.
With a first operand that fails to evaluate and a second that is false, AND
fails; with the same operands the other way round, AND is the Boolean false.
This is the defect of line 912 met in the AND truth table. -/
theorem and_not_symmetric_on_error_and_false :
    rasqal_expression_evaluate2 sample_collaborators sample_context
        (some (binary .RASQAL_EXPR_AND leaf_unbound (leaf literal_false))) = .ret none [] ∧
    rasqal_expression_evaluate2 sample_collaborators sample_context
        (some (binary .RASQAL_EXPR_AND (leaf literal_false) leaf_unbound)) =
      .ret (rasqal_new_boolean_literal 0) [] ∧
    rasqal_expression_evaluate2 sample_collaborators sample_context
        (some (binary .RASQAL_EXPR_AND leaf_unbound (leaf literal_true))) =
      .ret (rasqal_new_boolean_literal 0) [] ∧
    rasqal_expression_evaluate2 sample_collaborators sample_context
        (some (binary .RASQAL_EXPR_AND (leaf literal_true) leaf_unbound)) = .ret none [] :=
  ⟨rfl, rfl, rfl, rfl⟩

/-- The deprecated entry point is `rasqal_expression_evaluate2` on the local
context as the stack held it, with the locator and the flags stored in it. -/
theorem rasqal_expression_evaluate_eq (w : collaborators) (context : rasqal_evaluation_context)
    (locator : Option String) (e : rasqal_expression) (flags : Nat) :
    rasqal_expression_evaluate w context locator (some e) flags =
      rasqal_expression_evaluate2 w ⟨flags, context.base_uri, locator⟩ (some e) := rfl

/-- C28 (the code at the failing input): entered with a stack that holds a
base URI, the deprecated entry point evaluates `URI("a")` against that base
URI, where `rasqal_expression_evaluate2` on the context with the given
locator and flags and every other field cleared resolves `a` against no base
URI: line 1517 clears nothing. -/
theorem deprecated_entry_keeps_stale_base_uri :
    rasqal_expression_evaluate sample_collaborators_resolving stale_context none
        (some (unary .RASQAL_EXPR_URI (leaf literal_a))) 0 =
      .ret (rasqal_new_uri_literal (some "http://stale.example/a")) [] ∧
    rasqal_expression_evaluate2 sample_collaborators_resolving ⟨0, none, none⟩
        (some (unary .RASQAL_EXPR_URI (leaf literal_a))) =
      .ret (rasqal_new_uri_literal (some "a")) [] :=
  ⟨rfl, rfl⟩

/-- C21: lexical validation applies to EQ only. For an EQ node whose operands
both evaluate successfully, if the lexical form of either operand is invalid
for its type, EQ fails whatever the equality collaborator answers. NEQ, LT,
GT, LE and GE on such operands make no validation: their outcome is that of
the collaborator alone, a Boolean when it reports no error. -/
theorem lexical_validation_is_for_eq_only (w : collaborators)
    (ctx : rasqal_evaluation_context)
    (arg1 arg2 arg3 : Option rasqal_expression) (literal : Option rasqal_literal)
    (name : Option raptor_uri) (args : List (Option rasqal_expression))
    (l1 l2 : rasqal_literal) (log1 log2 : List diagnostic)
    (h1 : rasqal_expression_evaluate2 w ctx arg1 = .ret (some l1) log1)
    (h2 : rasqal_expression_evaluate2 w ctx arg2 = .ret (some l2) log2) :
    ((w.rasqal_xsd_datatype_check l1.type l1.string ctx.flags = 0 ∨
        w.rasqal_xsd_datatype_check l2.type l2.string ctx.flags = 0) →
      rasqal_expression_evaluate2 w ctx
        (some (.mk .RASQAL_EXPR_EQ arg1 arg2 arg3 literal name args)) =
          .ret none (log1 ++ log2)) ∧
    ((w.rasqal_literal_not_equals_flags l1 l2 ctx.flags).2 = false →
      rasqal_expression_evaluate2 w ctx
          (some (.mk .RASQAL_EXPR_NEQ arg1 arg2 arg3 literal name args)) =
        .ret (rasqal_new_boolean_literal
          (if (w.rasqal_literal_not_equals_flags l1 l2 ctx.flags).1 ≠ 0 then 1 else 0))
          (log1 ++ log2)) ∧
    ((w.rasqal_literal_compare l1 l2 ctx.flags).2 = false →
      rasqal_expression_evaluate2 w ctx
          (some (.mk .RASQAL_EXPR_LT arg1 arg2 arg3 literal name args)) =
        .ret (rasqal_new_boolean_literal
          (if (w.rasqal_literal_compare l1 l2 ctx.flags).1 < 0 then 1 else 0))
          (log1 ++ log2) ∧
      rasqal_expression_evaluate2 w ctx
          (some (.mk .RASQAL_EXPR_GT arg1 arg2 arg3 literal name args)) =
        .ret (rasqal_new_boolean_literal
          (if (w.rasqal_literal_compare l1 l2 ctx.flags).1 > 0 then 1 else 0))
          (log1 ++ log2) ∧
      rasqal_expression_evaluate2 w ctx
          (some (.mk .RASQAL_EXPR_LE arg1 arg2 arg3 literal name args)) =
        .ret (rasqal_new_boolean_literal
          (if (w.rasqal_literal_compare l1 l2 ctx.flags).1 ≤ 0 then 1 else 0))
          (log1 ++ log2) ∧
      rasqal_expression_evaluate2 w ctx
          (some (.mk .RASQAL_EXPR_GE arg1 arg2 arg3 literal name args)) =
        .ret (rasqal_new_boolean_literal
          (if (w.rasqal_literal_compare l1 l2 ctx.flags).1 ≥ 0 then 1 else 0))
          (log1 ++ log2)) := by
  refine ⟨?_, ?_, ?_⟩
  · intro hcheck
    simp [rasqal_expression_evaluate2, rasqal_expression_evaluate2_switch,
      evaluate_two_operands, h1, h2, bind_ret, hcheck, failed]
  · intro herr
    simp [rasqal_expression_evaluate2, rasqal_expression_evaluate2_switch,
      evaluate_two_operands, h1, h2, bind_ret, herr, boolean_unless_error, set_error]
  · intro herr
    refine ⟨?_, ?_, ?_, ?_⟩ <;>
      simp [rasqal_expression_evaluate2, rasqal_expression_evaluate2_switch,
        evaluate_two_operands, h1, h2, bind_ret, herr, boolean_unless_error, set_error]

/-- C21 witness: with a lexical check that rejects the Integer term `abc`,
`abc = 1` fails and `abc != 1` is the Boolean true. -/
theorem lexical_validation_is_for_eq_only_witness :
    sample_collaborators_lexical.rasqal_xsd_datatype_check literal_integer_abc.type
      literal_integer_abc.string sample_context.flags = 0 ∧
    rasqal_expression_evaluate2 sample_collaborators_lexical sample_context
        (some (binary .RASQAL_EXPR_EQ (leaf literal_integer_abc) (leaf (literal_integer 1)))) =
      .ret none ([] ++ []) ∧
    rasqal_expression_evaluate2 sample_collaborators_lexical sample_context
        (some (binary .RASQAL_EXPR_NEQ (leaf literal_integer_abc) (leaf (literal_integer 1)))) =
      .ret (rasqal_new_boolean_literal 1) [] :=
  ⟨rfl,
    (lexical_validation_is_for_eq_only sample_collaborators_lexical sample_context
      (some (leaf literal_integer_abc)) (some (leaf (literal_integer 1))) none none none []
      literal_integer_abc (literal_integer 1) [] [] rfl rfl).1 (Or.inl rfl),
    (lexical_validation_is_for_eq_only sample_collaborators_lexical sample_context
      (some (leaf literal_integer_abc)) (some (leaf (literal_integer 1))) none none none []
      literal_integer_abc (literal_integer 1) [] [] rfl rfl).2.1 rfl⟩

/-- The loop of IN / NOT-IN over candidates that all differ from the probe,
followed by one that fails to evaluate or whose equality test reports an
error: the loop takes `goto failed`, whatever follows. -/
theorem in_set_loop_first_failure (w : collaborators) (ctx : rasqal_evaluation_context)
    (l1 : rasqal_literal) (pre : List (Option rasqal_expression))
    (logs : List (List diagnostic)) (x : Option rasqal_expression) (logx : List diagnostic)
    (hpre : List.Forall₂
      (fun a loga => ∃ l, rasqal_expression_evaluate2 w ctx a = .ret (some l) loga ∧
        (w.rasqal_literal_equals_flags l1 l ctx.flags).2 = false ∧
        (w.rasqal_literal_equals_flags l1 l ctx.flags).1 = 0) pre logs)
    (hx : rasqal_expression_evaluate2 w ctx x = .ret none logx ∨
      ∃ l, rasqal_expression_evaluate2 w ctx x = .ret (some l) logx ∧
        (w.rasqal_literal_equals_flags l1 l ctx.flags).2 = true)
    (post : List (Option rasqal_expression)) :
    rasqal_expression_evaluate_in_set_loop w ctx l1 (pre ++ x :: post) =
      .ret none (logs.flatten ++ logx) := by
  induction hpre with
  | nil =>
    rcases hx with hev | ⟨l, hev, herr⟩
    · simp [rasqal_expression_evaluate_in_set_loop, hev, bind_ret]
    · simp [rasqal_expression_evaluate_in_set_loop, hev, bind_ret, herr, set_error]
  | cons ha _ ih =>
    obtain ⟨l, hev, herr, hval⟩ := ha
    simp only [List.cons_append, rasqal_expression_evaluate_in_set_loop, hev, bind_ret, herr,
      hval, set_error, List.append_eq, ih]
    simp

/-- C22: in IN and NOT-IN a failure aborts. When, scanning the candidates in
order, a candidate fails to evaluate or its coercing-equality test against
the probe reports an error, and no earlier candidate has matched, the whole
form fails there, whatever the later candidates are: also when one of them
would have matched the probe. -/
theorem in_set_fails_at_first_failure (w : collaborators) (ctx : rasqal_evaluation_context)
    (arg1 arg2 arg3 : Option rasqal_expression) (literal : Option rasqal_literal)
    (name : Option raptor_uri) (l1 : rasqal_literal) (log1 : List diagnostic)
    (pre : List (Option rasqal_expression)) (logs : List (List diagnostic))
    (x : Option rasqal_expression) (logx : List diagnostic)
    (h1 : rasqal_expression_evaluate2 w ctx arg1 = .ret (some l1) log1)
    (hpre : List.Forall₂
      (fun a loga => ∃ l, rasqal_expression_evaluate2 w ctx a = .ret (some l) loga ∧
        (w.rasqal_literal_equals_flags l1 l ctx.flags).2 = false ∧
        (w.rasqal_literal_equals_flags l1 l ctx.flags).1 = 0) pre logs)
    (hx : rasqal_expression_evaluate2 w ctx x = .ret none logx ∨
      ∃ l, rasqal_expression_evaluate2 w ctx x = .ret (some l) logx ∧
        (w.rasqal_literal_equals_flags l1 l ctx.flags).2 = true) :
    ∀ post : List (Option rasqal_expression),
      rasqal_expression_evaluate2 w ctx
          (some (.mk .RASQAL_EXPR_IN arg1 arg2 arg3 literal name (pre ++ x :: post))) =
        .ret none (log1 ++ (logs.flatten ++ logx)) ∧
      rasqal_expression_evaluate2 w ctx
          (some (.mk .RASQAL_EXPR_NOT_IN arg1 arg2 arg3 literal name (pre ++ x :: post))) =
        .ret none (log1 ++ (logs.flatten ++ logx)) := by
  intro post
  have hloop := in_set_loop_first_failure w ctx l1 pre logs x logx hpre hx post
  constructor <;>
    simp [rasqal_expression_evaluate2, rasqal_expression_evaluate2_switch,
      rasqal_expression_evaluate_in_set, h1, hloop, bind_ret, failed]

/-- C22 witness: with the probe `"x"`, IN and NOT-IN over `(true, unbound,
"x")` fail although the last candidate is the probe. -/
theorem in_set_fails_at_first_failure_witness :
    rasqal_expression_evaluate2 sample_collaborators sample_context
        (some (.mk .RASQAL_EXPR_IN (some (leaf literal_x)) none none none none
          ([some (leaf literal_true)] ++ some leaf_unbound :: [some (leaf literal_x)]))) =
      .ret none ([] ++ ([[]].flatten ++ [])) ∧
    rasqal_expression_evaluate2 sample_collaborators sample_context
        (some (.mk .RASQAL_EXPR_NOT_IN (some (leaf literal_x)) none none none none
          ([some (leaf literal_true)] ++ some leaf_unbound :: [some (leaf literal_x)]))) =
      .ret none ([] ++ ([[]].flatten ++ [])) :=
  in_set_fails_at_first_failure sample_collaborators sample_context
    (some (leaf literal_x)) none none none none literal_x []
    [some (leaf literal_true)] [[]] (some leaf_unbound) [] rfl
    (List.Forall₂.cons ⟨literal_true, rfl, rfl, rfl⟩ List.Forall₂.nil)
    (Or.inl rfl) [some (leaf literal_x)]

/-- The MODULO case when the memory of `errs.errs.e2` held 0 at entry and the
division does not overflow: for operands that coerce without error to `n` and
a divisor `d` that is not 0, the result is the Integer term of the remainder
of the truncating division. -/
theorem modulo_remainder_when_e2_clear (w : collaborators) (ctx : rasqal_evaluation_context)
    (arg1 arg2 arg3 : Option rasqal_expression) (literal : Option rasqal_literal)
    (name : Option raptor_uri) (args : List (Option rasqal_expression))
    (l1 l2 : rasqal_literal) (log1 log2 : List diagnostic) (n d : Int)
    (h1 : rasqal_expression_evaluate2 w ctx arg1 = .ret (some l1) log1)
    (h2 : rasqal_expression_evaluate2 w ctx arg2 = .ret (some l2) log2)
    (hn : w.rasqal_literal_as_integer l1 = (n, false))
    (hd : w.rasqal_literal_as_integer l2 = (d, false)) (hd0 : d ≠ 0)
    (he2 : w.uninitialised_e2 = 0) (hover : ¬ (n = INT_MIN ∧ d = -1)) :
    rasqal_expression_evaluate2 w ctx
        (some (.mk .RASQAL_EXPR_REM arg1 arg2 arg3 literal name args)) =
      .ret (rasqal_new_integer_literal .RASQAL_LITERAL_INTEGER (Int.tmod n d))
        (log1 ++ log2) := by
  simp [rasqal_expression_evaluate2, rasqal_expression_evaluate2_switch,
    evaluate_two_operands, h1, h2, bind_ret, hn, hd, hd0, he2, set_error, hover]

/-- C23 (the code at the failing inputs): `7 MODULO 2`, whose operands coerce
without error and whose divisor is not 0, fails when the memory of
`errs.errs.e2`, which nothing initialises, does not hold 0; and
`-2147483648 MODULO -1`, whose remainder is 0, is an overflowing `%`, which
has no defined behaviour. With that memory at 0, `7 MODULO 2` is 1 and
`-7 MODULO 2` is -1. -/
theorem modulo_fails_on_stale_error_flag_and_overflow :
    (sample_collaborators_stale_e2.rasqal_literal_as_integer (literal_integer 7) = (7, false) ∧
      sample_collaborators_stale_e2.rasqal_literal_as_integer (literal_integer 2) =
        (2, false) ∧
      rasqal_expression_evaluate2 sample_collaborators_stale_e2 sample_context
        (some (binary .RASQAL_EXPR_REM (leaf (literal_integer 7)) (leaf (literal_integer 2)))) =
          .ret none []) ∧
    (Int.tmod (-2147483648) (-1) = 0 ∧
      rasqal_expression_evaluate2 sample_collaborators sample_context
        (some (binary .RASQAL_EXPR_REM (leaf (literal_integer (-2147483648)))
          (leaf (literal_integer (-1))))) = .stopped .undefined_behaviour) ∧
    rasqal_expression_evaluate2 sample_collaborators sample_context
        (some (binary .RASQAL_EXPR_REM (leaf (literal_integer 7)) (leaf (literal_integer 2)))) =
      .ret (rasqal_new_integer_literal .RASQAL_LITERAL_INTEGER 1) [] ∧
    rasqal_expression_evaluate2 sample_collaborators sample_context
        (some (binary .RASQAL_EXPR_REM (leaf (literal_integer (-7)))
          (leaf (literal_integer 2)))) =
      .ret (rasqal_new_integer_literal .RASQAL_LITERAL_INTEGER (-1)) [] :=
  ⟨⟨rfl, rfl, rfl⟩, ⟨by decide, rfl⟩, rfl, rfl⟩

/-- C24: the type tests is-URI, is-blank, is-literal and is-numeric. A test
fails when its operand fails to evaluate, or evaluates to a reference to a
variable that has no value, and only then; whenever the operand resolves to a
term `t` (the evaluated operand itself, or the bound value of the variable
when it is a reference to one), the test succeeds and returns the Boolean
term of the classification of `t`: is-URI whether `t` is a URI, is-blank
whether `t` is a blank node, is-literal whether `t` is string-family,
is-numeric what the numeric-kind classifier answers for `t`. -/
theorem type_tests_classify_resolved_operand (w : collaborators)
    (ctx : rasqal_evaluation_context)
    (arg1 arg2 arg3 : Option rasqal_expression) (literal : Option rasqal_literal)
    (name : Option raptor_uri) (args : List (Option rasqal_expression)) :
    (∀ op log1, op = rasqal_op.RASQAL_EXPR_ISURI ∨ op = .RASQAL_EXPR_ISBLANK ∨
        op = .RASQAL_EXPR_ISLITERAL ∨ op = .RASQAL_EXPR_ISNUMERIC →
      rasqal_expression_evaluate2 w ctx arg1 = .ret none log1 →
      rasqal_expression_evaluate2 w ctx (some (.mk op arg1 arg2 arg3 literal name args)) =
        .ret none log1) ∧
    (∀ op l1 log1, op = rasqal_op.RASQAL_EXPR_ISURI ∨ op = .RASQAL_EXPR_ISBLANK ∨
        op = .RASQAL_EXPR_ISLITERAL ∨ op = .RASQAL_EXPR_ISNUMERIC →
      rasqal_expression_evaluate2 w ctx arg1 = .ret (some l1) log1 →
      operand_unbound l1 →
      rasqal_expression_evaluate2 w ctx (some (.mk op arg1 arg2 arg3 literal name args)) =
        .ret none log1) ∧
    (∀ l1 t log1, rasqal_expression_evaluate2 w ctx arg1 = .ret (some l1) log1 →
      operand_resolves_to l1 t →
      rasqal_expression_evaluate2 w ctx
          (some (.mk .RASQAL_EXPR_ISURI arg1 arg2 arg3 literal name args)) =
        .ret (rasqal_new_boolean_literal (if t.type = .RASQAL_LITERAL_URI then 1 else 0))
          log1 ∧
      rasqal_expression_evaluate2 w ctx
          (some (.mk .RASQAL_EXPR_ISBLANK arg1 arg2 arg3 literal name args)) =
        .ret (rasqal_new_boolean_literal (if t.type = .RASQAL_LITERAL_BLANK then 1 else 0))
          log1 ∧
      rasqal_expression_evaluate2 w ctx
          (some (.mk .RASQAL_EXPR_ISLITERAL arg1 arg2 arg3 literal name args)) =
        .ret (rasqal_new_boolean_literal
          (if w.rasqal_literal_get_rdf_term_type t = .RASQAL_LITERAL_STRING then 1 else 0))
          log1 ∧
      rasqal_expression_evaluate2 w ctx
          (some (.mk .RASQAL_EXPR_ISNUMERIC arg1 arg2 arg3 literal name args)) =
        .ret (rasqal_new_boolean_literal (w.rasqal_literal_is_numeric t)) log1) ∧
    (∀ op log, op = rasqal_op.RASQAL_EXPR_ISURI ∨ op = .RASQAL_EXPR_ISBLANK ∨
        op = .RASQAL_EXPR_ISLITERAL ∨ op = .RASQAL_EXPR_ISNUMERIC →
      rasqal_expression_evaluate2 w ctx (some (.mk op arg1 arg2 arg3 literal name args)) =
        .ret none log →
      rasqal_expression_evaluate2 w ctx arg1 = .ret none log ∨
        ∃ l1, rasqal_expression_evaluate2 w ctx arg1 = .ret (some l1) log ∧
          operand_unbound l1) := by
  refine ⟨?_, ?_, ?_, ?_⟩
  · intro op log1 hop h1
    rcases hop with h | h | h | h <;> subst h <;>
      simp [rasqal_expression_evaluate2, rasqal_expression_evaluate2_switch,
        rasqal_expression_evaluate_istype, h1, bind_ret, failed]
  · intro op l1 log1 hop h1 ht
    have ht := resolve_of_operand_unbound l1 ht
    rcases hop with h | h | h | h <;> subst h <;>
      simp [rasqal_expression_evaluate2, rasqal_expression_evaluate2_switch,
        rasqal_expression_evaluate_istype, h1, bind_ret, ht, failed]
  · intro l1 t log1 h1 ht
    have ht := resolve_of_operand_resolves_to l1 t ht
    refine ⟨?_, ?_, ?_, ?_⟩ <;>
      simp [rasqal_expression_evaluate2, rasqal_expression_evaluate2_switch,
        rasqal_expression_evaluate_istype, h1, bind_ret, ht]
  · intro op log hop h
    cases h1 : rasqal_expression_evaluate2 w ctx arg1 with
    | stopped why =>
      rcases hop with h' | h' | h' | h' <;> subst h' <;>
        simp [rasqal_expression_evaluate2, rasqal_expression_evaluate2_switch,
          rasqal_expression_evaluate_istype, h1, computation.bind] at h
    | ret r log1 =>
      cases r with
      | none =>
        rcases hop with h' | h' | h' | h' <;> subst h' <;>
          simp [rasqal_expression_evaluate2, rasqal_expression_evaluate2_switch,
            rasqal_expression_evaluate_istype, h1, bind_ret, failed] at h <;>
          simp [h]
      | some l1 =>
        rcases operand_unbound_or_resolves l1 with hu | ⟨t, ht⟩
        · have hr := resolve_of_operand_unbound l1 hu
          refine Or.inr ⟨l1, ?_, hu⟩
          rcases hop with h' | h' | h' | h' <;> subst h' <;>
            simp [rasqal_expression_evaluate2, rasqal_expression_evaluate2_switch,
              rasqal_expression_evaluate_istype, h1, bind_ret, hr, failed] at h <;>
            simp [h]
        · have hr := resolve_of_operand_resolves_to l1 t ht
          rcases hop with h' | h' | h' | h' <;> subst h' <;>
            simp [rasqal_expression_evaluate2, rasqal_expression_evaluate2_switch,
              rasqal_expression_evaluate_istype, h1, bind_ret, hr,
              rasqal_new_boolean_literal] at h

/-- C24 witness: is-URI of a URI is true and of `"x"` false, is-blank of a
blank node is true, is-literal of `"x"` is true, is-numeric of the integer 7
is true, and is-URI of an operand that fails to evaluate fails. For an
operand whose evaluation is a reference to a variable, the test reads the
value of the variable: without value is-URI fails, bound to a URI it is
true. -/
theorem type_tests_classify_resolved_operand_witness :
    rasqal_expression_evaluate2 sample_collaborators sample_context
        (some (unary .RASQAL_EXPR_ISURI (leaf literal_uri))) =
      .ret (rasqal_new_boolean_literal 1) [] ∧
    rasqal_expression_evaluate2 sample_collaborators sample_context
        (some (unary .RASQAL_EXPR_ISURI (leaf literal_x))) =
      .ret (rasqal_new_boolean_literal 0) [] ∧
    rasqal_expression_evaluate2 sample_collaborators sample_context
        (some (unary .RASQAL_EXPR_ISBLANK (leaf literal_blank))) =
      .ret (rasqal_new_boolean_literal 1) [] ∧
    rasqal_expression_evaluate2 sample_collaborators sample_context
        (some (unary .RASQAL_EXPR_ISLITERAL (leaf literal_x))) =
      .ret (rasqal_new_boolean_literal 1) [] ∧
    rasqal_expression_evaluate2 sample_collaborators sample_context
        (some (unary .RASQAL_EXPR_ISNUMERIC (leaf (literal_integer 7)))) =
      .ret (rasqal_new_boolean_literal 1) [] ∧
    rasqal_expression_evaluate2 sample_collaborators sample_context
        (some (unary .RASQAL_EXPR_ISURI leaf_unbound)) = .ret none [] ∧
    rasqal_expression_evaluate2 sample_collaborators sample_context
        (some (leaf_reference none)) = .ret (some (literal_variable none)) [] ∧
    rasqal_expression_evaluate2 sample_collaborators sample_context
        (some (unary .RASQAL_EXPR_ISURI (leaf_reference none))) = .ret none [] ∧
    rasqal_expression_evaluate2 sample_collaborators sample_context
        (some (unary .RASQAL_EXPR_ISURI (leaf_reference (some literal_uri)))) =
      .ret (rasqal_new_boolean_literal 1) [] ∧
    (rasqal_expression_evaluate2 sample_collaborators sample_context
          (some (leaf_reference none)) = .ret none [] ∨
      ∃ l1, rasqal_expression_evaluate2 sample_collaborators sample_context
          (some (leaf_reference none)) = .ret (some l1) [] ∧ operand_unbound l1) :=
  ⟨((type_tests_classify_resolved_operand sample_collaborators sample_context
      (some (leaf literal_uri)) none none none none []).2.2.1 literal_uri literal_uri []
      rfl (Or.inl ⟨rfl, rfl⟩)).1,
    ((type_tests_classify_resolved_operand sample_collaborators sample_context
      (some (leaf literal_x)) none none none none []).2.2.1 literal_x literal_x [] rfl
      (Or.inl ⟨rfl, rfl⟩)).1,
    ((type_tests_classify_resolved_operand sample_collaborators sample_context
      (some (leaf literal_blank)) none none none none []).2.2.1 literal_blank literal_blank []
      rfl (Or.inl ⟨rfl, rfl⟩)).2.1,
    ((type_tests_classify_resolved_operand sample_collaborators sample_context
      (some (leaf literal_x)) none none none none []).2.2.1 literal_x literal_x []
      rfl (Or.inl ⟨rfl, rfl⟩)).2.2.1,
    ((type_tests_classify_resolved_operand sample_collaborators sample_context
      (some (leaf (literal_integer 7))) none none none none []).2.2.1 (literal_integer 7)
      (literal_integer 7) [] rfl (Or.inl ⟨rfl, rfl⟩)).2.2.2,
    (type_tests_classify_resolved_operand sample_collaborators sample_context
      (some leaf_unbound) none none none none []).1 .RASQAL_EXPR_ISURI [] (Or.inl rfl) rfl,
    rfl,
    (type_tests_classify_resolved_operand sample_collaborators sample_context
      (some (leaf_reference none)) none none none none []).2.1 .RASQAL_EXPR_ISURI
      (literal_variable none) [] (Or.inl rfl) rfl ⟨⟨"v", none⟩, rfl, rfl⟩,
    ((type_tests_classify_resolved_operand sample_collaborators sample_context
      (some (leaf_reference (some literal_uri))) none none none none []).2.2.1
      (literal_variable (some literal_uri)) literal_uri [] rfl
      (Or.inr ⟨⟨"v", some literal_uri⟩, rfl, rfl⟩)).1,
    (type_tests_classify_resolved_operand sample_collaborators sample_context
      (some (leaf_reference none)) none none none none []).2.2.2 .RASQAL_EXPR_ISURI []
      (Or.inl rfl) rfl⟩

/-- The operators of the claim on default failure propagation fail when the
first operand fails to evaluate. -/
theorem propagating_ops_fail_on_first_operand (w : collaborators)
    (ctx : rasqal_evaluation_context)
    (arg1 arg2 arg3 : Option rasqal_expression) (literal : Option rasqal_literal)
    (name : Option raptor_uri) (args : List (Option rasqal_expression))
    (op : rasqal_op) (log1 : List diagnostic)
    (hop : op ∈ propagating_unary_ops ++ propagating_binary_ops)
    (h1 : rasqal_expression_evaluate2 w ctx arg1 = .ret none log1) :
    rasqal_expression_evaluate2 w ctx (some (.mk op arg1 arg2 arg3 literal name args)) =
      .ret none log1 := by
  simp only [propagating_unary_ops, propagating_binary_ops, List.cons_append, List.nil_append,
    List.mem_cons, List.mem_singleton, List.not_mem_nil, or_false] at hop
  rcases hop with h | h | h | h | h | h | h | h | h | h | h | h | h | h | h | h | h | h <;>
    subst h <;>
    simp [rasqal_expression_evaluate2, rasqal_expression_evaluate2_switch,
      evaluate_two_operands, rasqal_expression_evaluate_sameterm, h1, bind_ret, failed]

/-- The two-operand operators of the claim on default failure propagation
fail when the second operand fails to evaluate. -/
theorem propagating_ops_fail_on_second_operand (w : collaborators)
    (ctx : rasqal_evaluation_context)
    (arg1 arg2 arg3 : Option rasqal_expression) (literal : Option rasqal_literal)
    (name : Option raptor_uri) (args : List (Option rasqal_expression))
    (op : rasqal_op) (l1 : rasqal_literal) (log1 log2 : List diagnostic)
    (hop : op ∈ propagating_binary_ops)
    (h1 : rasqal_expression_evaluate2 w ctx arg1 = .ret (some l1) log1)
    (h2 : rasqal_expression_evaluate2 w ctx arg2 = .ret none log2) :
    rasqal_expression_evaluate2 w ctx (some (.mk op arg1 arg2 arg3 literal name args)) =
      .ret none (log1 ++ log2) := by
  simp only [propagating_binary_ops, List.mem_cons, List.mem_singleton, List.not_mem_nil,
    or_false] at hop
  rcases hop with h | h | h | h | h | h | h | h | h | h | h | h | h | h <;>
    subst h <;>
    simp [rasqal_expression_evaluate2, rasqal_expression_evaluate2_switch,
      evaluate_two_operands, rasqal_expression_evaluate_sameterm, h1, h2, bind_ret, failed]

/-- The one-operand operators of the claim on default failure propagation
fail when the collaborator operation reports an error. -/
theorem propagating_unary_ops_fail_on_error (w : collaborators)
    (ctx : rasqal_evaluation_context)
    (arg1 arg2 arg3 : Option rasqal_expression) (literal : Option rasqal_literal)
    (name : Option raptor_uri) (args : List (Option rasqal_expression))
    (l1 : rasqal_literal) (log1 : List diagnostic)
    (h1 : rasqal_expression_evaluate2 w ctx arg1 = .ret (some l1) log1) :
    ((w.rasqal_literal_negate l1).2 = true →
      rasqal_expression_evaluate2 w ctx
        (some (.mk .RASQAL_EXPR_UMINUS arg1 arg2 arg3 literal name args)) = .ret none log1) ∧
    ((w.rasqal_literal_as_integer l1).2 = true →
      rasqal_expression_evaluate2 w ctx
        (some (.mk .RASQAL_EXPR_TILDE arg1 arg2 arg3 literal name args)) = .ret none log1) ∧
    ((w.rasqal_literal_as_boolean l1).2 = true →
      rasqal_expression_evaluate2 w ctx
        (some (.mk .RASQAL_EXPR_BANG arg1 arg2 arg3 literal name args)) = .ret none log1) ∧
    ((w.rasqal_literal_cast l1 name ctx.flags).2 = true →
      rasqal_expression_evaluate2 w ctx
        (some (.mk .RASQAL_EXPR_CAST arg1 arg2 arg3 literal name args)) = .ret none log1) := by
  refine ⟨?_, ?_, ?_, ?_⟩ <;> intro herr <;>
    simp [rasqal_expression_evaluate2, rasqal_expression_evaluate2_switch, h1, bind_ret,
      herr, result_unless_error, boolean_unless_error, set_error, failed]

/-- The two-operand operators of the claim on default failure propagation
fail when the collaborator operation reports an error. -/
theorem propagating_binary_ops_fail_on_error (w : collaborators)
    (ctx : rasqal_evaluation_context)
    (arg1 arg2 arg3 : Option rasqal_expression) (literal : Option rasqal_literal)
    (name : Option raptor_uri) (args : List (Option rasqal_expression))
    (l1 l2 : rasqal_literal) (log1 log2 : List diagnostic)
    (h1 : rasqal_expression_evaluate2 w ctx arg1 = .ret (some l1) log1)
    (h2 : rasqal_expression_evaluate2 w ctx arg2 = .ret (some l2) log2) :
    ((w.rasqal_literal_equals_flags l1 l2 ctx.flags).2 = true →
      rasqal_expression_evaluate2 w ctx
        (some (.mk .RASQAL_EXPR_EQ arg1 arg2 arg3 literal name args)) =
          .ret none (log1 ++ log2)) ∧
    ((w.rasqal_literal_not_equals_flags l1 l2 ctx.flags).2 = true →
      rasqal_expression_evaluate2 w ctx
        (some (.mk .RASQAL_EXPR_NEQ arg1 arg2 arg3 literal name args)) =
          .ret none (log1 ++ log2)) ∧
    ((w.rasqal_literal_compare l1 l2 ctx.flags).2 = true →
      rasqal_expression_evaluate2 w ctx
        (some (.mk .RASQAL_EXPR_LT arg1 arg2 arg3 literal name args)) =
          .ret none (log1 ++ log2) ∧
      rasqal_expression_evaluate2 w ctx
        (some (.mk .RASQAL_EXPR_GT arg1 arg2 arg3 literal name args)) =
          .ret none (log1 ++ log2) ∧
      rasqal_expression_evaluate2 w ctx
        (some (.mk .RASQAL_EXPR_LE arg1 arg2 arg3 literal name args)) =
          .ret none (log1 ++ log2) ∧
      rasqal_expression_evaluate2 w ctx
        (some (.mk .RASQAL_EXPR_GE arg1 arg2 arg3 literal name args)) =
          .ret none (log1 ++ log2)) ∧
    ((w.rasqal_literal_compare l1 l2 (ctx.flags ||| RASQAL_COMPARE_NOCASE)).2 = true →
      rasqal_expression_evaluate2 w ctx
        (some (.mk .RASQAL_EXPR_STR_EQ arg1 arg2 arg3 literal name args)) =
          .ret none (log1 ++ log2) ∧
      rasqal_expression_evaluate2 w ctx
        (some (.mk .RASQAL_EXPR_STR_NEQ arg1 arg2 arg3 literal name args)) =
          .ret none (log1 ++ log2)) ∧
    ((w.rasqal_literal_add l1 l2).2 = true →
      rasqal_expression_evaluate2 w ctx
        (some (.mk .RASQAL_EXPR_PLUS arg1 arg2 arg3 literal name args)) =
          .ret none (log1 ++ log2)) ∧
    ((w.rasqal_literal_subtract l1 l2).2 = true →
      rasqal_expression_evaluate2 w ctx
        (some (.mk .RASQAL_EXPR_MINUS arg1 arg2 arg3 literal name args)) =
          .ret none (log1 ++ log2)) ∧
    ((w.rasqal_literal_multiply l1 l2).2 = true →
      rasqal_expression_evaluate2 w ctx
        (some (.mk .RASQAL_EXPR_STAR arg1 arg2 arg3 literal name args)) =
          .ret none (log1 ++ log2)) ∧
    ((w.rasqal_literal_divide l1 l2).2 = true →
      rasqal_expression_evaluate2 w ctx
        (some (.mk .RASQAL_EXPR_SLASH arg1 arg2 arg3 literal name args)) =
          .ret none (log1 ++ log2)) ∧
    (((w.rasqal_literal_as_integer l1).2 = true ∨ (w.rasqal_literal_as_integer l2).2 = true) →
      ¬ ((w.rasqal_literal_as_integer l1).1 = INT_MIN ∧
        (w.rasqal_literal_as_integer l2).1 = -1) →
      rasqal_expression_evaluate2 w ctx
        (some (.mk .RASQAL_EXPR_REM arg1 arg2 arg3 literal name args)) =
          .ret none (log1 ++ log2)) := by
  refine ⟨?_, ?_, ?_, ?_, ?_, ?_, ?_, ?_, ?_⟩
  · intro herr
    by_cases hcheck : w.rasqal_xsd_datatype_check l1.type l1.string ctx.flags = 0 ∨
        w.rasqal_xsd_datatype_check l2.type l2.string ctx.flags = 0 <;>
      simp [rasqal_expression_evaluate2, rasqal_expression_evaluate2_switch,
        evaluate_two_operands, h1, h2, bind_ret, herr, hcheck, boolean_unless_error,
        set_error, failed]
  · intro herr
    simp [rasqal_expression_evaluate2, rasqal_expression_evaluate2_switch,
      evaluate_two_operands, h1, h2, bind_ret, herr, boolean_unless_error, set_error, failed]
  · intro herr
    refine ⟨?_, ?_, ?_, ?_⟩ <;>
      simp [rasqal_expression_evaluate2, rasqal_expression_evaluate2_switch,
        evaluate_two_operands, h1, h2, bind_ret, herr, boolean_unless_error, set_error,
        failed]
  · intro herr
    refine ⟨?_, ?_⟩ <;>
      simp [rasqal_expression_evaluate2, rasqal_expression_evaluate2_switch,
        evaluate_two_operands, h1, h2, bind_ret, herr, boolean_unless_error, set_error,
        failed]
  · intro herr
    simp [rasqal_expression_evaluate2, rasqal_expression_evaluate2_switch,
      evaluate_two_operands, h1, h2, bind_ret, herr, result_unless_error, set_error, failed]
  · intro herr
    simp [rasqal_expression_evaluate2, rasqal_expression_evaluate2_switch,
      evaluate_two_operands, h1, h2, bind_ret, herr, result_unless_error, set_error, failed]
  · intro herr
    simp [rasqal_expression_evaluate2, rasqal_expression_evaluate2_switch,
      evaluate_two_operands, h1, h2, bind_ret, herr, result_unless_error, set_error, failed]
  · intro herr
    simp [rasqal_expression_evaluate2, rasqal_expression_evaluate2_switch,
      evaluate_two_operands, h1, h2, bind_ret, herr, result_unless_error, set_error, failed]
  · intro herr hover
    simp only [rasqal_expression_evaluate2, rasqal_expression_evaluate2_switch,
      evaluate_two_operands, h1, h2, bind_ret, failed]
    by_cases hd : (w.rasqal_literal_as_integer l2).1 = 0
    · simp [hd]
    · simp only [hd, if_false, hover]
      rcases herr with herr | herr <;> simp [herr, set_error]

set_option maxHeartbeats 4000000 in
/-- An operator of `failure_strict_ops` does not succeed when the evaluation
of one of the operands it evaluates fails. -/
theorem strict_ops_do_not_succeed (w : collaborators) (ctx : rasqal_evaluation_context)
    (arg1 arg2 arg3 : Option rasqal_expression) (literal : Option rasqal_literal)
    (name : Option raptor_uri) (args : List (Option rasqal_expression))
    (op : rasqal_op) (hop : op ∈ failure_strict_ops)
    (a : Option rasqal_expression) (ha : a ∈ operands_evaluated op arg1 arg2 arg3 args)
    (hfail : evaluation_fails (rasqal_expression_evaluate2 w ctx a)) :
    ¬ evaluation_succeeds
      (rasqal_expression_evaluate2 w ctx (some (.mk op arg1 arg2 arg3 literal name args))) := by
  obtain ⟨log, hlog⟩ := hfail
  rintro ⟨r, log', h⟩
  cases op <;> first
    | exact absurd hop (by decide)
    | skip
  case RASQAL_EXPR_BNODE =>
    cases arg1 with
    | none => simp [operands_evaluated] at ha
    | some x =>
      simp only [operands_evaluated, List.mem_singleton] at ha
      subst ha
      simp only [rasqal_expression_evaluate2] at hlog
      simp [rasqal_expression_evaluate2, rasqal_expression_evaluate2_switch,
        rasqal_expression_evaluate_bnode_constructor, hlog, bind_ret, failed] at h
  all_goals
    simp only [operands_evaluated, List.mem_cons, List.mem_singleton, List.not_mem_nil,
      or_false] at ha
  all_goals first
    | (subst ha
       simp [rasqal_expression_evaluate2, rasqal_expression_evaluate2_switch,
         rasqal_expression_evaluate_str, rasqal_expression_evaluate_lang,
         rasqal_expression_evaluate_datatype, rasqal_expression_evaluate_istype,
         rasqal_expression_evaluate_uri_constructor, hlog, bind_ret, failed] at h)
    | (rcases ha with ha | ha
       · subst ha
         simp [rasqal_expression_evaluate2, rasqal_expression_evaluate2_switch,
           evaluate_two_operands, rasqal_expression_evaluate_sameterm,
           rasqal_expression_evaluate_strlang, rasqal_expression_evaluate_strdt,
           hlog, bind_ret, failed] at h
       · subst ha
         cases h1 : rasqal_expression_evaluate2 w ctx arg1 with
         | stopped why =>
           simp [rasqal_expression_evaluate2, rasqal_expression_evaluate2_switch,
             evaluate_two_operands, rasqal_expression_evaluate_sameterm,
             rasqal_expression_evaluate_strlang, rasqal_expression_evaluate_strdt,
             h1, computation.bind] at h
         | ret l1 log1 =>
           cases l1 with
           | none =>
             simp [rasqal_expression_evaluate2, rasqal_expression_evaluate2_switch,
               evaluate_two_operands, rasqal_expression_evaluate_sameterm,
               rasqal_expression_evaluate_strlang, rasqal_expression_evaluate_strdt,
               h1, bind_ret, failed] at h
           | some l1 =>
             simp only [rasqal_expression_evaluate2, rasqal_expression_evaluate2_switch,
               evaluate_two_operands, rasqal_expression_evaluate_sameterm,
               rasqal_expression_evaluate_strlang, rasqal_expression_evaluate_strdt,
               h1, hlog, bind_ret, failed] at h
             first
               | (simp at h; done)
               | (split_ifs at h <;> simp [hlog, bind_ret] at h))

/-- A node of an operator of `never_succeeding_ops` returns no term. -/
theorem never_succeeding_ops_do_not_succeed (w : collaborators)
    (ctx : rasqal_evaluation_context)
    (arg1 arg2 arg3 : Option rasqal_expression) (literal : Option rasqal_literal)
    (name : Option raptor_uri) (args : List (Option rasqal_expression))
    (op : rasqal_op) (hop : op ∈ never_succeeding_ops) :
    ¬ evaluation_succeeds
      (rasqal_expression_evaluate2 w ctx (some (.mk op arg1 arg2 arg3 literal name args))) := by
  rintro ⟨r, log', h⟩
  cases op <;> first
    | exact absurd hop (by decide)
    | simp [rasqal_expression_evaluate2, rasqal_expression_evaluate2_switch,
        RASQAL_FATAL3] at h

/-- Every operator tag is in one of the classes: it cannot succeed with a
failing operand, it can, its node never returns a term, it is the leaf, which
evaluates no operand, or its evaluator is defined in another file. -/
theorem operator_classes_cover (w : collaborators) (ctx : rasqal_evaluation_context)
    (e : rasqal_expression) (op : rasqal_op) :
    op ∈ failure_strict_ops ∨ op ∈ failure_lenient_ops ∨ op ∈ never_succeeding_ops ∨
      op = .RASQAL_EXPR_LITERAL ∨ (delegated_evaluation w op e ctx).isSome = true := by
  cases op <;> simp [failure_strict_ops, failure_lenient_ops, never_succeeding_ops,
    propagating_unary_ops, propagating_binary_ops, delegated_evaluation]

/-- C25 (as stated, refuted): IF is none of AND, OR, COALESCE and BOUND, the
third operand of `IF(true, "x", unbound)` is a reference to an unbound
variable, whose evaluation fails, and yet the node succeeds with the value
`"x"`: the operand that is not chosen is not evaluated. -/
theorem if_succeeds_with_failing_operand :
    ¬ ((rasqal_op.RASQAL_EXPR_IF ≠ .RASQAL_EXPR_AND ∧
          rasqal_op.RASQAL_EXPR_IF ≠ .RASQAL_EXPR_OR ∧
          rasqal_op.RASQAL_EXPR_IF ≠ .RASQAL_EXPR_COALESCE ∧
          rasqal_op.RASQAL_EXPR_IF ≠ .RASQAL_EXPR_BOUND) →
        rasqal_expression_evaluate2 sample_collaborators sample_context (some leaf_unbound) =
          .ret none [] →
        ¬ ∃ r log, rasqal_expression_evaluate2 sample_collaborators sample_context
          (some (.mk .RASQAL_EXPR_IF (some (leaf literal_true)) (some (leaf literal_x))
            (some leaf_unbound) none none [])) = .ret (some r) log) := by
  intro h
  exact h ⟨by decide, by decide, by decide, by decide⟩ rfl ⟨literal_x, [], rfl⟩

/-- C25 (amended): default failure propagation. For every node whose operator
is a comparison (EQ, NEQ, LT, GT, LE, GE), a string-equality variant, an
arithmetic operator (PLUS, MINUS, TIMES, DIVIDE, MODULO), a unary operator
(negate, bit-complement, NOT), CAST or SAME-TERM: if the evaluation of one of
its operands fails, or the delegated collaborator operation reports an error
(for MODULO: with values whose division does not overflow), then the
evaluation of the node fails. Among the operators this file evaluates, only
AND/OR, COALESCE, BOUND, IF, IN/NOT-IN and the unsupported function call can
succeed with a failing or unbound operand: every other operator that
evaluates operands (those above, STR, LANG, DATATYPE, the type tests, the URI
and blank node constructors, STRLANG, STRDT and the ORDER and GROUP wrappers)
does not succeed when the evaluation of one of its operands fails, and the
aggregates, VARSTAR and the unknown tags never return a term. The operators
whose evaluator another file defines are outside this statement. -/
theorem failure_propagates_by_default (w : collaborators) (ctx : rasqal_evaluation_context)
    (arg1 arg2 arg3 : Option rasqal_expression) (literal : Option rasqal_literal)
    (name : Option raptor_uri) (args : List (Option rasqal_expression)) :
    (∀ op log1, op ∈ propagating_unary_ops ++ propagating_binary_ops →
      rasqal_expression_evaluate2 w ctx arg1 = .ret none log1 →
      rasqal_expression_evaluate2 w ctx (some (.mk op arg1 arg2 arg3 literal name args)) =
        .ret none log1) ∧
    (∀ op l1 log1 log2, op ∈ propagating_binary_ops →
      rasqal_expression_evaluate2 w ctx arg1 = .ret (some l1) log1 →
      rasqal_expression_evaluate2 w ctx arg2 = .ret none log2 →
      rasqal_expression_evaluate2 w ctx (some (.mk op arg1 arg2 arg3 literal name args)) =
        .ret none (log1 ++ log2)) ∧
    (∀ l1 log1, rasqal_expression_evaluate2 w ctx arg1 = .ret (some l1) log1 →
      ((w.rasqal_literal_negate l1).2 = true →
        rasqal_expression_evaluate2 w ctx
          (some (.mk .RASQAL_EXPR_UMINUS arg1 arg2 arg3 literal name args)) =
            .ret none log1) ∧
      ((w.rasqal_literal_as_integer l1).2 = true →
        rasqal_expression_evaluate2 w ctx
          (some (.mk .RASQAL_EXPR_TILDE arg1 arg2 arg3 literal name args)) =
            .ret none log1) ∧
      ((w.rasqal_literal_as_boolean l1).2 = true →
        rasqal_expression_evaluate2 w ctx
          (some (.mk .RASQAL_EXPR_BANG arg1 arg2 arg3 literal name args)) = .ret none log1) ∧
      ((w.rasqal_literal_cast l1 name ctx.flags).2 = true →
        rasqal_expression_evaluate2 w ctx
          (some (.mk .RASQAL_EXPR_CAST arg1 arg2 arg3 literal name args)) =
            .ret none log1)) ∧
    (∀ l1 l2 log1 log2, rasqal_expression_evaluate2 w ctx arg1 = .ret (some l1) log1 →
      rasqal_expression_evaluate2 w ctx arg2 = .ret (some l2) log2 →
      ((w.rasqal_literal_equals_flags l1 l2 ctx.flags).2 = true →
        rasqal_expression_evaluate2 w ctx
          (some (.mk .RASQAL_EXPR_EQ arg1 arg2 arg3 literal name args)) =
            .ret none (log1 ++ log2)) ∧
      ((w.rasqal_literal_not_equals_flags l1 l2 ctx.flags).2 = true →
        rasqal_expression_evaluate2 w ctx
          (some (.mk .RASQAL_EXPR_NEQ arg1 arg2 arg3 literal name args)) =
            .ret none (log1 ++ log2)) ∧
      ((w.rasqal_literal_compare l1 l2 ctx.flags).2 = true →
        rasqal_expression_evaluate2 w ctx
          (some (.mk .RASQAL_EXPR_LT arg1 arg2 arg3 literal name args)) =
            .ret none (log1 ++ log2) ∧
        rasqal_expression_evaluate2 w ctx
          (some (.mk .RASQAL_EXPR_GT arg1 arg2 arg3 literal name args)) =
            .ret none (log1 ++ log2) ∧
        rasqal_expression_evaluate2 w ctx
          (some (.mk .RASQAL_EXPR_LE arg1 arg2 arg3 literal name args)) =
            .ret none (log1 ++ log2) ∧
        rasqal_expression_evaluate2 w ctx
          (some (.mk .RASQAL_EXPR_GE arg1 arg2 arg3 literal name args)) =
            .ret none (log1 ++ log2)) ∧
      ((w.rasqal_literal_compare l1 l2 (ctx.flags ||| RASQAL_COMPARE_NOCASE)).2 = true →
        rasqal_expression_evaluate2 w ctx
          (some (.mk .RASQAL_EXPR_STR_EQ arg1 arg2 arg3 literal name args)) =
            .ret none (log1 ++ log2) ∧
        rasqal_expression_evaluate2 w ctx
          (some (.mk .RASQAL_EXPR_STR_NEQ arg1 arg2 arg3 literal name args)) =
            .ret none (log1 ++ log2)) ∧
      ((w.rasqal_literal_add l1 l2).2 = true →
        rasqal_expression_evaluate2 w ctx
          (some (.mk .RASQAL_EXPR_PLUS arg1 arg2 arg3 literal name args)) =
            .ret none (log1 ++ log2)) ∧
      ((w.rasqal_literal_subtract l1 l2).2 = true →
        rasqal_expression_evaluate2 w ctx
          (some (.mk .RASQAL_EXPR_MINUS arg1 arg2 arg3 literal name args)) =
            .ret none (log1 ++ log2)) ∧
      ((w.rasqal_literal_multiply l1 l2).2 = true →
        rasqal_expression_evaluate2 w ctx
          (some (.mk .RASQAL_EXPR_STAR arg1 arg2 arg3 literal name args)) =
            .ret none (log1 ++ log2)) ∧
      ((w.rasqal_literal_divide l1 l2).2 = true →
        rasqal_expression_evaluate2 w ctx
          (some (.mk .RASQAL_EXPR_SLASH arg1 arg2 arg3 literal name args)) =
            .ret none (log1 ++ log2)) ∧
      (((w.rasqal_literal_as_integer l1).2 = true ∨
          (w.rasqal_literal_as_integer l2).2 = true) →
        ¬ ((w.rasqal_literal_as_integer l1).1 = INT_MIN ∧
          (w.rasqal_literal_as_integer l2).1 = -1) →
        rasqal_expression_evaluate2 w ctx
          (some (.mk .RASQAL_EXPR_REM arg1 arg2 arg3 literal name args)) =
            .ret none (log1 ++ log2))) ∧
    (rasqal_expression_evaluate2 sample_collaborators sample_context (some leaf_unbound) =
        .ret none [] ∧
      rasqal_expression_evaluate2 sample_collaborators sample_context
          (some (binary .RASQAL_EXPR_AND (leaf literal_false) leaf_unbound)) =
        .ret (rasqal_new_boolean_literal 0) [] ∧
      rasqal_expression_evaluate2 sample_collaborators sample_context
          (some (binary .RASQAL_EXPR_OR (leaf literal_true) leaf_unbound)) =
        .ret (rasqal_new_boolean_literal 1) [] ∧
      rasqal_expression_evaluate2 sample_collaborators sample_context
          (some (variadic .RASQAL_EXPR_COALESCE [leaf_unbound, leaf literal_x])) =
        .ret (some literal_x) [] ∧
      rasqal_expression_evaluate2 sample_collaborators sample_context
          (some (unary .RASQAL_EXPR_BOUND leaf_unbound)) =
        .ret (rasqal_new_boolean_literal 0) [] ∧
      rasqal_expression_evaluate2 sample_collaborators sample_context
          (some (.mk .RASQAL_EXPR_IF (some (leaf literal_true)) (some (leaf literal_x))
            (some leaf_unbound) none none [])) = .ret (some literal_x) [] ∧
      rasqal_expression_evaluate2 sample_collaborators sample_context
          (some (.mk .RASQAL_EXPR_IN (some (leaf literal_x)) none none none none
            [some (leaf literal_x), some leaf_unbound])) =
        .ret (rasqal_new_boolean_literal 1) [] ∧
      rasqal_expression_evaluate2 sample_collaborators sample_context
          (some (.mk .RASQAL_EXPR_NOT_IN (some (leaf literal_x)) none none none none
            [some (leaf literal_x), some leaf_unbound])) =
        .ret (rasqal_new_boolean_literal 0) [] ∧
      rasqal_expression_evaluate2 sample_collaborators sample_context
          (some (unary .RASQAL_EXPR_FUNCTION leaf_unbound)) =
        .ret (rasqal_new_boolean_literal 0)
          [⟨.RAPTOR_LOG_LEVEL_WARN, none,
            "No function expressions support at present.  Returning false."⟩]) ∧
    (∀ op ∈ failure_strict_ops, ∀ a ∈ operands_evaluated op arg1 arg2 arg3 args,
      evaluation_fails (rasqal_expression_evaluate2 w ctx a) →
      ¬ evaluation_succeeds (rasqal_expression_evaluate2 w ctx
        (some (.mk op arg1 arg2 arg3 literal name args)))) ∧
    (∀ op ∈ never_succeeding_ops,
      ¬ evaluation_succeeds (rasqal_expression_evaluate2 w ctx
        (some (.mk op arg1 arg2 arg3 literal name args)))) ∧
    (∀ op, op ∈ failure_strict_ops ∨ op ∈ failure_lenient_ops ∨ op ∈ never_succeeding_ops ∨
      op = .RASQAL_EXPR_LITERAL ∨
      (delegated_evaluation w op (.mk op arg1 arg2 arg3 literal name args) ctx).isSome =
        true) :=
  ⟨fun op log1 hop h1 =>
      propagating_ops_fail_on_first_operand w ctx arg1 arg2 arg3 literal name args op log1
        hop h1,
    fun op l1 log1 log2 hop h1 h2 =>
      propagating_ops_fail_on_second_operand w ctx arg1 arg2 arg3 literal name args op l1
        log1 log2 hop h1 h2,
    fun l1 log1 h1 =>
      propagating_unary_ops_fail_on_error w ctx arg1 arg2 arg3 literal name args l1 log1 h1,
    fun l1 l2 log1 log2 h1 h2 =>
      propagating_binary_ops_fail_on_error w ctx arg1 arg2 arg3 literal name args l1 l2
        log1 log2 h1 h2,
    ⟨rfl, rfl, rfl, rfl, rfl, rfl, rfl, rfl, rfl⟩,
    fun op hop a ha hfail =>
      strict_ops_do_not_succeed w ctx arg1 arg2 arg3 literal name args op hop a ha hfail,
    fun op hop =>
      never_succeeding_ops_do_not_succeed w ctx arg1 arg2 arg3 literal name args op hop,
    fun op => operator_classes_cover w ctx (.mk op arg1 arg2 arg3 literal name args) op⟩

/-- C25 witness: `unbound + 1`, `1 + unbound` and `NOT unbound` fail, as does
`NOT uri`, whose coercion to a boolean reports an error; and
`STRLANG("x", unbound)`, outside the operators the claim lists, does not
succeed. -/
theorem failure_propagates_by_default_witness :
    rasqal_expression_evaluate2 sample_collaborators sample_context
        (some (binary .RASQAL_EXPR_PLUS leaf_unbound (leaf (literal_integer 1)))) =
      .ret none [] ∧
    rasqal_expression_evaluate2 sample_collaborators sample_context
        (some (binary .RASQAL_EXPR_PLUS (leaf (literal_integer 1)) leaf_unbound)) =
      .ret none ([] ++ []) ∧
    rasqal_expression_evaluate2 sample_collaborators sample_context
        (some (unary .RASQAL_EXPR_BANG leaf_unbound)) = .ret none [] ∧
    rasqal_expression_evaluate2 sample_collaborators sample_context
        (some (unary .RASQAL_EXPR_BANG (leaf literal_uri))) = .ret none [] ∧
    ¬ evaluation_succeeds (rasqal_expression_evaluate2 sample_collaborators sample_context
        (some (binary .RASQAL_EXPR_STRLANG (leaf literal_x) leaf_unbound))) :=
  ⟨(failure_propagates_by_default sample_collaborators sample_context (some leaf_unbound)
      (some (leaf (literal_integer 1))) none none none []).1 .RASQAL_EXPR_PLUS []
      (by decide) rfl,
    (failure_propagates_by_default sample_collaborators sample_context
      (some (leaf (literal_integer 1))) (some leaf_unbound) none none none []).2.1
      .RASQAL_EXPR_PLUS (literal_integer 1) [] [] (by decide) rfl rfl,
    (failure_propagates_by_default sample_collaborators sample_context (some leaf_unbound)
      none none none none []).1 .RASQAL_EXPR_BANG [] (by decide) rfl,
    ((failure_propagates_by_default sample_collaborators sample_context
      (some (leaf literal_uri)) none none none none []).2.2.1 literal_uri [] rfl).2.2.1 rfl,
    (failure_propagates_by_default sample_collaborators sample_context
      (some (leaf literal_x)) (some leaf_unbound) none none none []).2.2.2.2.2.1
      .RASQAL_EXPR_STRLANG (by decide) (some leaf_unbound)
      (by simp [operands_evaluated]) ⟨[], rfl⟩⟩

/-! ## Theorems: the end of the recursion -/

/-- A sequence of two steps does not stop for a reason for which neither step
stops. -/
theorem bind_ne_stopped {α β : Type} (why : stop_reason) (c : computation α)
    (k : α → computation β)
    (hc : c ≠ .stopped why) (hk : ∀ a, k a ≠ .stopped why) :
    c.bind k ≠ .stopped why := by
  cases c with
  | stopped why' =>
    intro h
    simp only [computation.bind, computation.stopped.injEq] at h
    exact hc (by rw [h])
  | ret a log =>
    have := hk a
    rw [bind_ret]
    cases hka : k a with
    | stopped why' =>
      rw [hka] at this
      simpa using this
    | ret b log' => simp

/-- The loop of IN / NOT-IN calls the evaluator on the candidates only. -/
theorem in_set_loop_calling_congr (w : collaborators) (ctx : rasqal_evaluation_context)
    (ev ev' : Option rasqal_expression → eval_result) (l1 : rasqal_literal)
    (args : List (Option rasqal_expression)) (hargs : ∀ a ∈ args, ev a = ev' a) :
    rasqal_expression_evaluate_in_set_loop_calling w ctx ev l1 args =
      rasqal_expression_evaluate_in_set_loop_calling w ctx ev' l1 args := by
  induction args with
  | nil => simp only [rasqal_expression_evaluate_in_set_loop_calling]
  | cons a args ih =>
    have iht := ih (fun b hb => hargs b (List.mem_cons_of_mem a hb))
    simp only [rasqal_expression_evaluate_in_set_loop_calling,
      hargs a (List.mem_cons_self a args), iht]

/-- The loop of COALESCE calls the evaluator on the alternatives only. -/
theorem coalesce_calling_congr (ev ev' : Option rasqal_expression → eval_result)
    (args : List (Option rasqal_expression)) (hargs : ∀ a ∈ args, ev a = ev' a) :
    rasqal_expression_evaluate_coalesce_calling ev args =
      rasqal_expression_evaluate_coalesce_calling ev' args := by
  induction args with
  | nil => simp only [rasqal_expression_evaluate_coalesce_calling]
  | cons a args ih =>
    have iht := ih (fun b hb => hargs b (List.mem_cons_of_mem a hb))
    have ha := hargs a (List.mem_cons_self a args)
    cases a with
    | none => simp only [rasqal_expression_evaluate_coalesce_calling, iht]
    | some e => simp only [rasqal_expression_evaluate_coalesce_calling, iht, ha]

/-- The loop of IN / NOT-IN is the loop that calls `rasqal_expression_evaluate2`. -/
theorem in_set_loop_eq_calling (w : collaborators) (ctx : rasqal_evaluation_context)
    (l1 : rasqal_literal) (args : List (Option rasqal_expression)) :
    rasqal_expression_evaluate_in_set_loop w ctx l1 args =
      rasqal_expression_evaluate_in_set_loop_calling w ctx
        (rasqal_expression_evaluate2 w ctx) l1 args := by
  induction args with
  | nil =>
    simp only [rasqal_expression_evaluate_in_set_loop,
      rasqal_expression_evaluate_in_set_loop_calling]
  | cons a args ih =>
    simp only [rasqal_expression_evaluate_in_set_loop,
      rasqal_expression_evaluate_in_set_loop_calling, ih]

/-- The loop of COALESCE is the loop that calls `rasqal_expression_evaluate2`. -/
theorem coalesce_eq_calling (w : collaborators) (ctx : rasqal_evaluation_context)
    (args : List (Option rasqal_expression)) :
    rasqal_expression_evaluate_coalesce w ctx args =
      rasqal_expression_evaluate_coalesce_calling (rasqal_expression_evaluate2 w ctx) args := by
  induction args with
  | nil =>
    simp only [rasqal_expression_evaluate_coalesce,
      rasqal_expression_evaluate_coalesce_calling]
  | cons a args ih =>
    cases a with
    | none =>
      simp only [rasqal_expression_evaluate_coalesce,
        rasqal_expression_evaluate_coalesce_calling, ih]
    | some e =>
      simp only [rasqal_expression_evaluate_coalesce,
        rasqal_expression_evaluate_coalesce_calling, ih]

set_option maxHeartbeats 2000000 in
/-- The dispatcher calls the evaluator on `arg1`, `arg2`, `arg3` and the
members of `args` only: two evaluators that agree there give the same result
for the node. -/
theorem switch_calling_congr (w : collaborators) (ctx : rasqal_evaluation_context)
    (ev ev' : Option rasqal_expression → eval_result)
    (op : rasqal_op) (arg1 arg2 arg3 : Option rasqal_expression)
    (literal : Option rasqal_literal) (name : Option raptor_uri)
    (args : List (Option rasqal_expression))
    (h1 : ev arg1 = ev' arg1) (h2 : ev arg2 = ev' arg2) (h3 : ev arg3 = ev' arg3)
    (hargs : ∀ a ∈ args, ev a = ev' a) :
    rasqal_expression_evaluate2_switch_calling w ctx ev
        (.mk op arg1 arg2 arg3 literal name args) =
      rasqal_expression_evaluate2_switch_calling w ctx ev'
        (.mk op arg1 arg2 arg3 literal name args) := by
  have hloop := fun l1 => in_set_loop_calling_congr w ctx ev ev' l1 args hargs
  have hco := coalesce_calling_congr ev ev' args hargs
  cases op <;>
    simp only [rasqal_expression_evaluate2_switch_calling, h1, h2, h3, hloop, hco]

set_option maxHeartbeats 2000000 in
/-- The dispatcher is the dispatcher that calls `rasqal_expression_evaluate2`. -/
theorem switch_eq_calling (w : collaborators) (ctx : rasqal_evaluation_context)
    (e : rasqal_expression) :
    rasqal_expression_evaluate2_switch w ctx e =
      rasqal_expression_evaluate2_switch_calling w ctx (rasqal_expression_evaluate2 w ctx) e := by
  have hloop := fun l1 args => in_set_loop_eq_calling w ctx l1 args
  have hco := fun args => coalesce_eq_calling w ctx args
  cases e with
  | mk op arg1 arg2 arg3 literal name args =>
    cases op <;>
      simp only [rasqal_expression_evaluate2_switch, rasqal_expression_evaluate2_switch_calling,
        hloop, hco]

/-- A member of an operand sequence is no larger than the sequence. -/
theorem operand_size_le_of_mem (args : List (Option rasqal_expression))
    (a : Option rasqal_expression) (ha : a ∈ args) :
    operand_size a ≤ operands_size args := by
  induction args with
  | nil => exact absurd ha (List.not_mem_nil a)
  | cons b args ih =>
    rw [operands_size]
    rcases List.mem_cons.mp ha with h | h
    · rw [h]
      omega
    · have := ih h
      omega

/-- With a bound on the depth of calls above the size of the tree, the bounded
run of the dispatcher gives the result of `rasqal_expression_evaluate2`. -/
theorem bounded_eq_evaluate2 (w : collaborators) (ctx : rasqal_evaluation_context)
    (depth : Nat) :
    ∀ e : Option rasqal_expression, operand_size e < depth →
      rasqal_expression_evaluate2_bounded w ctx depth e = rasqal_expression_evaluate2 w ctx e := by
  induction depth with
  | zero =>
    intro e h
    omega
  | succ depth ih =>
    intro e h
    cases e with
    | none => simp only [rasqal_expression_evaluate2_bounded, rasqal_expression_evaluate2]
    | some e =>
      rw [rasqal_expression_evaluate2_bounded, rasqal_expression_evaluate2, switch_eq_calling]
      cases e with
      | mk op arg1 arg2 arg3 literal name args =>
        simp only [operand_size, expression_size] at h
        refine switch_calling_congr w ctx _ _ op arg1 arg2 arg3 literal name args
          (ih _ (by omega)) (ih _ (by omega)) (ih _ (by omega)) (fun a ha => ih _ ?_)
        have := operand_size_le_of_mem args a ha
        omega

/-- The loop of IN / NOT-IN does not stop for a reason for which no call of
the evaluator on a candidate stops. -/
theorem in_set_loop_calling_ne_stopped (w : collaborators) (ctx : rasqal_evaluation_context)
    (why : stop_reason) (ev : Option rasqal_expression → eval_result)
    (l1 : rasqal_literal) (args : List (Option rasqal_expression))
    (hargs : ∀ a ∈ args, ev a ≠ .stopped why) :
    rasqal_expression_evaluate_in_set_loop_calling w ctx ev l1 args ≠ .stopped why := by
  induction args with
  | nil => simp [rasqal_expression_evaluate_in_set_loop_calling]
  | cons a args ih =>
    have iht := ih (fun b hb => hargs b (List.mem_cons_of_mem a hb))
    rw [rasqal_expression_evaluate_in_set_loop_calling]
    refine bind_ne_stopped why _ _ (hargs a (List.mem_cons_self a args)) (fun r => ?_)
    cases r with
    | none => simp
    | some l =>
      simp only
      split_ifs <;> first | exact iht | simp

/-- The loop of COALESCE does not stop for a reason for which no call of the
evaluator on an alternative stops. -/
theorem coalesce_calling_ne_stopped (why : stop_reason)
    (ev : Option rasqal_expression → eval_result) (args : List (Option rasqal_expression))
    (hargs : ∀ a ∈ args, ev a ≠ .stopped why) :
    rasqal_expression_evaluate_coalesce_calling ev args ≠ .stopped why := by
  induction args with
  | nil => simp [rasqal_expression_evaluate_coalesce_calling]
  | cons a args ih =>
    have iht := ih (fun b hb => hargs b (List.mem_cons_of_mem a hb))
    cases a with
    | none =>
      rw [rasqal_expression_evaluate_coalesce_calling]
      exact iht
    | some e =>
      rw [rasqal_expression_evaluate_coalesce_calling]
      refine bind_ne_stopped why _ _ (hargs (some e) (List.mem_cons_self _ args)) (fun r => ?_)
      cases r with
      | none => exact iht
      | some l => simp

set_option maxHeartbeats 4000000 in
/-- A node does not use the bound on the depth of calls up unless a call on one
of its operands, or an evaluator defined in another file, does. -/
theorem switch_calling_ne_out_of_fuel (w : collaborators) (ctx : rasqal_evaluation_context)
    (ev : Option rasqal_expression → eval_result)
    (op : rasqal_op) (arg1 arg2 arg3 : Option rasqal_expression)
    (literal : Option rasqal_literal) (name : Option raptor_uri)
    (args : List (Option rasqal_expression))
    (hw : delegated_never_out_of_fuel w)
    (h1 : ev arg1 ≠ .stopped .out_of_fuel) (h2 : ev arg2 ≠ .stopped .out_of_fuel)
    (h3 : ev arg3 ≠ .stopped .out_of_fuel)
    (hargs : ∀ a ∈ args, ev a ≠ .stopped .out_of_fuel) :
    rasqal_expression_evaluate2_switch_calling w ctx ev
        (.mk op arg1 arg2 arg3 literal name args) ≠ .stopped .out_of_fuel := by
  have hd := hw (.mk op arg1 arg2 arg3 literal name args) ctx
  obtain ⟨d1, d2, d3, d4, d5, d6, d7, d8, d9, d10, d11, d12, d13, d14⟩ := hd
  have hloop := fun l1 => in_set_loop_calling_ne_stopped w ctx .out_of_fuel ev l1 args hargs
  have hco := coalesce_calling_ne_stopped .out_of_fuel ev args hargs
  cases op
  case RASQAL_EXPR_BNODE =>
    simp only [rasqal_expression_evaluate2_switch_calling]
    cases arg1 with
    | none =>
      simp only [rasqal_expression_evaluate_bnode_constructor, failed]
      split <;> simp
    | some x =>
      simp only [rasqal_expression_evaluate_bnode_constructor, failed]
      refine bind_ne_stopped _ _ _ h1 (fun l1 => ?_)
      repeat' (first | split | simp)
  all_goals simp only [rasqal_expression_evaluate2_switch_calling]
  all_goals first
    | assumption
    | (simp only [rasqal_expression_evaluate_strdt, rasqal_expression_evaluate_strlang,
        rasqal_expression_evaluate_istype, rasqal_expression_evaluate_if,
        rasqal_expression_evaluate_sameterm, rasqal_expression_evaluate_in_set,
        rasqal_expression_evaluate_str, rasqal_expression_evaluate_lang,
        rasqal_expression_evaluate_datatype, rasqal_expression_evaluate_uri_constructor,
        rasqal_expression_evaluate_bnode_constructor, evaluate_two_operands,
        boolean_unless_error, result_unless_error, failed, RASQAL_FATAL3]
       repeat' (first
        | assumption
        | exact hloop _
        | refine bind_ne_stopped _ _ _ ?_ (fun _ => ?_)
        | split
        | simp))
    | (repeat' (first
        | assumption
        | exact hloop _
        | refine bind_ne_stopped _ _ _ ?_ (fun _ => ?_)
        | split
        | simp))

/-- The bounded run of the dispatcher does not use a bound above the size of
the tree up. -/
theorem bounded_ne_out_of_fuel (w : collaborators) (ctx : rasqal_evaluation_context)
    (hw : delegated_never_out_of_fuel w) (depth : Nat) :
    ∀ e : Option rasqal_expression, operand_size e < depth →
      rasqal_expression_evaluate2_bounded w ctx depth e ≠ .stopped .out_of_fuel := by
  induction depth with
  | zero =>
    intro e h
    omega
  | succ depth ih =>
    intro e h
    cases e with
    | none =>
      rw [rasqal_expression_evaluate2_bounded]
      split <;> simp
    | some e =>
      rw [rasqal_expression_evaluate2_bounded]
      cases e with
      | mk op arg1 arg2 arg3 literal name args =>
        simp only [operand_size, expression_size] at h
        refine switch_calling_ne_out_of_fuel w ctx _ op arg1 arg2 arg3 literal name args hw
          (ih _ (by omega)) (ih _ (by omega)) (ih _ (by omega)) (fun a ha => ih _ ?_)
        have := operand_size_le_of_mem args a ha
        omega

theorem sample_collaborators_delegated_never_out_of_fuel :
    delegated_never_out_of_fuel sample_collaborators := by
  intro e ctx
  simp [sample_collaborators, failed]

/-- C26: evaluation ends. For every expression tree (or `NULL`), context and
collaborators, the run of `rasqal_expression_evaluate2` with a bound on the
depth of calls above the size of the tree does not use the bound up, and its
outcome is that of `rasqal_expression_evaluate2`, a total function defined by
recursion on the structure of the tree. The dispatcher calls itself on `arg1`,
`arg2`, `arg3` and the members of `args` only (two evaluators that agree on
these give the same result for the node), and each of them is a tree of
smaller size than the node. -/
theorem evaluation_terminates (w : collaborators) (ctx : rasqal_evaluation_context)
    (hw : delegated_never_out_of_fuel w) (e : Option rasqal_expression) (depth : Nat)
    (hdepth : operand_size e < depth) :
    rasqal_expression_evaluate2_bounded w ctx depth e ≠ .stopped .out_of_fuel ∧
    rasqal_expression_evaluate2_bounded w ctx depth e = rasqal_expression_evaluate2 w ctx e ∧
    (∀ (ev ev' : Option rasqal_expression → eval_result) (op : rasqal_op)
        (arg1 arg2 arg3 : Option rasqal_expression) (literal : Option rasqal_literal)
        (name : Option raptor_uri) (args : List (Option rasqal_expression)),
      ev arg1 = ev' arg1 → ev arg2 = ev' arg2 → ev arg3 = ev' arg3 →
      (∀ a ∈ args, ev a = ev' a) →
      rasqal_expression_evaluate2_switch_calling w ctx ev
          (.mk op arg1 arg2 arg3 literal name args) =
        rasqal_expression_evaluate2_switch_calling w ctx ev'
          (.mk op arg1 arg2 arg3 literal name args)) ∧
    (∀ (op : rasqal_op) (arg1 arg2 arg3 : Option rasqal_expression)
        (literal : Option rasqal_literal) (name : Option raptor_uri)
        (args : List (Option rasqal_expression)),
      operand_size arg1 < expression_size (.mk op arg1 arg2 arg3 literal name args) ∧
      operand_size arg2 < expression_size (.mk op arg1 arg2 arg3 literal name args) ∧
      operand_size arg3 < expression_size (.mk op arg1 arg2 arg3 literal name args) ∧
      ∀ a ∈ args,
        operand_size a < expression_size (.mk op arg1 arg2 arg3 literal name args)) := by
  refine ⟨bounded_ne_out_of_fuel w ctx hw depth e hdepth,
    bounded_eq_evaluate2 w ctx depth e hdepth, ?_, ?_⟩
  · intro ev ev' op arg1 arg2 arg3 literal name args h1 h2 h3 hargs
    exact switch_calling_congr w ctx ev ev' op arg1 arg2 arg3 literal name args h1 h2 h3 hargs
  · intro op arg1 arg2 arg3 literal name args
    simp only [expression_size]
    refine ⟨by omega, by omega, by omega, fun a ha => ?_⟩
    have := operand_size_le_of_mem args a ha
    omega

/-- C26 witness: `true AND true`, a tree of three nodes, evaluated with a bound
of four on the depth of calls. -/
theorem evaluation_terminates_witness :
    operand_size (some (binary .RASQAL_EXPR_AND (leaf literal_true) (leaf literal_true))) < 4 ∧
    rasqal_expression_evaluate2_bounded sample_collaborators sample_context 4
        (some (binary .RASQAL_EXPR_AND (leaf literal_true) (leaf literal_true))) ≠
      .stopped .out_of_fuel ∧
    rasqal_expression_evaluate2_bounded sample_collaborators sample_context 4
        (some (binary .RASQAL_EXPR_AND (leaf literal_true) (leaf literal_true))) =
      rasqal_expression_evaluate2 sample_collaborators sample_context
        (some (binary .RASQAL_EXPR_AND (leaf literal_true) (leaf literal_true))) :=
  ⟨by simp [operand_size, expression_size, operands_size, binary, leaf],
    (evaluation_terminates sample_collaborators sample_context
      sample_collaborators_delegated_never_out_of_fuel
      (some (binary .RASQAL_EXPR_AND (leaf literal_true) (leaf literal_true))) 4
      (by simp [operand_size, expression_size, operands_size, binary, leaf])).1,
    (evaluation_terminates sample_collaborators sample_context
      sample_collaborators_delegated_never_out_of_fuel
      (some (binary .RASQAL_EXPR_AND (leaf literal_true) (leaf literal_true))) 4
      (by simp [operand_size, expression_size, operands_size, binary, leaf])).2.1⟩

/-! ## Theorems: the constant marker -/

/-- C31: the constant marker form VARSTAR produces no term. For every such
node, whatever its operand slots hold, every context and every collaborator
set, `rasqal_expression_evaluate2` returns `NULL` with no diagnostic, without
evaluating an operand (an operand of unknown operator, whose evaluation is
fatal, changes nothing); this is the outcome `failed` of ordinary evaluation
failure, the very outcome of a reference to an unbound variable. -/
theorem varstar_returns_no_value (w : collaborators) (ctx : rasqal_evaluation_context)
    (arg1 arg2 arg3 : Option rasqal_expression) (literal : Option rasqal_literal)
    (name : Option raptor_uri) (args : List (Option rasqal_expression)) :
    rasqal_expression_evaluate2 w ctx
        (some (.mk .RASQAL_EXPR_VARSTAR arg1 arg2 arg3 literal name args)) = .ret none [] ∧
    rasqal_expression_evaluate2 w ctx
        (some (.mk .RASQAL_EXPR_VARSTAR arg1 arg2 arg3 literal name args)) = failed ∧
    rasqal_expression_evaluate2 w ctx
        (some (.mk .RASQAL_EXPR_VARSTAR arg1 arg2 arg3 literal name args)) =
      rasqal_expression_evaluate2 w ctx (some leaf_unbound) ∧
    rasqal_expression_evaluate2 w ctx (some (unary .RASQAL_EXPR_VARSTAR node_unknown)) =
      .ret none [] ∧
    rasqal_expression_evaluate2 w ctx (some node_unknown) = RASQAL_FATAL3 := by
  refine ⟨?_, ?_, ?_, ?_, ?_⟩
  · simp only [rasqal_expression_evaluate2, rasqal_expression_evaluate2_switch]
  · simp only [rasqal_expression_evaluate2, rasqal_expression_evaluate2_switch, failed]
  · simp [rasqal_expression_evaluate2, rasqal_expression_evaluate2_switch, leaf_unbound, leaf,
      literal_variable, rasqal_literal_value, rasqal_literal_as_variable,
      rasqal_new_literal_from_literal, rasqal_literal.type, rasqal_literal.value_variable,
      failed]
  · simp only [rasqal_expression_evaluate2, rasqal_expression_evaluate2_switch, unary]
  · simp only [rasqal_expression_evaluate2, rasqal_expression_evaluate2_switch, node_unknown]
